import Mathlib

/-!
# Account ledger of `src/endpoints/account.js`

A shallow embedding of the points ledger / access state machine: daily cost
settlement (`applyDailyCosts`), the 30-day purge, check-in, access toggle, code
redemption and the access gate (`getEffectiveAccess`).

Modelling conventions

* JavaScript numbers holding points are exact rationals (`ℚ`); `Math.round x` is
  `⌊x + 1/2⌋`.  Timestamps are integers (epoch milliseconds).
* The ambient clock `Date.now()` is an explicit argument `now`; one reading is
  used for a whole request.
* Local time is a fixed offset `tz` (milliseconds east of UTC), so the local
  midnights of `todayMidnight` are `MS_PER_DAY` apart.  The source takes the
  midnight of the host's zone (`setHours(0, 0, 0, 0)`), where a day with a clock
  change lasts 23 or 25 hours.  The theorems on a number of days (`offDays`, the
  days of access a balance buys) therefore state the distance of the midnights
  involved as a hypothesis on the values of `todayMidnight`, and
  `chargeDays_short_day` evaluates the charge between two midnights of a zone
  with a clock change.
* `toUpperCase` is the default upper-case conversion of Unicode, by table: the
  ASCII letters, and every code point above U+007F that has an upper-case form.
* A field read through JavaScript truthiness (`x || y`, `x && y`, `!x`) treats
  the number `0` like a missing value, as the source does.
* `node-persist` is a key-value store with value semantics: `getItem` yields a
  fresh copy, and a record changes in the store only through `setItem`.  The
  key prefixes `account:` and `redeem:` keep the two kinds of entry apart,
  so the store is a pair of maps over the full key strings.
-/

namespace Account

/-! ## Constants and the record types -/

def MS_PER_DAY : Int := 24 * 60 * 60 * 1000

def ACCOUNT_PREFIX : String := "account:"

def REDEEM_CODE_PREFIX : String := "redeem:"

/-- AccountState of the source (`@typedef AccountState`). -/
structure AccountState where
  handle : String
  points : ℚ
  accessOn : Bool
  lastCostAppliedAt : Int
  lastCheckInDate : String
  accessOffSince : Option Int
  createdAt : Int
deriving DecidableEq

/-- The entry stored under a redeem key: `points`, `used`, `usedBy`, `usedAt`. -/
structure RedeemData where
  points : ℚ
  used : Bool
  usedBy : Option String
  usedAt : Option Int
deriving DecidableEq

/-- The persistent store: account entries and redeem entries by full key, and
the handles whose profile entry and data tree `purgeUserData` has destroyed. -/
structure Store where
  accounts : String → Option AccountState
  codes : String → Option RedeemData
  purgedUsers : List String

/-- The `req.user.profile` of an authenticated request. -/
structure User where
  handle : String
  name : String
deriving DecidableEq

/-! ## The upper-case mapping of Unicode

`String.prototype.toUpperCase` applies the default upper-case conversion of
Unicode to every code point, without regard to locale or context.  The table
lists every code point above U+007F whose upper-case form differs from itself,
with that form, from Unicode 14.0 (UnicodeData and the unconditional entries of
SpecialCasing); a form may have up to three code points.  A code point that
received an upper-case form in a later version is kept as it is.  The theorems
read two facts off the table: U+00DF has the form `SS`, and U+1E9E has no entry. -/

/-- Upper-case forms of the code points U+00B5 to U+01CE. -/
def upperCaseTable0 : List (Nat × List Nat) :=
  [(181, [924]), (223, [83, 83]), (224, [192]), (225, [193]), (226, [194]), (227, [195]),
   (228, [196]), (229, [197]), (230, [198]), (231, [199]), (232, [200]), (233, [201]),
   (234, [202]), (235, [203]), (236, [204]), (237, [205]), (238, [206]), (239, [207]),
   (240, [208]), (241, [209]), (242, [210]), (243, [211]), (244, [212]), (245, [213]),
   (246, [214]), (248, [216]), (249, [217]), (250, [218]), (251, [219]), (252, [220]),
   (253, [221]), (254, [222]), (255, [376]), (257, [256]), (259, [258]), (261, [260]),
   (263, [262]), (265, [264]), (267, [266]), (269, [268]), (271, [270]), (273, [272]),
   (275, [274]), (277, [276]), (279, [278]), (281, [280]), (283, [282]), (285, [284]),
   (287, [286]), (289, [288]), (291, [290]), (293, [292]), (295, [294]), (297, [296]),
   (299, [298]), (301, [300]), (303, [302]), (305, [73]), (307, [306]), (309, [308]),
   (311, [310]), (314, [313]), (316, [315]), (318, [317]), (320, [319]), (322, [321]),
   (324, [323]), (326, [325]), (328, [327]), (329, [700, 78]), (331, [330]), (333, [332]),
   (335, [334]), (337, [336]), (339, [338]), (341, [340]), (343, [342]), (345, [344]),
   (347, [346]), (349, [348]), (351, [350]), (353, [352]), (355, [354]), (357, [356]),
   (359, [358]), (361, [360]), (363, [362]), (365, [364]), (367, [366]), (369, [368]),
   (371, [370]), (373, [372]), (375, [374]), (378, [377]), (380, [379]), (382, [381]),
   (383, [83]), (384, [579]), (387, [386]), (389, [388]), (392, [391]), (396, [395]),
   (402, [401]), (405, [502]), (409, [408]), (410, [573]), (414, [544]), (417, [416]),
   (419, [418]), (421, [420]), (424, [423]), (429, [428]), (432, [431]), (436, [435]),
   (438, [437]), (441, [440]), (445, [444]), (447, [503]), (453, [452]), (454, [452]),
   (456, [455]), (457, [455]), (459, [458]), (460, [458]), (462, [461])]

/-- Upper-case forms of the code points U+01D0 to U+03C0. -/
def upperCaseTable1 : List (Nat × List Nat) :=
  [(464, [463]), (466, [465]), (468, [467]), (470, [469]), (472, [471]), (474, [473]),
   (476, [475]), (477, [398]), (479, [478]), (481, [480]), (483, [482]), (485, [484]),
   (487, [486]), (489, [488]), (491, [490]), (493, [492]), (495, [494]), (496, [74, 780]),
   (498, [497]), (499, [497]), (501, [500]), (505, [504]), (507, [506]), (509, [508]),
   (511, [510]), (513, [512]), (515, [514]), (517, [516]), (519, [518]), (521, [520]),
   (523, [522]), (525, [524]), (527, [526]), (529, [528]), (531, [530]), (533, [532]),
   (535, [534]), (537, [536]), (539, [538]), (541, [540]), (543, [542]), (547, [546]),
   (549, [548]), (551, [550]), (553, [552]), (555, [554]), (557, [556]), (559, [558]),
   (561, [560]), (563, [562]), (572, [571]), (575, [11390]), (576, [11391]), (578, [577]),
   (583, [582]), (585, [584]), (587, [586]), (589, [588]), (591, [590]), (592, [11375]),
   (593, [11373]), (594, [11376]), (595, [385]), (596, [390]), (598, [393]), (599, [394]),
   (601, [399]), (603, [400]), (604, [42923]), (608, [403]), (609, [42924]), (611, [404]),
   (613, [42893]), (614, [42922]), (616, [407]), (617, [406]), (618, [42926]), (619, [11362]),
   (620, [42925]), (623, [412]), (625, [11374]), (626, [413]), (629, [415]), (637, [11364]),
   (640, [422]), (642, [42949]), (643, [425]), (647, [42929]), (648, [430]), (649, [580]),
   (650, [433]), (651, [434]), (652, [581]), (658, [439]), (669, [42930]), (670, [42928]),
   (837, [921]), (881, [880]), (883, [882]), (887, [886]), (891, [1021]), (892, [1022]),
   (893, [1023]), (912, [921, 776, 769]), (940, [902]), (941, [904]), (942, [905]), (943, [906]),
   (944, [933, 776, 769]), (945, [913]), (946, [914]), (947, [915]), (948, [916]), (949, [917]),
   (950, [918]), (951, [919]), (952, [920]), (953, [921]), (954, [922]), (955, [923]),
   (956, [924]), (957, [925]), (958, [926]), (959, [927]), (960, [928])]

/-- Upper-case forms of the code points U+03C1 to U+04B5. -/
def upperCaseTable2 : List (Nat × List Nat) :=
  [(961, [929]), (962, [931]), (963, [931]), (964, [932]), (965, [933]), (966, [934]),
   (967, [935]), (968, [936]), (969, [937]), (970, [938]), (971, [939]), (972, [908]),
   (973, [910]), (974, [911]), (976, [914]), (977, [920]), (981, [934]), (982, [928]),
   (983, [975]), (985, [984]), (987, [986]), (989, [988]), (991, [990]), (993, [992]),
   (995, [994]), (997, [996]), (999, [998]), (1001, [1000]), (1003, [1002]), (1005, [1004]),
   (1007, [1006]), (1008, [922]), (1009, [929]), (1010, [1017]), (1011, [895]), (1013, [917]),
   (1016, [1015]), (1019, [1018]), (1072, [1040]), (1073, [1041]), (1074, [1042]), (1075, [1043]),
   (1076, [1044]), (1077, [1045]), (1078, [1046]), (1079, [1047]), (1080, [1048]), (1081, [1049]),
   (1082, [1050]), (1083, [1051]), (1084, [1052]), (1085, [1053]), (1086, [1054]), (1087, [1055]),
   (1088, [1056]), (1089, [1057]), (1090, [1058]), (1091, [1059]), (1092, [1060]), (1093, [1061]),
   (1094, [1062]), (1095, [1063]), (1096, [1064]), (1097, [1065]), (1098, [1066]), (1099, [1067]),
   (1100, [1068]), (1101, [1069]), (1102, [1070]), (1103, [1071]), (1104, [1024]), (1105, [1025]),
   (1106, [1026]), (1107, [1027]), (1108, [1028]), (1109, [1029]), (1110, [1030]), (1111, [1031]),
   (1112, [1032]), (1113, [1033]), (1114, [1034]), (1115, [1035]), (1116, [1036]), (1117, [1037]),
   (1118, [1038]), (1119, [1039]), (1121, [1120]), (1123, [1122]), (1125, [1124]), (1127, [1126]),
   (1129, [1128]), (1131, [1130]), (1133, [1132]), (1135, [1134]), (1137, [1136]), (1139, [1138]),
   (1141, [1140]), (1143, [1142]), (1145, [1144]), (1147, [1146]), (1149, [1148]), (1151, [1150]),
   (1153, [1152]), (1163, [1162]), (1165, [1164]), (1167, [1166]), (1169, [1168]), (1171, [1170]),
   (1173, [1172]), (1175, [1174]), (1177, [1176]), (1179, [1178]), (1181, [1180]), (1183, [1182]),
   (1185, [1184]), (1187, [1186]), (1189, [1188]), (1191, [1190]), (1193, [1192]), (1195, [1194]),
   (1197, [1196]), (1199, [1198]), (1201, [1200]), (1203, [1202]), (1205, [1204])]

/-- Upper-case forms of the code points U+04B7 to U+10E8. -/
def upperCaseTable3 : List (Nat × List Nat) :=
  [(1207, [1206]), (1209, [1208]), (1211, [1210]), (1213, [1212]), (1215, [1214]), (1218, [1217]),
   (1220, [1219]), (1222, [1221]), (1224, [1223]), (1226, [1225]), (1228, [1227]), (1230, [1229]),
   (1231, [1216]), (1233, [1232]), (1235, [1234]), (1237, [1236]), (1239, [1238]), (1241, [1240]),
   (1243, [1242]), (1245, [1244]), (1247, [1246]), (1249, [1248]), (1251, [1250]), (1253, [1252]),
   (1255, [1254]), (1257, [1256]), (1259, [1258]), (1261, [1260]), (1263, [1262]), (1265, [1264]),
   (1267, [1266]), (1269, [1268]), (1271, [1270]), (1273, [1272]), (1275, [1274]), (1277, [1276]),
   (1279, [1278]), (1281, [1280]), (1283, [1282]), (1285, [1284]), (1287, [1286]), (1289, [1288]),
   (1291, [1290]), (1293, [1292]), (1295, [1294]), (1297, [1296]), (1299, [1298]), (1301, [1300]),
   (1303, [1302]), (1305, [1304]), (1307, [1306]), (1309, [1308]), (1311, [1310]), (1313, [1312]),
   (1315, [1314]), (1317, [1316]), (1319, [1318]), (1321, [1320]), (1323, [1322]), (1325, [1324]),
   (1327, [1326]), (1377, [1329]), (1378, [1330]), (1379, [1331]), (1380, [1332]), (1381, [1333]),
   (1382, [1334]), (1383, [1335]), (1384, [1336]), (1385, [1337]), (1386, [1338]), (1387, [1339]),
   (1388, [1340]), (1389, [1341]), (1390, [1342]), (1391, [1343]), (1392, [1344]), (1393, [1345]),
   (1394, [1346]), (1395, [1347]), (1396, [1348]), (1397, [1349]), (1398, [1350]), (1399, [1351]),
   (1400, [1352]), (1401, [1353]), (1402, [1354]), (1403, [1355]), (1404, [1356]), (1405, [1357]),
   (1406, [1358]), (1407, [1359]), (1408, [1360]), (1409, [1361]), (1410, [1362]), (1411, [1363]),
   (1412, [1364]), (1413, [1365]), (1414, [1366]), (1415, [1333, 1362]), (4304, [7312]),
   (4305, [7313]), (4306, [7314]), (4307, [7315]), (4308, [7316]), (4309, [7317]), (4310, [7318]),
   (4311, [7319]), (4312, [7320]), (4313, [7321]), (4314, [7322]), (4315, [7323]), (4316, [7324]),
   (4317, [7325]), (4318, [7326]), (4319, [7327]), (4320, [7328]), (4321, [7329]), (4322, [7330]),
   (4323, [7331]), (4324, [7332]), (4325, [7333]), (4326, [7334]), (4327, [7335]), (4328, [7336])]

/-- Upper-case forms of the code points U+10E9 to U+1EA9. -/
def upperCaseTable4 : List (Nat × List Nat) :=
  [(4329, [7337]), (4330, [7338]), (4331, [7339]), (4332, [7340]), (4333, [7341]), (4334, [7342]),
   (4335, [7343]), (4336, [7344]), (4337, [7345]), (4338, [7346]), (4339, [7347]), (4340, [7348]),
   (4341, [7349]), (4342, [7350]), (4343, [7351]), (4344, [7352]), (4345, [7353]), (4346, [7354]),
   (4349, [7357]), (4350, [7358]), (4351, [7359]), (5112, [5104]), (5113, [5105]), (5114, [5106]),
   (5115, [5107]), (5116, [5108]), (5117, [5109]), (7296, [1042]), (7297, [1044]), (7298, [1054]),
   (7299, [1057]), (7300, [1058]), (7301, [1058]), (7302, [1066]), (7303, [1122]),
   (7304, [42570]), (7545, [42877]), (7549, [11363]), (7566, [42950]), (7681, [7680]),
   (7683, [7682]), (7685, [7684]), (7687, [7686]), (7689, [7688]), (7691, [7690]), (7693, [7692]),
   (7695, [7694]), (7697, [7696]), (7699, [7698]), (7701, [7700]), (7703, [7702]), (7705, [7704]),
   (7707, [7706]), (7709, [7708]), (7711, [7710]), (7713, [7712]), (7715, [7714]), (7717, [7716]),
   (7719, [7718]), (7721, [7720]), (7723, [7722]), (7725, [7724]), (7727, [7726]), (7729, [7728]),
   (7731, [7730]), (7733, [7732]), (7735, [7734]), (7737, [7736]), (7739, [7738]), (7741, [7740]),
   (7743, [7742]), (7745, [7744]), (7747, [7746]), (7749, [7748]), (7751, [7750]), (7753, [7752]),
   (7755, [7754]), (7757, [7756]), (7759, [7758]), (7761, [7760]), (7763, [7762]), (7765, [7764]),
   (7767, [7766]), (7769, [7768]), (7771, [7770]), (7773, [7772]), (7775, [7774]), (7777, [7776]),
   (7779, [7778]), (7781, [7780]), (7783, [7782]), (7785, [7784]), (7787, [7786]), (7789, [7788]),
   (7791, [7790]), (7793, [7792]), (7795, [7794]), (7797, [7796]), (7799, [7798]), (7801, [7800]),
   (7803, [7802]), (7805, [7804]), (7807, [7806]), (7809, [7808]), (7811, [7810]), (7813, [7812]),
   (7815, [7814]), (7817, [7816]), (7819, [7818]), (7821, [7820]), (7823, [7822]), (7825, [7824]),
   (7827, [7826]), (7829, [7828]), (7830, [72, 817]), (7831, [84, 776]), (7832, [87, 778]),
   (7833, [89, 778]), (7834, [65, 702]), (7835, [7776]), (7841, [7840]), (7843, [7842]),
   (7845, [7844]), (7847, [7846]), (7849, [7848])]

/-- Upper-case forms of the code points U+1EAB to U+1F8F. -/
def upperCaseTable5 : List (Nat × List Nat) :=
  [(7851, [7850]), (7853, [7852]), (7855, [7854]), (7857, [7856]), (7859, [7858]), (7861, [7860]),
   (7863, [7862]), (7865, [7864]), (7867, [7866]), (7869, [7868]), (7871, [7870]), (7873, [7872]),
   (7875, [7874]), (7877, [7876]), (7879, [7878]), (7881, [7880]), (7883, [7882]), (7885, [7884]),
   (7887, [7886]), (7889, [7888]), (7891, [7890]), (7893, [7892]), (7895, [7894]), (7897, [7896]),
   (7899, [7898]), (7901, [7900]), (7903, [7902]), (7905, [7904]), (7907, [7906]), (7909, [7908]),
   (7911, [7910]), (7913, [7912]), (7915, [7914]), (7917, [7916]), (7919, [7918]), (7921, [7920]),
   (7923, [7922]), (7925, [7924]), (7927, [7926]), (7929, [7928]), (7931, [7930]), (7933, [7932]),
   (7935, [7934]), (7936, [7944]), (7937, [7945]), (7938, [7946]), (7939, [7947]), (7940, [7948]),
   (7941, [7949]), (7942, [7950]), (7943, [7951]), (7952, [7960]), (7953, [7961]), (7954, [7962]),
   (7955, [7963]), (7956, [7964]), (7957, [7965]), (7968, [7976]), (7969, [7977]), (7970, [7978]),
   (7971, [7979]), (7972, [7980]), (7973, [7981]), (7974, [7982]), (7975, [7983]), (7984, [7992]),
   (7985, [7993]), (7986, [7994]), (7987, [7995]), (7988, [7996]), (7989, [7997]), (7990, [7998]),
   (7991, [7999]), (8000, [8008]), (8001, [8009]), (8002, [8010]), (8003, [8011]), (8004, [8012]),
   (8005, [8013]), (8016, [933, 787]), (8017, [8025]), (8018, [933, 787, 768]), (8019, [8027]),
   (8020, [933, 787, 769]), (8021, [8029]), (8022, [933, 787, 834]), (8023, [8031]),
   (8032, [8040]), (8033, [8041]), (8034, [8042]), (8035, [8043]), (8036, [8044]), (8037, [8045]),
   (8038, [8046]), (8039, [8047]), (8048, [8122]), (8049, [8123]), (8050, [8136]), (8051, [8137]),
   (8052, [8138]), (8053, [8139]), (8054, [8154]), (8055, [8155]), (8056, [8184]), (8057, [8185]),
   (8058, [8170]), (8059, [8171]), (8060, [8186]), (8061, [8187]), (8064, [7944, 921]),
   (8065, [7945, 921]), (8066, [7946, 921]), (8067, [7947, 921]), (8068, [7948, 921]),
   (8069, [7949, 921]), (8070, [7950, 921]), (8071, [7951, 921]), (8072, [7944, 921]),
   (8073, [7945, 921]), (8074, [7946, 921]), (8075, [7947, 921]), (8076, [7948, 921]),
   (8077, [7949, 921]), (8078, [7950, 921]), (8079, [7951, 921])]

/-- Upper-case forms of the code points U+1F90 to U+2C3D. -/
def upperCaseTable6 : List (Nat × List Nat) :=
  [(8080, [7976, 921]), (8081, [7977, 921]), (8082, [7978, 921]), (8083, [7979, 921]),
   (8084, [7980, 921]), (8085, [7981, 921]), (8086, [7982, 921]), (8087, [7983, 921]),
   (8088, [7976, 921]), (8089, [7977, 921]), (8090, [7978, 921]), (8091, [7979, 921]),
   (8092, [7980, 921]), (8093, [7981, 921]), (8094, [7982, 921]), (8095, [7983, 921]),
   (8096, [8040, 921]), (8097, [8041, 921]), (8098, [8042, 921]), (8099, [8043, 921]),
   (8100, [8044, 921]), (8101, [8045, 921]), (8102, [8046, 921]), (8103, [8047, 921]),
   (8104, [8040, 921]), (8105, [8041, 921]), (8106, [8042, 921]), (8107, [8043, 921]),
   (8108, [8044, 921]), (8109, [8045, 921]), (8110, [8046, 921]), (8111, [8047, 921]),
   (8112, [8120]), (8113, [8121]), (8114, [8122, 921]), (8115, [913, 921]), (8116, [902, 921]),
   (8118, [913, 834]), (8119, [913, 834, 921]), (8124, [913, 921]), (8126, [921]),
   (8130, [8138, 921]), (8131, [919, 921]), (8132, [905, 921]), (8134, [919, 834]),
   (8135, [919, 834, 921]), (8140, [919, 921]), (8144, [8152]), (8145, [8153]),
   (8146, [921, 776, 768]), (8147, [921, 776, 769]), (8150, [921, 834]), (8151, [921, 776, 834]),
   (8160, [8168]), (8161, [8169]), (8162, [933, 776, 768]), (8163, [933, 776, 769]),
   (8164, [929, 787]), (8165, [8172]), (8166, [933, 834]), (8167, [933, 776, 834]),
   (8178, [8186, 921]), (8179, [937, 921]), (8180, [911, 921]), (8182, [937, 834]),
   (8183, [937, 834, 921]), (8188, [937, 921]), (8526, [8498]), (8560, [8544]), (8561, [8545]),
   (8562, [8546]), (8563, [8547]), (8564, [8548]), (8565, [8549]), (8566, [8550]), (8567, [8551]),
   (8568, [8552]), (8569, [8553]), (8570, [8554]), (8571, [8555]), (8572, [8556]), (8573, [8557]),
   (8574, [8558]), (8575, [8559]), (8580, [8579]), (9424, [9398]), (9425, [9399]), (9426, [9400]),
   (9427, [9401]), (9428, [9402]), (9429, [9403]), (9430, [9404]), (9431, [9405]), (9432, [9406]),
   (9433, [9407]), (9434, [9408]), (9435, [9409]), (9436, [9410]), (9437, [9411]), (9438, [9412]),
   (9439, [9413]), (9440, [9414]), (9441, [9415]), (9442, [9416]), (9443, [9417]), (9444, [9418]),
   (9445, [9419]), (9446, [9420]), (9447, [9421]), (9448, [9422]), (9449, [9423]),
   (11312, [11264]), (11313, [11265]), (11314, [11266]), (11315, [11267]), (11316, [11268]),
   (11317, [11269]), (11318, [11270]), (11319, [11271]), (11320, [11272]), (11321, [11273]),
   (11322, [11274]), (11323, [11275]), (11324, [11276]), (11325, [11277])]

/-- Upper-case forms of the code points U+2C3E to U+2D1D. -/
def upperCaseTable7 : List (Nat × List Nat) :=
  [(11326, [11278]), (11327, [11279]), (11328, [11280]), (11329, [11281]), (11330, [11282]),
   (11331, [11283]), (11332, [11284]), (11333, [11285]), (11334, [11286]), (11335, [11287]),
   (11336, [11288]), (11337, [11289]), (11338, [11290]), (11339, [11291]), (11340, [11292]),
   (11341, [11293]), (11342, [11294]), (11343, [11295]), (11344, [11296]), (11345, [11297]),
   (11346, [11298]), (11347, [11299]), (11348, [11300]), (11349, [11301]), (11350, [11302]),
   (11351, [11303]), (11352, [11304]), (11353, [11305]), (11354, [11306]), (11355, [11307]),
   (11356, [11308]), (11357, [11309]), (11358, [11310]), (11359, [11311]), (11361, [11360]),
   (11365, [570]), (11366, [574]), (11368, [11367]), (11370, [11369]), (11372, [11371]),
   (11379, [11378]), (11382, [11381]), (11393, [11392]), (11395, [11394]), (11397, [11396]),
   (11399, [11398]), (11401, [11400]), (11403, [11402]), (11405, [11404]), (11407, [11406]),
   (11409, [11408]), (11411, [11410]), (11413, [11412]), (11415, [11414]), (11417, [11416]),
   (11419, [11418]), (11421, [11420]), (11423, [11422]), (11425, [11424]), (11427, [11426]),
   (11429, [11428]), (11431, [11430]), (11433, [11432]), (11435, [11434]), (11437, [11436]),
   (11439, [11438]), (11441, [11440]), (11443, [11442]), (11445, [11444]), (11447, [11446]),
   (11449, [11448]), (11451, [11450]), (11453, [11452]), (11455, [11454]), (11457, [11456]),
   (11459, [11458]), (11461, [11460]), (11463, [11462]), (11465, [11464]), (11467, [11466]),
   (11469, [11468]), (11471, [11470]), (11473, [11472]), (11475, [11474]), (11477, [11476]),
   (11479, [11478]), (11481, [11480]), (11483, [11482]), (11485, [11484]), (11487, [11486]),
   (11489, [11488]), (11491, [11490]), (11500, [11499]), (11502, [11501]), (11507, [11506]),
   (11520, [4256]), (11521, [4257]), (11522, [4258]), (11523, [4259]), (11524, [4260]),
   (11525, [4261]), (11526, [4262]), (11527, [4263]), (11528, [4264]), (11529, [4265]),
   (11530, [4266]), (11531, [4267]), (11532, [4268]), (11533, [4269]), (11534, [4270]),
   (11535, [4271]), (11536, [4272]), (11537, [4273]), (11538, [4274]), (11539, [4275]),
   (11540, [4276]), (11541, [4277]), (11542, [4278]), (11543, [4279]), (11544, [4280]),
   (11545, [4281]), (11546, [4282]), (11547, [4283]), (11548, [4284]), (11549, [4285])]

/-- Upper-case forms of the code points U+2D1E to U+AB73. -/
def upperCaseTable8 : List (Nat × List Nat) :=
  [(11550, [4286]), (11551, [4287]), (11552, [4288]), (11553, [4289]), (11554, [4290]),
   (11555, [4291]), (11556, [4292]), (11557, [4293]), (11559, [4295]), (11565, [4301]),
   (42561, [42560]), (42563, [42562]), (42565, [42564]), (42567, [42566]), (42569, [42568]),
   (42571, [42570]), (42573, [42572]), (42575, [42574]), (42577, [42576]), (42579, [42578]),
   (42581, [42580]), (42583, [42582]), (42585, [42584]), (42587, [42586]), (42589, [42588]),
   (42591, [42590]), (42593, [42592]), (42595, [42594]), (42597, [42596]), (42599, [42598]),
   (42601, [42600]), (42603, [42602]), (42605, [42604]), (42625, [42624]), (42627, [42626]),
   (42629, [42628]), (42631, [42630]), (42633, [42632]), (42635, [42634]), (42637, [42636]),
   (42639, [42638]), (42641, [42640]), (42643, [42642]), (42645, [42644]), (42647, [42646]),
   (42649, [42648]), (42651, [42650]), (42787, [42786]), (42789, [42788]), (42791, [42790]),
   (42793, [42792]), (42795, [42794]), (42797, [42796]), (42799, [42798]), (42803, [42802]),
   (42805, [42804]), (42807, [42806]), (42809, [42808]), (42811, [42810]), (42813, [42812]),
   (42815, [42814]), (42817, [42816]), (42819, [42818]), (42821, [42820]), (42823, [42822]),
   (42825, [42824]), (42827, [42826]), (42829, [42828]), (42831, [42830]), (42833, [42832]),
   (42835, [42834]), (42837, [42836]), (42839, [42838]), (42841, [42840]), (42843, [42842]),
   (42845, [42844]), (42847, [42846]), (42849, [42848]), (42851, [42850]), (42853, [42852]),
   (42855, [42854]), (42857, [42856]), (42859, [42858]), (42861, [42860]), (42863, [42862]),
   (42874, [42873]), (42876, [42875]), (42879, [42878]), (42881, [42880]), (42883, [42882]),
   (42885, [42884]), (42887, [42886]), (42892, [42891]), (42897, [42896]), (42899, [42898]),
   (42900, [42948]), (42903, [42902]), (42905, [42904]), (42907, [42906]), (42909, [42908]),
   (42911, [42910]), (42913, [42912]), (42915, [42914]), (42917, [42916]), (42919, [42918]),
   (42921, [42920]), (42933, [42932]), (42935, [42934]), (42937, [42936]), (42939, [42938]),
   (42941, [42940]), (42943, [42942]), (42945, [42944]), (42947, [42946]), (42952, [42951]),
   (42954, [42953]), (42961, [42960]), (42967, [42966]), (42969, [42968]), (42998, [42997]),
   (43859, [42931]), (43888, [5024]), (43889, [5025]), (43890, [5026]), (43891, [5027])]

/-- Upper-case forms of the code points U+AB74 to U+10432. -/
def upperCaseTable9 : List (Nat × List Nat) :=
  [(43892, [5028]), (43893, [5029]), (43894, [5030]), (43895, [5031]), (43896, [5032]),
   (43897, [5033]), (43898, [5034]), (43899, [5035]), (43900, [5036]), (43901, [5037]),
   (43902, [5038]), (43903, [5039]), (43904, [5040]), (43905, [5041]), (43906, [5042]),
   (43907, [5043]), (43908, [5044]), (43909, [5045]), (43910, [5046]), (43911, [5047]),
   (43912, [5048]), (43913, [5049]), (43914, [5050]), (43915, [5051]), (43916, [5052]),
   (43917, [5053]), (43918, [5054]), (43919, [5055]), (43920, [5056]), (43921, [5057]),
   (43922, [5058]), (43923, [5059]), (43924, [5060]), (43925, [5061]), (43926, [5062]),
   (43927, [5063]), (43928, [5064]), (43929, [5065]), (43930, [5066]), (43931, [5067]),
   (43932, [5068]), (43933, [5069]), (43934, [5070]), (43935, [5071]), (43936, [5072]),
   (43937, [5073]), (43938, [5074]), (43939, [5075]), (43940, [5076]), (43941, [5077]),
   (43942, [5078]), (43943, [5079]), (43944, [5080]), (43945, [5081]), (43946, [5082]),
   (43947, [5083]), (43948, [5084]), (43949, [5085]), (43950, [5086]), (43951, [5087]),
   (43952, [5088]), (43953, [5089]), (43954, [5090]), (43955, [5091]), (43956, [5092]),
   (43957, [5093]), (43958, [5094]), (43959, [5095]), (43960, [5096]), (43961, [5097]),
   (43962, [5098]), (43963, [5099]), (43964, [5100]), (43965, [5101]), (43966, [5102]),
   (43967, [5103]), (64256, [70, 70]), (64257, [70, 73]), (64258, [70, 76]),
   (64259, [70, 70, 73]), (64260, [70, 70, 76]), (64261, [83, 84]), (64262, [83, 84]),
   (64275, [1348, 1350]), (64276, [1348, 1333]), (64277, [1348, 1339]), (64278, [1358, 1350]),
   (64279, [1348, 1341]), (65345, [65313]), (65346, [65314]), (65347, [65315]), (65348, [65316]),
   (65349, [65317]), (65350, [65318]), (65351, [65319]), (65352, [65320]), (65353, [65321]),
   (65354, [65322]), (65355, [65323]), (65356, [65324]), (65357, [65325]), (65358, [65326]),
   (65359, [65327]), (65360, [65328]), (65361, [65329]), (65362, [65330]), (65363, [65331]),
   (65364, [65332]), (65365, [65333]), (65366, [65334]), (65367, [65335]), (65368, [65336]),
   (65369, [65337]), (65370, [65338]), (66600, [66560]), (66601, [66561]), (66602, [66562]),
   (66603, [66563]), (66604, [66564]), (66605, [66565]), (66606, [66566]), (66607, [66567]),
   (66608, [66568]), (66609, [66569]), (66610, [66570])]

/-- Upper-case forms of the code points U+10433 to U+10CD8. -/
def upperCaseTable10 : List (Nat × List Nat) :=
  [(66611, [66571]), (66612, [66572]), (66613, [66573]), (66614, [66574]), (66615, [66575]),
   (66616, [66576]), (66617, [66577]), (66618, [66578]), (66619, [66579]), (66620, [66580]),
   (66621, [66581]), (66622, [66582]), (66623, [66583]), (66624, [66584]), (66625, [66585]),
   (66626, [66586]), (66627, [66587]), (66628, [66588]), (66629, [66589]), (66630, [66590]),
   (66631, [66591]), (66632, [66592]), (66633, [66593]), (66634, [66594]), (66635, [66595]),
   (66636, [66596]), (66637, [66597]), (66638, [66598]), (66639, [66599]), (66776, [66736]),
   (66777, [66737]), (66778, [66738]), (66779, [66739]), (66780, [66740]), (66781, [66741]),
   (66782, [66742]), (66783, [66743]), (66784, [66744]), (66785, [66745]), (66786, [66746]),
   (66787, [66747]), (66788, [66748]), (66789, [66749]), (66790, [66750]), (66791, [66751]),
   (66792, [66752]), (66793, [66753]), (66794, [66754]), (66795, [66755]), (66796, [66756]),
   (66797, [66757]), (66798, [66758]), (66799, [66759]), (66800, [66760]), (66801, [66761]),
   (66802, [66762]), (66803, [66763]), (66804, [66764]), (66805, [66765]), (66806, [66766]),
   (66807, [66767]), (66808, [66768]), (66809, [66769]), (66810, [66770]), (66811, [66771]),
   (66967, [66928]), (66968, [66929]), (66969, [66930]), (66970, [66931]), (66971, [66932]),
   (66972, [66933]), (66973, [66934]), (66974, [66935]), (66975, [66936]), (66976, [66937]),
   (66977, [66938]), (66979, [66940]), (66980, [66941]), (66981, [66942]), (66982, [66943]),
   (66983, [66944]), (66984, [66945]), (66985, [66946]), (66986, [66947]), (66987, [66948]),
   (66988, [66949]), (66989, [66950]), (66990, [66951]), (66991, [66952]), (66992, [66953]),
   (66993, [66954]), (66995, [66956]), (66996, [66957]), (66997, [66958]), (66998, [66959]),
   (66999, [66960]), (67000, [66961]), (67001, [66962]), (67003, [66964]), (67004, [66965]),
   (68800, [68736]), (68801, [68737]), (68802, [68738]), (68803, [68739]), (68804, [68740]),
   (68805, [68741]), (68806, [68742]), (68807, [68743]), (68808, [68744]), (68809, [68745]),
   (68810, [68746]), (68811, [68747]), (68812, [68748]), (68813, [68749]), (68814, [68750]),
   (68815, [68751]), (68816, [68752]), (68817, [68753]), (68818, [68754]), (68819, [68755]),
   (68820, [68756]), (68821, [68757]), (68822, [68758]), (68823, [68759]), (68824, [68760])]

/-- Upper-case forms of the code points U+10CD9 to U+1E943. -/
def upperCaseTable11 : List (Nat × List Nat) :=
  [(68825, [68761]), (68826, [68762]), (68827, [68763]), (68828, [68764]), (68829, [68765]),
   (68830, [68766]), (68831, [68767]), (68832, [68768]), (68833, [68769]), (68834, [68770]),
   (68835, [68771]), (68836, [68772]), (68837, [68773]), (68838, [68774]), (68839, [68775]),
   (68840, [68776]), (68841, [68777]), (68842, [68778]), (68843, [68779]), (68844, [68780]),
   (68845, [68781]), (68846, [68782]), (68847, [68783]), (68848, [68784]), (68849, [68785]),
   (68850, [68786]), (71872, [71840]), (71873, [71841]), (71874, [71842]), (71875, [71843]),
   (71876, [71844]), (71877, [71845]), (71878, [71846]), (71879, [71847]), (71880, [71848]),
   (71881, [71849]), (71882, [71850]), (71883, [71851]), (71884, [71852]), (71885, [71853]),
   (71886, [71854]), (71887, [71855]), (71888, [71856]), (71889, [71857]), (71890, [71858]),
   (71891, [71859]), (71892, [71860]), (71893, [71861]), (71894, [71862]), (71895, [71863]),
   (71896, [71864]), (71897, [71865]), (71898, [71866]), (71899, [71867]), (71900, [71868]),
   (71901, [71869]), (71902, [71870]), (71903, [71871]), (93792, [93760]), (93793, [93761]),
   (93794, [93762]), (93795, [93763]), (93796, [93764]), (93797, [93765]), (93798, [93766]),
   (93799, [93767]), (93800, [93768]), (93801, [93769]), (93802, [93770]), (93803, [93771]),
   (93804, [93772]), (93805, [93773]), (93806, [93774]), (93807, [93775]), (93808, [93776]),
   (93809, [93777]), (93810, [93778]), (93811, [93779]), (93812, [93780]), (93813, [93781]),
   (93814, [93782]), (93815, [93783]), (93816, [93784]), (93817, [93785]), (93818, [93786]),
   (93819, [93787]), (93820, [93788]), (93821, [93789]), (93822, [93790]), (93823, [93791]),
   (125218, [125184]), (125219, [125185]), (125220, [125186]), (125221, [125187]),
   (125222, [125188]), (125223, [125189]), (125224, [125190]), (125225, [125191]),
   (125226, [125192]), (125227, [125193]), (125228, [125194]), (125229, [125195]),
   (125230, [125196]), (125231, [125197]), (125232, [125198]), (125233, [125199]),
   (125234, [125200]), (125235, [125201]), (125236, [125202]), (125237, [125203]),
   (125238, [125204]), (125239, [125205]), (125240, [125206]), (125241, [125207]),
   (125242, [125208]), (125243, [125209]), (125244, [125210]), (125245, [125211]),
   (125246, [125212]), (125247, [125213]), (125248, [125214]), (125249, [125215]),
   (125250, [125216]), (125251, [125217])]

/-- Every code point above U+007F with an upper-case form other than itself. -/
def upperCaseTable : List (Nat × List Nat) :=
  upperCaseTable0 ++ upperCaseTable1 ++ upperCaseTable2 ++ upperCaseTable3 ++
    upperCaseTable4 ++ upperCaseTable5 ++ upperCaseTable6 ++ upperCaseTable7 ++
    upperCaseTable8 ++ upperCaseTable9 ++ upperCaseTable10 ++ upperCaseTable11

/-- The entry of `n` in a table of upper-case forms. -/
def lookupUpper (n : Nat) : List (Nat × List Nat) → Option (List Nat)
  | [] => none
  | (k, v) :: rest => if k = n then some v else lookupUpper n rest

/-- The upper-case form of one character: the ASCII letters `a`-`z` become
`A`-`Z` and the other ASCII characters stay; above U+007F the table decides. -/
def upperChar (c : Char) : List Char :=
  if c.toNat < 128 then [c.toUpper]
  else
    match lookupUpper c.toNat upperCaseTable with
    | some (x :: xs) => (x :: xs).map Char.ofNat
    | _ => [c]

/-- JavaScript `toUpperCase`: every character is replaced by its upper-case
form. -/
def toUpperCase (s : String) : String := String.mk (s.data.map upperChar).flatten

/-! ## Key and calendar helpers -/

def toAccountKey (handle : String) : String := ACCOUNT_PREFIX ++ handle

def toRedeemCodeKey (code : String) : String := REDEEM_CODE_PREFIX ++ toUpperCase code

/-- Number of the local calendar day containing `ts`, in the zone of fixed
offset `tz` (day 0 starts at local midnight of 1970-01-01). -/
def localDay (tz ts : Int) : Int := (ts + tz) / MS_PER_DAY

/-- Gregorian (year, month, day) of a day number counted from 1970-01-01. -/
def civilFromDays (z0 : Int) : Int × Int × Int :=
  let z := z0 + 719468
  let era := z / 146097
  let doe := z % 146097
  let yoe := (doe - doe / 1460 + doe / 36524 - doe / 146096) / 365
  let doy := doe - (365 * yoe + yoe / 4 - yoe / 100)
  let mp := (5 * doy + 2) / 153
  let d := doy - (153 * mp + 2) / 5 + 1
  let m := if mp < 10 then mp + 3 else mp - 9
  let y := yoe + era * 400 + (if m ≤ 2 then 1 else 0)
  (y, m, d)

/-- The `String(n).padStart(2, '0')` of the source, for `n ≥ 0`. -/
def pad2 (n : Int) : String :=
  if n < 10 then "0" ++ toString n else toString n

/-- Local calendar date of `ts` as `YYYY-MM-DD`. -/
def toDateString (tz ts : Int) : String :=
  let ymd := civilFromDays (localDay tz ts)
  toString ymd.1 ++ "-" ++ pad2 ymd.2.1 ++ "-" ++ pad2 ymd.2.2

/-- Local midnight at or before `ts` (`setHours(0, 0, 0, 0)`), in the zone of
fixed offset `tz`. -/
def todayMidnight (tz ts : Int) : Int := ts - (ts + tz) % MS_PER_DAY

/-- JavaScript `Math.round`: nearest integer, ties towards `+∞`. -/
def mathRound (x : ℚ) : Int := ⌊x + 1 / 2⌋

/-- The recurring expression `Math.round(x * 2) / 2`. -/
def round2half (x : ℚ) : ℚ := (mathRound (x * 2) : ℚ) / 2

/-- JavaScript truthiness of a `number | null` field. -/
def truthy (v : Option Int) : Bool :=
  match v with
  | some x => x != 0
  | none => false

/-! ## Store access -/

def Store.getAccount (st : Store) (key : String) : Option AccountState := st.accounts key

def Store.setAccount (st : Store) (key : String) (s : AccountState) : Store :=
  { st with accounts := fun k => if k = key then some s else st.accounts k }

def Store.getCode (st : Store) (key : String) : Option RedeemData := st.codes key

def Store.setCode (st : Store) (key : String) (c : RedeemData) : Store :=
  { st with codes := fun k => if k = key then some c else st.codes k }

/-- Effect of `purgeUserData`: the user's profile entry and data tree are gone. -/
def purgeUserData (handle : String) (st : Store) : Store :=
  { st with purgedUsers := handle :: st.purgedUsers }

/-! ## The ledger operations -/

/-- Initialize account state if missing (`getOrInitState`). -/
def getOrInitState (tz now : Int) (handle : String) (st : Store) : AccountState × Store :=
  match st.getAccount (toAccountKey handle) with
  | some existing => (existing, st)
  | none =>
    let initial : AccountState :=
      { handle := handle
        points := 20
        accessOn := true
        lastCostAppliedAt := todayMidnight tz now
        lastCheckInDate := ""
        accessOffSince := none
        createdAt := now }
    (initial, st.setAccount (toAccountKey handle) initial)

/-- The start of the settlement window:
`state.lastCostAppliedAt || todayMidnight(state.createdAt || Date.now())`. -/
def appliedFrom (tz now : Int) (state : AccountState) : Int :=
  if state.lastCostAppliedAt ≠ 0 then state.lastCostAppliedAt
  else todayMidnight tz (if state.createdAt ≠ 0 then state.createdAt else now)

/-- The purge test of `applyDailyCosts`:
`accessOn === false && accessOffSince && (Date.now() - accessOffSince) >= 30 days`. -/
def purgeCondition (now : Int) (state : AccountState) : Bool :=
  state.accessOn == false && truthy state.accessOffSince &&
    decide (now - state.accessOffSince.getD 0 ≥ 30 * MS_PER_DAY)

/-- The charging block of `applyDailyCosts` (`const days = ...; if (days > 0) ...`):
the whole days between `from_` and `nowMid` are charged at the current rate. -/
def chargeDays (nowMid from_ : Int) (state : AccountState) (st : Store) : AccountState × Store :=
  let days := (nowMid - from_) / MS_PER_DAY
  if days > 0 then
    let rate : Int := if state.accessOn then 1 else 0
    let cost := days * rate
    let s := { state with
      points := max 0 (round2half (state.points - (cost : ℚ)))
      lastCostAppliedAt := from_ + days * MS_PER_DAY }
    (s, st.setAccount (toAccountKey s.handle) s)
  else (state, st)

/-- The purge block of `applyDailyCosts` (`// Purge if OFF >= 30 days`). -/
def purgeIfDue (tz now : Int) (state : AccountState) (st : Store) : AccountState × Store :=
  if purgeCondition now state then
    let s := { state with
      points := 0
      accessOn := false
      lastCheckInDate := ""
      accessOffSince := some (todayMidnight tz now)
      lastCostAppliedAt := todayMidnight tz now }
    (s, (purgeUserData state.handle st).setAccount (toAccountKey s.handle) s)
  else (state, st)

/-- Applies daily costs since `lastCostAppliedAt` up to today midnight and
enforces the 30-day purge (`applyDailyCosts`). -/
def applyDailyCosts (tz now : Int) (state : AccountState) (st : Store) : AccountState × Store :=
  let nowMid := todayMidnight tz now
  let from_ := appliedFrom tz now state
  if from_ > nowMid then
    ({ state with lastCostAppliedAt := nowMid }, st)
  else
    let charged := chargeDays nowMid from_ state st
    purgeIfDue tz now charged.1 charged.2

/-! ## Requests and responses -/

/-- The JSON body of a successful `/status` response. -/
structure StatusPayload where
  handle : String
  name : String
  points : ℚ
  accessOn : Bool
  offDays : Int
  canCheckInToday : Bool
  purged : Bool
deriving DecidableEq

/-- What a route sends back: a bare status code, an error body, or the JSON
body of a success (the `message` text of `/redeem` is left out). -/
inductive Response where
  | sendStatus (code : Nat)
  | error (code : Nat) (message : String)
  | status (payload : StatusPayload)
  | checkin (points : ℚ) (lastCheckInDate : String)
  | toggle (accessOn : Bool) (points : ℚ)
  | redeem (points : ℚ) (addedPoints : ℚ)
deriving DecidableEq

/-- Result of the access gate: `allowed` and the optional `reason`. -/
structure Access where
  allowed : Bool
  reason : Option String
deriving DecidableEq

/-- The error of a repeated check-in (spec: `AlreadyCheckedIn`). -/
def AlreadyCheckedIn : Response := .error 400 "今日已签到"

/-- The error of an unaffordable activation (spec: `InsufficientPoints`). -/
def InsufficientPoints : Response := .error 400 "积分不足，无法开启（需要 1 积分）"

/-- The error of an unknown code (spec: `CodeNotFound`). -/
def CodeNotFound : Response := .error 404 "兑换码不存在或已失效"

/-- The error of a consumed code (spec: `CodeAlreadyUsed`). -/
def CodeAlreadyUsed : Response := .error 400 "此兑换码已被使用"

/-- Builds the status payload for the request user (`buildStatus`); `none` is
the thrown `No user in request`. -/
def buildStatus (tz now : Int) (user : User) (st : Store) : Option (StatusPayload × Store) :=
  if user.handle = "" then none
  else
    let loaded := getOrInitState tz now user.handle st
    let beforeOffSince := loaded.1.accessOffSince
    let settled := applyDailyCosts tz now loaded.1 loaded.2
    let state := settled.1
    let offDays : Int :=
      if state.accessOn || !truthy state.accessOffSince then 0
      else (todayMidnight tz now - todayMidnight tz (state.accessOffSince.getD 0)) / MS_PER_DAY
    let canCheckInToday := decide (state.lastCheckInDate ≠ toDateString tz now)
    let didPurge := truthy beforeOffSince && !state.accessOn &&
      decide (now - beforeOffSince.getD 0 ≥ 30 * MS_PER_DAY)
    some ({ handle := user.handle
            name := user.name
            points := state.points
            accessOn := state.accessOn
            offDays := offDays
            canCheckInToday := canCheckInToday
            purged := didPurge }, settled.2)

/-- Route `GET /status`. -/
def statusRoute (tz now : Int) (user : Option User) (st : Store) : Response × Store :=
  match user with
  | none => (.sendStatus 403, st)
  | some u =>
    match buildStatus tz now u st with
    | none => (.sendStatus 500, st)
    | some (payload, st1) => (.status payload, st1)

/-- Route `POST /checkin`: +5 points once per calendar day. -/
def checkinRoute (tz now : Int) (user : Option User) (st : Store) : Response × Store :=
  match user with
  | none => (.sendStatus 403, st)
  | some u =>
    let handle := u.handle
    let loaded := getOrInitState tz now handle st
    let settled := applyDailyCosts tz now loaded.1 loaded.2
    let state := settled.1
    let today := toDateString tz now
    if state.lastCheckInDate = today then (AlreadyCheckedIn, settled.2)
    else
      let state1 := { state with
        points := round2half (state.points + 5)
        lastCheckInDate := today }
      (.checkin state1.points state1.lastCheckInDate,
        settled.2.setAccount (toAccountKey handle) state1)

/-- Route `POST /toggle`; `desired` is `none` when the body has no boolean
`accessOn`. -/
def toggleRoute (tz now : Int) (user : Option User) (desired : Option Bool) (st : Store) :
    Response × Store :=
  match user with
  | none => (.sendStatus 403, st)
  | some u =>
    let handle := u.handle
    match desired with
    | none => (.error 400 "Missing accessOn boolean", st)
    | some desired =>
      let loaded := getOrInitState tz now handle st
      let settled := applyDailyCosts tz now loaded.1 loaded.2
      let state := settled.1
      if state.accessOn ≠ desired then
        if desired = true then
          if state.points < 1 then (InsufficientPoints, settled.2)
          else
            let state1 := { state with
              points := max 0 (round2half (state.points - 1))
              accessOn := true
              accessOffSince := none }
            (.toggle state1.accessOn state1.points,
              settled.2.setAccount (toAccountKey handle) state1)
        else
          let state1 := { state with
            accessOn := false
            accessOffSince := some now }
          (.toggle state1.accessOn state1.points,
            settled.2.setAccount (toAccountKey handle) state1)
      else (.toggle state.accessOn state.points, settled.2)

/-- Route `POST /redeem`; `code` is `none` when the body has no string `code`. -/
def redeemRoute (tz now : Int) (user : Option User) (code : Option String) (st : Store) :
    Response × Store :=
  match user with
  | none => (.sendStatus 403, st)
  | some u =>
    let handle := u.handle
    match code with
    | none => (.error 400 "请输入兑换码", st)
    | some code =>
      if code = "" then (.error 400 "请输入兑换码", st)
      else
        let codeKey := toRedeemCodeKey code
        match st.getCode codeKey with
        | none => (CodeNotFound, st)
        | some redeemData =>
          if redeemData.used then (CodeAlreadyUsed, st)
          else
            let redeemData1 := { redeemData with
              used := true
              usedBy := some handle
              usedAt := some now }
            let st1 := st.setCode codeKey redeemData1
            let loaded := getOrInitState tz now handle st1
            let settled := applyDailyCosts tz now loaded.1 loaded.2
            let state := settled.1
            let state1 := { state with points := round2half (state.points + redeemData1.points) }
            (.redeem state1.points redeemData1.points,
              settled.2.setAccount (toAccountKey handle) state1)

/-- Helper used by the server for gating `/app` (`getEffectiveAccess`). -/
def getEffectiveAccess (tz now : Int) (user : Option User) (st : Store) : Access × Store :=
  match user with
  | none => ({ allowed := false, reason := some "NOT_LOGGED_IN" }, st)
  | some u =>
    let loaded := getOrInitState tz now u.handle st
    let settled := applyDailyCosts tz now loaded.1 loaded.2
    let state := settled.1
    if !state.accessOn then ({ allowed := false, reason := some "OFF" }, settled.2)
    else if state.points ≤ 0 then ({ allowed := false, reason := some "NO_POINTS" }, settled.2)
    else ({ allowed := true, reason := none }, settled.2)

/-- The load-then-settle prefix shared by every route: the settled record and
the store after settlement. -/
def settleAccount (tz now : Int) (handle : String) (st : Store) : AccountState × Store :=
  applyDailyCosts tz now (getOrInitState tz now handle st).1 (getOrInitState tz now handle st).2

/-! ## Request sequences -/

/-- One request to the ledger. -/
inductive Op where
  | status (user : Option User)
  | gate (user : Option User)
  | checkin (user : Option User)
  | toggle (user : Option User) (desired : Option Bool)
  | redeem (user : Option User) (code : Option String)
deriving DecidableEq

/-- The store after serving one request at clock reading `now`. -/
def step (tz now : Int) (op : Op) (st : Store) : Store :=
  match op with
  | .status user => (statusRoute tz now user st).2
  | .gate user => (getEffectiveAccess tz now user st).2
  | .checkin user => (checkinRoute tz now user st).2
  | .toggle user desired => (toggleRoute tz now user desired st).2
  | .redeem user code => (redeemRoute tz now user code st).2

/-- The store after serving the timed requests one after another. -/
def run (tz : Int) (st : Store) : List (Int × Op) → Store
  | [] => st
  | (now, op) :: rest => run tz (step tz now op st) rest

/-- The clock readings of a request sequence never go back. -/
def nonDecreasing (events : List (Int × Op)) : Prop :=
  List.Chain' (fun a b => a ≤ b) (events.map Prod.fst)

/-- A store holding no account yet, with the given redeem entries. -/
def freshStore (codes : String → Option RedeemData) : Store :=
  { accounts := fun _ => none, codes := codes, purgedUsers := [] }

/-- A store with no entries at all. -/
def emptyStore : Store := freshStore (fun _ => none)

/-- A balance is a multiple of 0.5. -/
def IsHalfMultiple (p : ℚ) : Prop := ∃ k : Int, p = (k : ℚ) / 2

/-! ## Example data -/

/-- The user of the worked examples. -/
def exampleUser : User := { handle := "u", name := "U" }

/-- An account of `u` with access on, settled through 2024-10-04 (UTC). -/
def onAccount (points : ℚ) : AccountState :=
  { handle := "u", points := points, accessOn := true, lastCostAppliedAt := 1728000000000,
    lastCheckInDate := "", accessOffSince := none, createdAt := 1719360000000 }

/-- An account of `u` with access off since 2024-10-03, settled through
2024-10-04 (UTC). -/
def offAccount (points : ℚ) : AccountState :=
  { handle := "u", points := points, accessOn := false, lastCostAppliedAt := 1728000000000,
    lastCheckInDate := "", accessOffSince := some 1727913600000, createdAt := 1719360000000 }

/-- An account of `u` holding 5 points with access off since noon of
2024-09-04, settled through 2024-10-04 (UTC). -/
def longOffAccount : AccountState :=
  { handle := "u", points := 5, accessOn := false, lastCostAppliedAt := 1728000000000,
    lastCheckInDate := "", accessOffSince := some 1725451200000, createdAt := 1719360000000 }

/-- The store holding exactly the account `s`. -/
def storeWith (s : AccountState) : Store := emptyStore.setAccount (toAccountKey s.handle) s

/-- Redeem entries: the single unused code `X` with the given reward. -/
def codeX (reward : ℚ) : String → Option RedeemData :=
  fun k => if k = "redeem:X" then
    some { points := reward, used := false, usedBy := none, usedAt := none } else none

/-! ## Invariant scaffolding -/

/-- A record property `P` kept by every write of the ledger, where redeemed
rewards satisfy `R`. -/
structure Preserved (P : AccountState → Prop) (R : ℚ → Prop) : Prop where
  init : ∀ (h : String) (m n : Int), P
    { handle := h, points := 20, accessOn := true, lastCostAppliedAt := m,
      lastCheckInDate := "", accessOffSince := none, createdAt := n }
  clamp : ∀ (s : AccountState) (m : Int), P s → P { s with lastCostAppliedAt := m }
  charge : ∀ (s : AccountState) (c m : Int), P s →
    P { s with points := max 0 (round2half (s.points - (c : ℚ))), lastCostAppliedAt := m }
  purge : ∀ (s : AccountState) (m : Int), P s →
    P { s with points := 0, accessOn := false, lastCheckInDate := "",
               accessOffSince := some m, lastCostAppliedAt := m }
  checkin : ∀ (s : AccountState) (d : String), P s →
    P { s with points := round2half (s.points + 5), lastCheckInDate := d }
  toggleOn : ∀ (s : AccountState), P s →
    P { s with points := max 0 (round2half (s.points - 1)), accessOn := true,
               accessOffSince := none }
  toggleOff : ∀ (s : AccountState) (n : Int), P s →
    P { s with accessOn := false, accessOffSince := some n }
  redeem : ∀ (s : AccountState) (r : ℚ), R r → P s →
    P { s with points := round2half (s.points + r) }

/-- Every stored account satisfies `P` and every stored reward satisfies `R`. -/
def StoreInv (P : AccountState → Prop) (R : ℚ → Prop) (st : Store) : Prop :=
  (∀ key s, st.accounts key = some s → P s) ∧ (∀ key c, st.codes key = some c → R c.points)

/-- The account `longOffAccount` with `lastCostAppliedAt` one day ahead of
2024-10-04 (a record written before the clock was set back). -/
def skewedOffAccount : AccountState :=
  { longOffAccount with lastCostAppliedAt := 1728086400000 }

/-- An account of `u` holding 10 points, toggled off at noon of 2024-10-04 and
settled through that day (UTC). -/
def tenPointOffAccount : AccountState :=
  { handle := "u", points := 10, accessOn := false, lastCostAppliedAt := 1728000000000,
    lastCheckInDate := "2024-10-04", accessOffSince := some 1728043200000,
    createdAt := 1719360000000 }

/-! ## The two readings of the rounding policy -/

/-- The balance the source stores after a charge `c`:
`Math.max(0, Math.round((points - cost) * 2) / 2)`. -/
def settledBalance (p c : ℚ) : ℚ := max 0 (round2half (p - c))

/-- The spec's wording: clamp to zero first, then round to the nearest 0.5. -/
def roundAfterClamp (p c : ℚ) : ℚ := round2half (max 0 (p - c))

/-- The account `offAccount 10` with `accessOffSince` equal to the epoch
timestamp `0`. -/
def epochOffAccount : AccountState :=
  { offAccount 10 with accessOffSince := some 0 }

/-! ## Key discipline and the off-marker of one account -/

/-- Every account entry sits under the key of its own handle. -/
def StoreWF (st : Store) : Prop :=
  ∀ key s, st.accounts key = some s → key = toAccountKey s.handle

/-- The request is a toggle. -/
def Op.isToggle : Op → Bool
  | .toggle _ _ => true
  | _ => false

/-- The record is off with an off-marker not before `m`. -/
def OffSinceAtLeast (m : Int) (s : AccountState) : Prop :=
  s.accessOn = false ∧ ∃ a, s.accessOffSince = some a ∧ m ≤ a

/-- The store keeps the key discipline and, when `e` is set, holds under `key` an
account that is off with an off-marker not before `m`. -/
def OffInv (key : String) (m : Int) (e : Bool) (st : Store) : Prop :=
  StoreWF st ∧ (e = true → ∃ s, st.accounts key = some s ∧ OffSinceAtLeast m s)

/-- The record-level part of `OffInv`: a record of the watched key is off with
an off-marker not before `m`. -/
def OffRec (key : String) (m : Int) (e : Bool) (s : AccountState) : Prop :=
  e = true → toAccountKey s.handle = key → OffSinceAtLeast m s

/-! ## Redeem codes: letter case, the used flag, and the handler after its read -/

/-- Two characters are the same letter up to case: equal, or one is an ASCII
lower-case letter and the other its upper-case form (32 code points below). -/
def sameLetter (a b : Char) : Bool :=
  a == b ||
    (decide (97 ≤ a.toNat ∧ a.toNat ≤ 122) && b.toNat + 32 == a.toNat) ||
    (decide (97 ≤ b.toNat ∧ b.toNat ≤ 122) && a.toNat + 32 == b.toNat)

/-- Position by position, the characters are the same letter up to case. -/
def sameLetters : List Char → List Char → Bool
  | [], [] => true
  | a :: as, b :: bs => sameLetter a b && sameLetters as bs
  | _, _ => false

/-- The two strings differ only in the case of ASCII letters. -/
def differOnlyInCase (s t : String) : Bool := sameLetters s.data t.data

/-- The entry under `key` exists and is marked used. -/
def CodeUsed (key : String) (st : Store) : Prop :=
  ∃ c, st.codes key = some c ∧ c.used = true

/-- The `/redeem` handler of an authenticated request with a non-empty code,
from the point where `await storage.getItem(codeKey)` has returned the copy
`redeemData`, run on the store `st` as it is when the handler resumes. -/
def redeemAfterRead (tz now : Int) (handle code : String) (redeemData : Option RedeemData)
    (st : Store) : Response × Store :=
  match redeemData with
  | none => (CodeNotFound, st)
  | some redeemData =>
    if redeemData.used then (CodeAlreadyUsed, st)
    else
      let redeemData1 := { redeemData with
        used := true
        usedBy := some handle
        usedAt := some now }
      let st1 := st.setCode (toRedeemCodeKey code) redeemData1
      let loaded := getOrInitState tz now handle st1
      let settled := applyDailyCosts tz now loaded.1 loaded.2
      let state := settled.1
      let state1 := { state with points := round2half (state.points + redeemData1.points) }
      (.redeem state1.points redeemData1.points,
        settled.2.setAccount (toAccountKey handle) state1)

/-- The second user of the worked examples. -/
def otherUser : User := { handle := "v", name := "V" }

/-! ## Settlement of an account with access on -/

/-- The record `r` after `d` whole days charged at rate 1 from the window start
`f`; nothing changes when no whole day has elapsed. -/
def chargedRecord (r : AccountState) (f d : Int) : AccountState :=
  if 0 < d then
    { r with points := max 0 (r.points - (d : ℚ)), lastCostAppliedAt := f + d * MS_PER_DAY }
  else r

/-- The request is a status read or a gate evaluation by the user `u`. -/
def Op.isReadBy (u : User) : Op → Bool
  | .status (some v) => decide (v = u)
  | .gate (some v) => decide (v = u)
  | _ => false

/-- An account of `u` with 20 points whose `lastCostAppliedAt` is `0` (unset),
created on 2024-09-29 (UTC). -/
def unsetAccount : AccountState :=
  { handle := "u", points := 20, accessOn := true, lastCostAppliedAt := 0,
    lastCheckInDate := "", accessOffSince := none, createdAt := 1727568000000 }

/-- An account of `u` with 20 points whose `lastCostAppliedAt` is `0` (unset)
and whose `createdAt` is 2024-10-06 (UTC). -/
def lateCreatedAccount : AccountState :=
  { handle := "u", points := 20, accessOn := true, lastCostAppliedAt := 0,
    lastCheckInDate := "", accessOffSince := none, createdAt := 1728172800000 }

/-- The account under `key` is the record that settling `r` at some clock
reading between `t0` and `T` returns. -/
def SettledBetween (tz t0 T : Int) (key : String) (r : AccountState) (st : Store) : Prop :=
  ∃ τ, t0 ≤ τ ∧ τ ≤ T ∧ st.accounts key = some (applyDailyCosts tz τ r emptyStore).1

/-! ## Arithmetic of rounding and of the calendar -/

theorem MS_PER_DAY_eq : MS_PER_DAY = 86400000 := by decide

theorem mathRound_intCast (k : Int) : mathRound (k : ℚ) = k := by
  unfold mathRound
  rw [Int.floor_eq_iff]
  constructor
  · linarith
  · linarith

theorem round2half_half (k : Int) : round2half ((k : ℚ) / 2) = (k : ℚ) / 2 := by
  unfold round2half
  have h : (k : ℚ) / 2 * 2 = (k : ℚ) := by ring
  rw [h, mathRound_intCast]

theorem round2half_of_isHalf {p : ℚ} (hp : IsHalfMultiple p) : round2half p = p := by
  obtain ⟨k, hk⟩ := hp
  rw [hk]
  exact round2half_half k

theorem round2half_isHalf (x : ℚ) : IsHalfMultiple (round2half x) :=
  ⟨mathRound (x * 2), rfl⟩

theorem round2half_nonneg {x : ℚ} (hx : 0 ≤ x) : 0 ≤ round2half x := by
  unfold round2half mathRound
  have h : (0 : Int) ≤ ⌊x * 2 + 1 / 2⌋ := by
    apply Int.floor_nonneg.mpr
    linarith
  have h2 : (0 : ℚ) ≤ ((⌊x * 2 + 1 / 2⌋ : Int) : ℚ) := by exact_mod_cast h
  linarith

theorem isHalf_sub_int {p : ℚ} (hp : IsHalfMultiple p) (d : Int) :
    IsHalfMultiple (p - (d : ℚ)) := by
  obtain ⟨k, hk⟩ := hp
  refine ⟨k - 2 * d, ?_⟩
  rw [hk]
  push_cast
  ring

theorem isHalf_max_zero {p : ℚ} (hp : IsHalfMultiple p) : IsHalfMultiple (max 0 p) := by
  rcases le_total p 0 with h | h
  · rw [max_eq_left h]
    exact ⟨0, by simp⟩
  · rw [max_eq_right h]
    exact hp

theorem todayMidnight_eq_localDay (tz ts : Int) :
    todayMidnight tz ts = localDay tz ts * MS_PER_DAY - tz := by
  unfold todayMidnight localDay
  rw [MS_PER_DAY_eq]
  omega

theorem todayMidnight_congr {tz t1 t2 : Int} (h : localDay tz t1 = localDay tz t2) :
    todayMidnight tz t1 = todayMidnight tz t2 := by
  rw [todayMidnight_eq_localDay, todayMidnight_eq_localDay, h]

theorem toDateString_congr {tz t1 t2 : Int} (h : localDay tz t1 = localDay tz t2) :
    toDateString tz t1 = toDateString tz t2 := by
  unfold toDateString
  rw [h]

theorem todayMidnight_le (tz ts : Int) : todayMidnight tz ts ≤ ts := by
  unfold todayMidnight
  rw [MS_PER_DAY_eq]
  omega

/-! ## Settlement lemmas -/

theorem purgeCondition_of_on {now : Int} {s : AccountState} (h : s.accessOn = true) :
    purgeCondition now s = false := by
  unfold purgeCondition
  simp [h]

theorem applyDailyCosts_noop {tz now : Int} {s : AccountState} (st : Store)
    (hle : appliedFrom tz now s ≤ todayMidnight tz now)
    (hlt : todayMidnight tz now - appliedFrom tz now s < MS_PER_DAY)
    (hp : purgeCondition now s = false) :
    applyDailyCosts tz now s st = (s, st) := by
  have hd : (todayMidnight tz now - appliedFrom tz now s) / MS_PER_DAY = 0 := by
    rw [MS_PER_DAY_eq] at *
    omega
  unfold applyDailyCosts chargeDays purgeIfDue
  simp [not_lt.mpr hle, hd, hp]

theorem appliedFrom_same_day {tz t1 t2 : Int} (r : AccountState)
    (hday : localDay tz t1 = localDay tz t2) :
    appliedFrom tz t2 r = appliedFrom tz t1 r := by
  unfold appliedFrom
  by_cases hc : r.createdAt = 0
  · simp [hc, todayMidnight_congr hday]
  · simp [hc]

theorem appliedFrom_of_ne_zero {tz now : Int} {s : AccountState}
    (h : s.lastCostAppliedAt ≠ 0) : appliedFrom tz now s = s.lastCostAppliedAt := by
  unfold appliedFrom
  simp [h]

theorem purgeIfDue_lastCost (tz now : Int) (s : AccountState) (st : Store) :
    (purgeIfDue tz now s st).1.lastCostAppliedAt = todayMidnight tz now ∨
      (purgeIfDue tz now s st).1 = s := by
  unfold purgeIfDue
  split
  · left; rfl
  · right; rfl

theorem chargeDays_lastCost (M F : Int) (s : AccountState) (st : Store) :
    ((chargeDays M F s st).1.lastCostAppliedAt = F + (M - F) / MS_PER_DAY * MS_PER_DAY ∧
        0 < (M - F) / MS_PER_DAY) ∨
      ((chargeDays M F s st).1 = s ∧ M - F < MS_PER_DAY) := by
  unfold chargeDays
  by_cases hd : (M - F) / MS_PER_DAY > 0
  · left
    refine ⟨?_, hd⟩
    simp only [hd, if_true]
  · right
    simp only [hd, if_false]
    refine ⟨trivial, ?_⟩
    rw [MS_PER_DAY_eq] at *
    omega

theorem appliedFrom_settled {tz t1 t2 : Int} (r : AccountState) (st : Store)
    (hday : localDay tz t1 = localDay tz t2)
    (hclock : MS_PER_DAY ≤ todayMidnight tz t1) :
    appliedFrom tz t2 (applyDailyCosts tz t1 r st).1 ≤ todayMidnight tz t2 ∧
      todayMidnight tz t2 - appliedFrom tz t2 (applyDailyCosts tz t1 r st).1 < MS_PER_DAY := by
  have hM := todayMidnight_congr hday
  have hsame := appliedFrom_same_day r hday
  have hM0 : todayMidnight tz t1 ≠ 0 := by
    rw [MS_PER_DAY_eq] at hclock
    omega
  unfold applyDailyCosts
  by_cases hskew : appliedFrom tz t1 r > todayMidnight tz t1
  · simp only [hskew, if_true]
    rw [appliedFrom_of_ne_zero hM0, ← hM]
    dsimp only
    rw [MS_PER_DAY_eq] at *
    omega
  · simp only [hskew, if_false]
    rcases purgeIfDue_lastCost tz t1 (chargeDays (todayMidnight tz t1) (appliedFrom tz t1 r) r st).1
      (chargeDays (todayMidnight tz t1) (appliedFrom tz t1 r) r st).2 with hp | hp
    · rw [appliedFrom_of_ne_zero (by rw [hp]; exact hM0), hp, ← hM]
      rw [MS_PER_DAY_eq] at *
      omega
    · rw [hp]
      rcases chargeDays_lastCost (todayMidnight tz t1) (appliedFrom tz t1 r) r st
        with ⟨hc, hpos⟩ | ⟨hc, hlt⟩
      · have hne : (chargeDays (todayMidnight tz t1) (appliedFrom tz t1 r) r st).1.lastCostAppliedAt
            ≠ 0 := by
          rw [hc]
          rw [MS_PER_DAY_eq] at *
          omega
        rw [appliedFrom_of_ne_zero hne, hc, ← hM]
        rw [MS_PER_DAY_eq] at *
        omega
      · rw [hc, hsame, ← hM]
        exact ⟨not_lt.mp hskew, hlt⟩

/-! ## The gate in terms of the settled record -/

theorem getEffectiveAccess_eq (tz now : Int) (u : User) (st : Store) :
    getEffectiveAccess tz now (some u) st =
      if (!(settleAccount tz now u.handle st).1.accessOn) = true then
        ({ allowed := false, reason := some "OFF" }, (settleAccount tz now u.handle st).2)
      else if (settleAccount tz now u.handle st).1.points ≤ 0 then
        ({ allowed := false, reason := some "NO_POINTS" }, (settleAccount tz now u.handle st).2)
      else ({ allowed := true, reason := none }, (settleAccount tz now u.handle st).2) := rfl

theorem getEffectiveAccess_store (tz now : Int) (u : User) (st : Store) :
    (getEffectiveAccess tz now (some u) st).2 = (settleAccount tz now u.handle st).2 := by
  rw [getEffectiveAccess_eq]
  split
  · rfl
  · split <;> rfl

/-! ## Invariants of reachable stores -/

section Invariants

variable {P : AccountState → Prop} {R : ℚ → Prop}

theorem StoreInv.setAccount {st : Store} (h : StoreInv P R st) (key : String)
    {s : AccountState} (hs : P s) : StoreInv P R (st.setAccount key s) := by
  refine ⟨?_, h.2⟩
  intro k r hk
  unfold Store.setAccount at hk
  dsimp only at hk
  split at hk
  · cases hk
    exact hs
  · exact h.1 k r hk

theorem StoreInv.setCode {st : Store} (h : StoreInv P R st) (key : String)
    {c : RedeemData} (hc : R c.points) : StoreInv P R (st.setCode key c) := by
  refine ⟨h.1, ?_⟩
  intro k r hk
  unfold Store.setCode at hk
  dsimp only at hk
  split at hk
  · cases hk
    exact hc
  · exact h.2 k r hk

theorem StoreInv.purgeUserData {st : Store} (h : StoreInv P R st) (handle : String) :
    StoreInv P R (purgeUserData handle st) := h

theorem getOrInitState_inv (hP : Preserved P R) (tz now : Int) (handle : String) {st : Store}
    (h : StoreInv P R st) :
    P (getOrInitState tz now handle st).1 ∧ StoreInv P R (getOrInitState tz now handle st).2 := by
  unfold getOrInitState
  cases hget : st.getAccount (toAccountKey handle) with
  | some existing => exact ⟨h.1 _ _ hget, h⟩
  | none => exact ⟨hP.init _ _ _, h.setAccount _ (hP.init _ _ _)⟩

theorem chargeDays_inv (hP : Preserved P R) (M F : Int) {s : AccountState} {st : Store}
    (hs : P s) (h : StoreInv P R st) :
    P (chargeDays M F s st).1 ∧ StoreInv P R (chargeDays M F s st).2 := by
  unfold chargeDays
  dsimp only
  split
  · exact ⟨hP.charge _ _ _ hs, h.setAccount _ (hP.charge _ _ _ hs)⟩
  · exact ⟨hs, h⟩

theorem purgeIfDue_inv (hP : Preserved P R) (tz now : Int) {s : AccountState} {st : Store}
    (hs : P s) (h : StoreInv P R st) :
    P (purgeIfDue tz now s st).1 ∧ StoreInv P R (purgeIfDue tz now s st).2 := by
  unfold purgeIfDue
  dsimp only
  split
  · exact ⟨hP.purge _ _ hs, (h.purgeUserData _).setAccount _ (hP.purge _ _ hs)⟩
  · exact ⟨hs, h⟩

theorem applyDailyCosts_inv (hP : Preserved P R) (tz now : Int) {s : AccountState} {st : Store}
    (hs : P s) (h : StoreInv P R st) :
    P (applyDailyCosts tz now s st).1 ∧ StoreInv P R (applyDailyCosts tz now s st).2 := by
  unfold applyDailyCosts
  dsimp only
  split
  · exact ⟨hP.clamp _ _ hs, h⟩
  · have hc := chargeDays_inv hP (todayMidnight tz now) (appliedFrom tz now s) hs h
    exact purgeIfDue_inv hP tz now hc.1 hc.2

theorem settleAccount_inv (hP : Preserved P R) (tz now : Int) (handle : String) {st : Store}
    (h : StoreInv P R st) :
    P (settleAccount tz now handle st).1 ∧ StoreInv P R (settleAccount tz now handle st).2 := by
  have hl := getOrInitState_inv hP tz now handle h
  exact applyDailyCosts_inv hP tz now hl.1 hl.2

theorem statusRoute_inv (hP : Preserved P R) (tz now : Int) (user : Option User) {st : Store}
    (h : StoreInv P R st) : StoreInv P R (statusRoute tz now user st).2 := by
  unfold statusRoute
  cases user with
  | none => exact h
  | some u =>
    dsimp only
    unfold buildStatus
    by_cases hh : u.handle = ""
    · simp only [hh, if_true]
      exact h
    · simp only [hh, if_false]
      exact (settleAccount_inv hP tz now u.handle h).2

theorem getEffectiveAccess_inv (hP : Preserved P R) (tz now : Int) (user : Option User)
    {st : Store} (h : StoreInv P R st) : StoreInv P R (getEffectiveAccess tz now user st).2 := by
  unfold getEffectiveAccess
  cases user with
  | none => exact h
  | some u =>
    dsimp only
    have hs := (settleAccount_inv hP tz now u.handle h).2
    unfold settleAccount at hs
    split
    · exact hs
    · split
      · exact hs
      · exact hs

theorem checkinRoute_inv (hP : Preserved P R) (tz now : Int) (user : Option User)
    {st : Store} (h : StoreInv P R st) : StoreInv P R (checkinRoute tz now user st).2 := by
  unfold checkinRoute
  cases user with
  | none => exact h
  | some u =>
    dsimp only
    have hs := settleAccount_inv hP tz now u.handle h
    unfold settleAccount at hs
    split
    · exact hs.2
    · exact hs.2.setAccount _ (hP.checkin _ _ hs.1)

theorem toggleRoute_inv (hP : Preserved P R) (tz now : Int) (user : Option User)
    (desired : Option Bool) {st : Store} (h : StoreInv P R st) :
    StoreInv P R (toggleRoute tz now user desired st).2 := by
  unfold toggleRoute
  cases user with
  | none => exact h
  | some u =>
    cases desired with
    | none => exact h
    | some d =>
      dsimp only
      have hs := settleAccount_inv hP tz now u.handle h
      unfold settleAccount at hs
      split
      · split
        · split
          · exact hs.2
          · exact hs.2.setAccount _ (hP.toggleOn _ hs.1)
        · exact hs.2.setAccount _ (hP.toggleOff _ _ hs.1)
      · exact hs.2

theorem redeemRoute_inv (hP : Preserved P R) (tz now : Int) (user : Option User)
    (code : Option String) {st : Store} (h : StoreInv P R st) :
    StoreInv P R (redeemRoute tz now user code st).2 := by
  unfold redeemRoute
  cases user with
  | none => exact h
  | some u =>
    cases code with
    | none => exact h
    | some c =>
      dsimp only
      split
      · exact h
      · cases hget : st.getCode (toRedeemCodeKey c) with
        | none => exact h
        | some redeemData =>
          dsimp only
          split
          · exact h
          · have hr : R redeemData.points := h.2 _ _ hget
            have h1 : StoreInv P R (st.setCode (toRedeemCodeKey c)
                { redeemData with used := true, usedBy := some u.handle, usedAt := some now }) :=
              h.setCode _ hr
            have hs := settleAccount_inv hP tz now u.handle h1
            unfold settleAccount at hs
            exact hs.2.setAccount _ (hP.redeem _ _ hr hs.1)

theorem step_inv (hP : Preserved P R) (tz now : Int) (op : Op) {st : Store}
    (h : StoreInv P R st) : StoreInv P R (step tz now op st) := by
  cases op with
  | status user => exact statusRoute_inv hP tz now user h
  | gate user => exact getEffectiveAccess_inv hP tz now user h
  | checkin user => exact checkinRoute_inv hP tz now user h
  | toggle user desired => exact toggleRoute_inv hP tz now user desired h
  | redeem user code => exact redeemRoute_inv hP tz now user code h

theorem run_inv (hP : Preserved P R) (tz : Int) (events : List (Int × Op)) :
    ∀ {st : Store}, StoreInv P R st → StoreInv P R (run tz st events) := by
  induction events with
  | nil => intro st h; exact h
  | cons e rest ih =>
    intro st h
    obtain ⟨now, op⟩ := e
    exact ih (step_inv hP tz now op h)

end Invariants

/-! ## C1: settlement twice on one calendar day -/

/-- C1 (amended): for clock readings `t1`, `t2` on the same local calendar day
whose midnight lies at least one day after the epoch, if the 30-day purge is
not due at `t2` for the record settled at `t1`, then settling that record again
at `t2` returns it unchanged (so neither `points` nor `lastCostAppliedAt`
moves) and writes nothing to the store. -/
theorem applyDailyCosts_idempotent_same_day (tz t1 t2 : Int) (r : AccountState)
    (st st2 : Store)
    (hday : localDay tz t1 = localDay tz t2)
    (hclock : MS_PER_DAY ≤ todayMidnight tz t1)
    (hnopurge : purgeCondition t2 (applyDailyCosts tz t1 r st).1 = false) :
    (applyDailyCosts tz t2 (applyDailyCosts tz t1 r st).1 st2).1.points
        = (applyDailyCosts tz t1 r st).1.points ∧
      (applyDailyCosts tz t2 (applyDailyCosts tz t1 r st).1 st2).1.lastCostAppliedAt
        = (applyDailyCosts tz t1 r st).1.lastCostAppliedAt ∧
      applyDailyCosts tz t2 (applyDailyCosts tz t1 r st).1 st2
        = ((applyDailyCosts tz t1 r st).1, st2) := by
  have hwin := appliedFrom_settled r st hday hclock
  have h := applyDailyCosts_noop st2 hwin.1 hwin.2 hnopurge
  rw [h]
  exact ⟨rfl, rfl, rfl⟩

/-- Witness of C1 (amended): a 20-point account settled at 01:00 and again at
02:00 of 2024-10-04 (UTC). -/
theorem applyDailyCosts_idempotent_same_day_witness :
    localDay 0 1728003600000 = localDay 0 1728007200000 ∧
      MS_PER_DAY ≤ todayMidnight 0 1728003600000 ∧
      (applyDailyCosts 0 1728007200000
          (applyDailyCosts 0 1728003600000
            { handle := "u", points := 20, accessOn := true, lastCostAppliedAt := 1727827200000,
              lastCheckInDate := "", accessOffSince := none, createdAt := 1727827200000 }
            emptyStore).1 emptyStore).1.points
        = (applyDailyCosts 0 1728003600000
            { handle := "u", points := 20, accessOn := true, lastCostAppliedAt := 1727827200000,
              lastCheckInDate := "", accessOffSince := none, createdAt := 1727827200000 }
            emptyStore).1.points :=
  ⟨by decide, by decide,
    (applyDailyCosts_idempotent_same_day 0 1728003600000 1728007200000
      { handle := "u", points := 20, accessOn := true, lastCostAppliedAt := 1727827200000,
        lastCheckInDate := "", accessOffSince := none, createdAt := 1727827200000 }
      emptyStore emptyStore (by decide) (by decide) (by decide)).1⟩

/-- C1 as stated fails: an account off since noon of 2024-09-04 holds 5 points.
Settlement at 11:00 of 2024-10-04 leaves the 5 points; settlement of that
record at 13:00 of the same day, when the off-period has reached 30 days,
purges the account and sets the balance to 0. -/
theorem applyDailyCosts_same_day_counterexample :
    (1728039600000 : Int) ≤ 1728046800000 ∧
      localDay 0 1728039600000 = localDay 0 1728046800000 ∧
      (applyDailyCosts 0 1728039600000
          { handle := "u", points := 5, accessOn := false, lastCostAppliedAt := 1728000000000,
            lastCheckInDate := "", accessOffSince := some 1725451200000, createdAt := 1719360000000 }
          emptyStore).1.points = 5 ∧
      (applyDailyCosts 0 1728046800000
          (applyDailyCosts 0 1728039600000
            { handle := "u", points := 5, accessOn := false, lastCostAppliedAt := 1728000000000,
              lastCheckInDate := "", accessOffSince := some 1725451200000, createdAt := 1719360000000 }
            emptyStore).1 emptyStore).1.points = 0 := by
  refine ⟨by decide, by decide, ?_, ?_⟩
  · rfl
  · rfl

/-- Why C1 (amended) asks for a clock past the first days of the epoch: at 01:00
of 1970-01-01 (UTC) a record dated ahead of the clock is clamped to
`lastCostAppliedAt = 0`, which the next settlement reads as unset; it then
charges the three days since the creation midnight (20 points become 17). -/
theorem applyDailyCosts_epoch_edge :
    (applyDailyCosts 0 3600000
        { handle := "u", points := 20, accessOn := true, lastCostAppliedAt := 432000000,
          lastCheckInDate := "", accessOffSince := none, createdAt := -259200000 }
        emptyStore).1.points = 20 ∧
      (applyDailyCosts 0 3600000
        (applyDailyCosts 0 3600000
          { handle := "u", points := 20, accessOn := true, lastCostAppliedAt := 432000000,
            lastCheckInDate := "", accessOffSince := none, createdAt := -259200000 }
          emptyStore).1 emptyStore).1.points = 17 := by
  have e : round2half (20 - ((3 * 1 : Int) : ℚ)) = 17 := by
    have h := round2half_half 34
    norm_num at h ⊢
    exact h
  have h2 : (applyDailyCosts 0 3600000
        (applyDailyCosts 0 3600000
          { handle := "u", points := 20, accessOn := true, lastCostAppliedAt := 432000000,
            lastCheckInDate := "", accessOffSince := none, createdAt := -259200000 }
          emptyStore).1 emptyStore).1.points
      = max 0 (round2half (20 - ((3 * 1 : Int) : ℚ))) := rfl
  refine ⟨rfl, ?_⟩
  rw [h2, e]
  norm_num

/-! ## C2: backfill of whole days -/

/-- C2 (amended): for every record with `accessOn = true`, `points` a multiple of
0.5 and a set (non-zero) `lastCostAppliedAt = a ≤ todayMidnight` with
`d = floor((todayMidnight - a) / oneDay) > 0`, settlement yields
`points = max(0, points - d)` and `lastCostAppliedAt = a + d * oneDay`. -/
theorem applyDailyCosts_backfill (tz now : Int) (r : AccountState) (st : Store) (a d : Int)
    (hon : r.accessOn = true) (hhalf : IsHalfMultiple r.points)
    (ha : r.lastCostAppliedAt = a) (ha0 : a ≠ 0)
    (hle : a ≤ todayMidnight tz now)
    (hd : d = (todayMidnight tz now - a) / MS_PER_DAY) (hpos : 0 < d) :
    (applyDailyCosts tz now r st).1.points = max 0 (r.points - (d : ℚ)) ∧
      (applyDailyCosts tz now r st).1.lastCostAppliedAt = a + d * MS_PER_DAY := by
  have hF : appliedFrom tz now r = a := by
    rw [appliedFrom_of_ne_zero (by rw [ha]; exact ha0), ha]
  have hdays : (todayMidnight tz now - a) / MS_PER_DAY > 0 := by
    rw [← hd]
    exact hpos
  have hround : round2half (r.points - (d : ℚ)) = r.points - (d : ℚ) :=
    round2half_of_isHalf (isHalf_sub_int hhalf d)
  unfold applyDailyCosts
  simp only [hF, not_lt.mpr hle, if_false]
  unfold chargeDays
  simp only [hdays, if_true, hon, mul_one]
  unfold purgeIfDue
  rw [purgeCondition_of_on rfl]
  simp only [Bool.false_eq_true, if_false]
  rw [← hd, hround]
  exact ⟨rfl, rfl⟩

/-- Witness of C2 (amended): 20 points last settled five days before and settled
at 01:00 of 2024-10-04 become 15 points, settled through that day. -/
theorem applyDailyCosts_backfill_witness :
    (applyDailyCosts 0 1728003600000
        { handle := "u", points := 20, accessOn := true, lastCostAppliedAt := 1727568000000,
          lastCheckInDate := "", accessOffSince := none, createdAt := 1727568000000 }
        emptyStore).1.points = 15 ∧
      (applyDailyCosts 0 1728003600000
        { handle := "u", points := 20, accessOn := true, lastCostAppliedAt := 1727568000000,
          lastCheckInDate := "", accessOffSince := none, createdAt := 1727568000000 }
        emptyStore).1.lastCostAppliedAt = 1727568000000 + 5 * MS_PER_DAY := by
  have h := applyDailyCosts_backfill 0 1728003600000
    { handle := "u", points := 20, accessOn := true, lastCostAppliedAt := 1727568000000,
      lastCheckInDate := "", accessOffSince := none, createdAt := 1727568000000 }
    emptyStore 1727568000000 5 rfl ⟨40, by norm_num⟩ rfl (by decide) (by decide) (by decide)
    (by decide)
  refine ⟨?_, h.2⟩
  rw [h.1]
  norm_num

/-- C2 as stated fails at `lastCostAppliedAt = 0`, which the source reads as
unset: for an account created five days before the settlement of 2024-10-04
the claim gives `d = 20000` and 0 points, while the code charges the 5 days
since the creation midnight and leaves 15 points. -/
theorem backfill_unset_counterexample :
    (0 : Int) ≤ todayMidnight 0 1728000000000 ∧
      (todayMidnight 0 1728000000000 - 0) / MS_PER_DAY = 20000 ∧
      (applyDailyCosts 0 1728000000000
        { handle := "u", points := 20, accessOn := true, lastCostAppliedAt := 0,
          lastCheckInDate := "", accessOffSince := none, createdAt := 1727568000000 }
        emptyStore).1.points = 15 ∧
      (applyDailyCosts 0 1728000000000
        { handle := "u", points := 20, accessOn := true, lastCostAppliedAt := 0,
          lastCheckInDate := "", accessOffSince := none, createdAt := 1727568000000 }
        emptyStore).1.points ≠ max 0 (20 - ((20000 : Int) : ℚ)) := by
  have hp : (applyDailyCosts 0 1728000000000
        { handle := "u", points := 20, accessOn := true, lastCostAppliedAt := 0,
          lastCheckInDate := "", accessOffSince := none, createdAt := 1727568000000 }
        emptyStore).1.points = 15 := by
    have e1 : appliedFrom 0 1728000000000
        { handle := "u", points := 20, accessOn := true, lastCostAppliedAt := 0,
          lastCheckInDate := "", accessOffSince := none, createdAt := 1727568000000 } = 1727568000000 := by
      decide
    have e2 : todayMidnight 0 1728000000000 = 1728000000000 := by decide
    unfold applyDailyCosts
    simp only [e1, e2]
    norm_num [chargeDays, purgeIfDue, purgeCondition, MS_PER_DAY, round2half, mathRound]
  refine ⟨by decide, by decide, hp, ?_⟩
  rw [hp]
  norm_num

/-! ## C3: the access gate -/

/-- C3: for a logged-in user the gate answers, on the settled record, `OFF` when
`accessOn` is false, else `NO_POINTS` when `points ≤ 0`, else allowed; so access
is allowed exactly when the settled record has `accessOn = true` and
`points > 0`. -/
theorem getEffectiveAccess_decision (tz now : Int) (u : User) (st : Store) :
    (getEffectiveAccess tz now (some u) st).1 =
        (if (settleAccount tz now u.handle st).1.accessOn = false then
          { allowed := false, reason := some "OFF" }
        else if (settleAccount tz now u.handle st).1.points ≤ 0 then
          { allowed := false, reason := some "NO_POINTS" }
        else { allowed := true, reason := none }) ∧
      ((getEffectiveAccess tz now (some u) st).1.allowed = true ↔
        ((settleAccount tz now u.handle st).1.accessOn = true ∧
          0 < (settleAccount tz now u.handle st).1.points)) ∧
      (getEffectiveAccess tz now (some u) st).2 = (settleAccount tz now u.handle st).2 := by
  unfold getEffectiveAccess settleAccount
  dsimp only
  generalize (applyDailyCosts tz now (getOrInitState tz now u.handle st).1
    (getOrInitState tz now u.handle st).2) = settled
  by_cases hon : settled.1.accessOn = true
  · by_cases hp : settled.1.points ≤ 0
    · simp [hon, hp, not_lt.mpr hp]
    · simp [hon, hp, not_le.mp hp]
  · have hoff : settled.1.accessOn = false := by simpa using hon
    simp [hoff]

/-! ## C4, C5, C6: invariants of every reachable account -/

theorem freshStore_inv {P : AccountState → Prop} {R : ℚ → Prop}
    (codes : String → Option RedeemData)
    (hcodes : ∀ key c, codes key = some c → R c.points) : StoreInv P R (freshStore codes) := by
  refine ⟨?_, hcodes⟩
  intro key s h
  cases h

theorem preserved_nonneg : Preserved (fun s => 0 ≤ s.points) (fun r => 0 ≤ r) where
  init := fun _ _ _ => by norm_num
  clamp := fun _ _ h => h
  charge := fun _ _ _ _ => le_max_left _ _
  purge := fun _ _ _ => le_refl _
  checkin := fun s _ h => round2half_nonneg (by
    have h0 : 0 ≤ s.points := h
    linarith)
  toggleOn := fun _ _ => le_max_left _ _
  toggleOff := fun _ _ h => h
  redeem := fun s r hr h => round2half_nonneg (by
    have h0 : 0 ≤ s.points := h
    have h1 : 0 ≤ r := hr
    linarith)

theorem preserved_half : Preserved (fun s => IsHalfMultiple s.points) (fun _ => True) where
  init := fun _ _ _ => ⟨40, by norm_num⟩
  clamp := fun _ _ h => h
  charge := fun _ _ _ _ => isHalf_max_zero (round2half_isHalf _)
  purge := fun _ _ _ => ⟨0, by norm_num⟩
  checkin := fun _ _ _ => round2half_isHalf _
  toggleOn := fun _ _ => isHalf_max_zero (round2half_isHalf _)
  toggleOff := fun _ _ h => h
  redeem := fun _ _ _ _ => round2half_isHalf _

theorem preserved_offMarker :
    Preserved (fun s => s.accessOffSince = none ↔ s.accessOn = true) (fun _ => True) where
  init := fun _ _ _ => by simp
  clamp := fun _ _ h => h
  charge := fun _ _ _ h => h
  purge := fun _ _ _ => by simp
  checkin := fun _ _ h => h
  toggleOn := fun _ _ => by simp
  toggleOff := fun _ _ _ => by simp
  redeem := fun _ _ _ h => h

/-- C4 (amended): when every redeem entry carries a non-negative reward, every
account in every store reachable from a store without accounts, by any
sequence of status reads, gate evaluations, check-ins, toggles and redemptions
at any clock readings, has `points ≥ 0`. -/
theorem points_nonneg_reachable (tz : Int) (codes : String → Option RedeemData)
    (hcodes : ∀ key c, codes key = some c → 0 ≤ c.points)
    (events : List (Int × Op)) (key : String) (r : AccountState)
    (hr : (run tz (freshStore codes) events).accounts key = some r) :
    0 ≤ r.points :=
  (run_inv preserved_nonneg tz events (freshStore_inv codes hcodes)).1 key r hr

/-- Witness of C4 (amended): a fresh account redeems the 10-point code `X`. -/
theorem points_nonneg_reachable_witness :
    (0 : ℚ) ≤ (round2half (20 + 10)) :=
  points_nonneg_reachable 0 (codeX 10)
    (by
      intro key c h
      unfold codeX at h
      split at h
      · cases h
        norm_num
      · cases h)
    [(1728003600000, .redeem (some exampleUser) (some "x"))] (toAccountKey "u")
    { handle := "u", points := round2half (20 + 10), accessOn := true,
      lastCostAppliedAt := 1728000000000, lastCheckInDate := "", accessOffSince := none,
      createdAt := 1728003600000 }
    rfl

/-- C4 as stated fails: a fresh account (20 points) that redeems an unused code
whose stored reward is -100 is left with -80 points. -/
theorem points_nonneg_counterexample :
    ∃ r : AccountState,
      (run 0 (freshStore (codeX (-100)))
        [(1728003600000, .redeem (some exampleUser) (some "x"))]).accounts (toAccountKey "u")
        = some r ∧ r.points = -80 ∧ r.points < 0 := by
  refine ⟨
    { handle := "u", points := round2half (20 + (-100)), accessOn := true,
      lastCostAppliedAt := 1728000000000, lastCheckInDate := "", accessOffSince := none,
      createdAt := 1728003600000 }, rfl, ?_⟩
  have h : round2half (20 + (-100)) = -80 := by
    have h2 := round2half_half (-160)
    norm_num at h2
    norm_num
    exact h2
  dsimp only
  rw [h]
  norm_num

/-- C5: every account in every store reachable from a store without accounts, by
any sequence of requests (each running settlement and, when due, the purge),
holds a multiple of 0.5 points. -/
theorem points_half_multiple_reachable (tz : Int) (codes : String → Option RedeemData)
    (events : List (Int × Op)) (key : String) (r : AccountState)
    (hr : (run tz (freshStore codes) events).accounts key = some r) :
    IsHalfMultiple r.points :=
  (run_inv preserved_half tz events (freshStore_inv codes (fun _ _ _ => trivial))).1 key r hr

/-- Witness of C5: a fresh account after its first check-in. -/
theorem points_half_multiple_reachable_witness :
    IsHalfMultiple (round2half (20 + 5)) :=
  points_half_multiple_reachable 0 (fun _ => none)
    [(1728003600000, .checkin (some exampleUser))] (toAccountKey "u")
    { handle := "u", points := round2half (20 + 5), accessOn := true,
      lastCostAppliedAt := 1728000000000, lastCheckInDate := "2024-10-04",
      accessOffSince := none, createdAt := 1728003600000 }
    rfl

/-- C6: every account in every store reachable from a store without accounts, by
any sequence of requests (each running settlement and, when due, the purge),
has `accessOffSince = null` exactly when `accessOn = true`. -/
theorem offMarker_reachable (tz : Int) (codes : String → Option RedeemData)
    (events : List (Int × Op)) (key : String) (r : AccountState)
    (hr : (run tz (freshStore codes) events).accounts key = some r) :
    r.accessOffSince = none ↔ r.accessOn = true :=
  (run_inv preserved_offMarker tz events (freshStore_inv codes (fun _ _ _ => trivial))).1 key r hr

/-- Witness of C6: a fresh account toggled off one hour after its creation. -/
theorem offMarker_reachable_witness :
    (some (1728007200000 : Int) = none ↔ false = true) :=
  offMarker_reachable 0 (fun _ => none)
    [(1728003600000, .status (some exampleUser)),
     (1728007200000, .toggle (some exampleUser) (some false))] (toAccountKey "u")
    { handle := "u", points := 20, accessOn := false,
      lastCostAppliedAt := 1728000000000, lastCheckInDate := "",
      accessOffSince := some 1728007200000, createdAt := 1728003600000 }
    rfl

/-! ## C7: check-in twice on one calendar day -/

theorem getOrInitState_setAccount (tz now : Int) (handle : String) (st : Store)
    (s : AccountState) :
    getOrInitState tz now handle (st.setAccount (toAccountKey handle) s)
      = (s, st.setAccount (toAccountKey handle) s) := by
  unfold getOrInitState Store.getAccount Store.setAccount
  simp

theorem checkinRoute_eq (tz now : Int) (u : User) (st : Store) :
    checkinRoute tz now (some u) st =
      if (settleAccount tz now u.handle st).1.lastCheckInDate = toDateString tz now then
        (AlreadyCheckedIn, (settleAccount tz now u.handle st).2)
      else
        (.checkin (round2half ((settleAccount tz now u.handle st).1.points + 5))
            (toDateString tz now),
          (settleAccount tz now u.handle st).2.setAccount (toAccountKey u.handle)
            { (settleAccount tz now u.handle st).1 with
              points := round2half ((settleAccount tz now u.handle st).1.points + 5)
              lastCheckInDate := toDateString tz now }) := rfl

/-- C7 (amended): for two clock readings on the same local calendar day (whose
midnight lies at least one day after the epoch), if a check-in at the first
reading succeeds and the 30-day purge is not due at the second reading for the
record that check-in stored, then a check-in at the second reading fails with
`AlreadyCheckedIn` and leaves the whole store, hence every field of the
record, exactly as the first check-in left it. -/
theorem checkinRoute_twice_same_day (tz t1 t2 : Int) (u : User) (st : Store)
    (p : ℚ) (d : String) (r : AccountState)
    (hday : localDay tz t1 = localDay tz t2)
    (hclock : MS_PER_DAY ≤ todayMidnight tz t1)
    (hfirst : (checkinRoute tz t1 (some u) st).1 = .checkin p d)
    (hstored : (checkinRoute tz t1 (some u) st).2.getAccount (toAccountKey u.handle) = some r)
    (hnopurge : purgeCondition t2 r = false) :
    checkinRoute tz t2 (some u) (checkinRoute tz t1 (some u) st).2
      = (AlreadyCheckedIn, (checkinRoute tz t1 (some u) st).2) := by
  rw [checkinRoute_eq tz t1 u st] at hfirst hstored ⊢
  by_cases hc : (settleAccount tz t1 u.handle st).1.lastCheckInDate = toDateString tz t1
  · rw [if_pos hc] at hfirst
    cases hfirst
  · rw [if_neg hc] at hstored ⊢
    dsimp only at hstored ⊢
    have hr : r = { (settleAccount tz t1 u.handle st).1 with
        points := round2half ((settleAccount tz t1 u.handle st).1.points + 5)
        lastCheckInDate := toDateString tz t1 } := by
      unfold Store.getAccount Store.setAccount at hstored
      simp at hstored
      exact hstored.symm
    have hwin := appliedFrom_settled (getOrInitState tz t1 u.handle st).1
      (getOrInitState tz t1 u.handle st).2 hday hclock
    rw [hr] at hnopurge
    have hsettle : settleAccount tz t2 u.handle
        ((settleAccount tz t1 u.handle st).2.setAccount (toAccountKey u.handle)
          { (settleAccount tz t1 u.handle st).1 with
            points := round2half ((settleAccount tz t1 u.handle st).1.points + 5)
            lastCheckInDate := toDateString tz t1 })
        = ({ (settleAccount tz t1 u.handle st).1 with
            points := round2half ((settleAccount tz t1 u.handle st).1.points + 5)
            lastCheckInDate := toDateString tz t1 },
          (settleAccount tz t1 u.handle st).2.setAccount (toAccountKey u.handle)
            { (settleAccount tz t1 u.handle st).1 with
              points := round2half ((settleAccount tz t1 u.handle st).1.points + 5)
              lastCheckInDate := toDateString tz t1 }) := by
      unfold settleAccount
      rw [getOrInitState_setAccount]
      exact applyDailyCosts_noop _ hwin.1 hwin.2 hnopurge
    rw [checkinRoute_eq tz t2 u, hsettle]
    simp [toDateString_congr hday]

/-- Witness of C7 (amended): check-ins at 01:00 and 02:00 of 2024-10-04 on a
20-point account with access on. -/
theorem checkinRoute_twice_same_day_witness :
    (checkinRoute 0 1728007200000 (some exampleUser)
        (checkinRoute 0 1728003600000 (some exampleUser) (storeWith (onAccount 20))).2).1
      = AlreadyCheckedIn :=
  congrArg Prod.fst
    (checkinRoute_twice_same_day 0 1728003600000 1728007200000 exampleUser
      (storeWith (onAccount 20)) (round2half (20 + 5)) "2024-10-04"
      { onAccount 20 with points := round2half (20 + 5), lastCheckInDate := "2024-10-04" }
      (by decide) (by decide) rfl rfl rfl)

/-- C7 as stated fails: the account is off since noon of 2024-09-04 with 5
points.  A check-in at 11:00 of 2024-10-04 succeeds (10 points); at 13:00 of the
same day the off-period has reached 30 days, settlement purges the account and
clears `lastCheckInDate`, and a second check-in succeeds (5 points). -/
theorem checkin_after_purge_counterexample :
    localDay 0 1728039600000 = localDay 0 1728046800000 ∧
      (checkinRoute 0 1728039600000 (some exampleUser) (storeWith longOffAccount)).1
        = .checkin 10 "2024-10-04" ∧
      (checkinRoute 0 1728046800000 (some exampleUser)
          (checkinRoute 0 1728039600000 (some exampleUser) (storeWith longOffAccount)).2).1
        = .checkin 5 "2024-10-04" ∧
      (checkinRoute 0 1728046800000 (some exampleUser)
          (checkinRoute 0 1728039600000 (some exampleUser) (storeWith longOffAccount)).2).1
        ≠ AlreadyCheckedIn := by
  have e10 : round2half (5 + 5) = 10 := by
    have h := round2half_half 20
    norm_num at h ⊢
    exact h
  have e5 : round2half (0 + 5) = 5 := by
    have h := round2half_half 10
    norm_num at h ⊢
    exact h
  have h1 : (checkinRoute 0 1728039600000 (some exampleUser) (storeWith longOffAccount)).1
      = .checkin (round2half (5 + 5)) "2024-10-04" := rfl
  have h2 : (checkinRoute 0 1728046800000 (some exampleUser)
      (checkinRoute 0 1728039600000 (some exampleUser) (storeWith longOffAccount)).2).1
      = .checkin (round2half (0 + 5)) "2024-10-04" := rfl
  rw [e10] at h1
  rw [e5] at h2
  refine ⟨by decide, h1, h2, ?_⟩
  rw [h2]
  simp [AlreadyCheckedIn]

/-! ## C8, C9, C10: the access toggle -/

/-- C8: when the settled record has `accessOn = false` and `points < 1`, a toggle
to on fails with `InsufficientPoints` and writes nothing: the store is the one
settlement left, so `accessOn`, `points` and `accessOffSince` keep their
settled values. -/
theorem toggleRoute_on_insufficient (tz now : Int) (u : User) (st : Store)
    (hoff : (settleAccount tz now u.handle st).1.accessOn = false)
    (hlt : (settleAccount tz now u.handle st).1.points < 1) :
    toggleRoute tz now (some u) (some true) st =
      (InsufficientPoints, (settleAccount tz now u.handle st).2) := by
  unfold toggleRoute
  unfold settleAccount at hoff hlt
  dsimp only
  simp [hoff, hlt, settleAccount]

/-- Witness of C8: toggling on with 0.5 points. -/
theorem toggleRoute_on_insufficient_witness :
    (toggleRoute 0 1728003600000 (some exampleUser) (some true)
        (storeWith (offAccount (1 / 2)))).1 = InsufficientPoints :=
  congrArg Prod.fst
    (toggleRoute_on_insufficient 0 1728003600000 exampleUser (storeWith (offAccount (1 / 2)))
      rfl
      (by
        show (1 / 2 : ℚ) < 1
        norm_num))

/-- C9: when the settled record has `accessOn = false` and `points = p ≥ 1`, a
toggle to on succeeds, answers `accessOn = true` with the new balance
`max(0, round2half(p - 1))`, and stores the settled record with exactly
`points`, `accessOn := true` and `accessOffSince := null` replaced; the new
balance is `p - 1` when `p` is a multiple of 0.5. -/
theorem toggleRoute_on_success (tz now : Int) (u : User) (st : Store)
    (hoff : (settleAccount tz now u.handle st).1.accessOn = false)
    (hge : 1 ≤ (settleAccount tz now u.handle st).1.points) :
    toggleRoute tz now (some u) (some true) st =
        (.toggle true (max 0 (round2half ((settleAccount tz now u.handle st).1.points - 1))),
          (settleAccount tz now u.handle st).2.setAccount (toAccountKey u.handle)
            { (settleAccount tz now u.handle st).1 with
              points := max 0 (round2half ((settleAccount tz now u.handle st).1.points - 1))
              accessOn := true
              accessOffSince := none }) ∧
      (IsHalfMultiple (settleAccount tz now u.handle st).1.points →
        max 0 (round2half ((settleAccount tz now u.handle st).1.points - 1))
          = (settleAccount tz now u.handle st).1.points - 1) := by
  constructor
  · unfold toggleRoute
    unfold settleAccount at hoff hge
    dsimp only
    simp [hoff, not_lt.mpr hge, settleAccount]
  · intro hhalf
    have h1 : IsHalfMultiple ((settleAccount tz now u.handle st).1.points - ((1 : Int) : ℚ)) :=
      isHalf_sub_int hhalf 1
    rw [Int.cast_one] at h1
    rw [round2half_of_isHalf h1]
    apply max_eq_right
    linarith

/-- Witness of C9: toggling on with exactly 1 point leaves 0 points. -/
theorem toggleRoute_on_success_witness :
    (toggleRoute 0 1728003600000 (some exampleUser) (some true)
        (storeWith (offAccount 1))).1 = .toggle true (max 0 (round2half (1 - 1))) ∧
      max 0 (round2half ((1 : ℚ) - 1)) = 1 - 1 :=
  ⟨congrArg Prod.fst
      (toggleRoute_on_success 0 1728003600000 exampleUser (storeWith (offAccount 1)) rfl
        (by
          show (1 : ℚ) ≤ 1
          norm_num)).1,
    (toggleRoute_on_success 0 1728003600000 exampleUser (storeWith (offAccount 1)) rfl
        (by
          show (1 : ℚ) ≤ 1
          norm_num)).2
      ⟨2, by
        show (1 : ℚ) = ((2 : Int) : ℚ) / 2
        norm_num⟩⟩

/-- C10: when the settled record has `accessOn = true`, a toggle to off
succeeds, charges nothing (the answer carries the settled `points`) and stores
the settled record with exactly `accessOn := false` and
`accessOffSince := now` replaced. -/
theorem toggleRoute_off (tz now : Int) (u : User) (st : Store)
    (hon : (settleAccount tz now u.handle st).1.accessOn = true) :
    toggleRoute tz now (some u) (some false) st =
      (.toggle false (settleAccount tz now u.handle st).1.points,
        (settleAccount tz now u.handle st).2.setAccount (toAccountKey u.handle)
          { (settleAccount tz now u.handle st).1 with
            accessOn := false
            accessOffSince := some now }) := by
  unfold toggleRoute
  unfold settleAccount at hon
  dsimp only
  simp [hon, settleAccount]

/-- Witness of C10: toggling off a 20-point account keeps the 20 points. -/
theorem toggleRoute_off_witness :
    (toggleRoute 0 1728003600000 (some exampleUser) (some false)
        (storeWith (onAccount 20))).1 = .toggle false 20 :=
  congrArg Prod.fst
    (toggleRoute_off 0 1728003600000 exampleUser (storeWith (onAccount 20)) rfl)

/-! ## C11: toggle to the flag already set -/

/-- C11: when `desired` equals the settled `accessOn`, the toggle succeeds,
answers the settled `accessOn` and `points`, and leaves the store exactly as
settlement left it (no fee, no new `accessOffSince`). -/
theorem toggleRoute_same_flag (tz now : Int) (u : User) (st : Store) (desired : Bool)
    (hsame : (settleAccount tz now u.handle st).1.accessOn = desired) :
    toggleRoute tz now (some u) (some desired) st =
      (.toggle (settleAccount tz now u.handle st).1.accessOn
          (settleAccount tz now u.handle st).1.points,
        (settleAccount tz now u.handle st).2) := by
  unfold toggleRoute
  unfold settleAccount at hsame
  dsimp only
  simp [hsame, settleAccount]

/-- Witness of C11: toggling on an account that is already on. -/
theorem toggleRoute_same_flag_witness :
    (toggleRoute 0 1728003600000 (some exampleUser) (some true)
        (storeWith (onAccount 20))).1 = .toggle true 20 :=
  congrArg Prod.fst
    (toggleRoute_same_flag 0 1728003600000 exampleUser (storeWith (onAccount 20)) true rfl)

/-! ## C12: the purge inside settlement -/

theorem purgeCondition_eq_true {now : Int} {s : AccountState} {a : Int}
    (hoff : s.accessOn = false) (ha : s.accessOffSince = some a) (ha0 : a ≠ 0)
    (hlong : now - a ≥ 30 * MS_PER_DAY) : purgeCondition now s = true := by
  unfold purgeCondition truthy
  simp [hoff, ha, ha0, hlong]

theorem purgeCondition_eq_false {now : Int} {s : AccountState}
    (h : ¬ (s.accessOn = false ∧ ∃ a, s.accessOffSince = some a ∧ now - a ≥ 30 * MS_PER_DAY)) :
    purgeCondition now s = false := by
  unfold purgeCondition truthy
  cases hon : s.accessOn with
  | true => simp
  | false =>
    cases ha : s.accessOffSince with
    | none => simp
    | some a =>
      have hlt : ¬ (now - a ≥ 30 * MS_PER_DAY) := fun hge => h ⟨hon, a, ha, hge⟩
      simp only [Option.getD_some]
      simp [hlt]

theorem chargeDays_frame (M F : Int) (s : AccountState) (st : Store) :
    (chargeDays M F s st).1.handle = s.handle ∧
      (chargeDays M F s st).1.accessOn = s.accessOn ∧
      (chargeDays M F s st).1.accessOffSince = s.accessOffSince ∧
      (chargeDays M F s st).1.lastCheckInDate = s.lastCheckInDate ∧
      (chargeDays M F s st).1.createdAt = s.createdAt ∧
      (chargeDays M F s st).2.purgedUsers = st.purgedUsers ∧
      (chargeDays M F s st).2.codes = st.codes := by
  unfold chargeDays
  dsimp only
  split <;> exact ⟨rfl, rfl, rfl, rfl, rfl, rfl, rfl⟩

theorem purgeCondition_chargeDays (now M F : Int) (s : AccountState) (st : Store) :
    purgeCondition now (chargeDays M F s st).1 = purgeCondition now s := by
  have h := chargeDays_frame M F s st
  unfold purgeCondition
  rw [h.2.1, h.2.2.1]

theorem applyDailyCosts_keeps (tz now : Int) (r : AccountState) (st : Store)
    (hp : purgeCondition now r = false) :
    (applyDailyCosts tz now r st).1.accessOn = r.accessOn ∧
      (applyDailyCosts tz now r st).1.accessOffSince = r.accessOffSince ∧
      (applyDailyCosts tz now r st).1.lastCheckInDate = r.lastCheckInDate ∧
      (applyDailyCosts tz now r st).2.purgedUsers = st.purgedUsers := by
  have hfr := chargeDays_frame (todayMidnight tz now) (appliedFrom tz now r) r st
  have hp2 : purgeCondition now
      (chargeDays (todayMidnight tz now) (appliedFrom tz now r) r st).1 = false := by
    rw [purgeCondition_chargeDays]
    exact hp
  unfold applyDailyCosts
  dsimp only
  split
  · exact ⟨rfl, rfl, rfl, rfl⟩
  · unfold purgeIfDue
    simp only [hp2, Bool.false_eq_true, if_false]
    exact ⟨hfr.2.1, hfr.2.2.1, hfr.2.2.2.1, hfr.2.2.2.2.2.1⟩

/-- C12 (amended): when `accessOn = false`, `accessOffSince` is set (non-null and
non-zero), `now - accessOffSince ≥ 30 days` and the settlement window does not
start after today's midnight (no clock skew), settlement returns and stores
the record reset to `points = 0`, `accessOn = false`, `lastCheckInDate = ''`,
`accessOffSince = lastCostAppliedAt = todayMidnight` (handle and createdAt
kept) and destroys the user's data; when the purge condition of the claim does
not hold, settlement leaves `accessOn`, `accessOffSince` and `lastCheckInDate`
as they were and destroys nothing. -/
theorem applyDailyCosts_purge (tz now : Int) (r : AccountState) (st : Store) :
    (∀ a : Int, r.accessOn = false → r.accessOffSince = some a → a ≠ 0 →
        now - a ≥ 30 * MS_PER_DAY → appliedFrom tz now r ≤ todayMidnight tz now →
        (applyDailyCosts tz now r st).1 =
            { r with
              points := 0
              accessOn := false
              lastCheckInDate := ""
              accessOffSince := some (todayMidnight tz now)
              lastCostAppliedAt := todayMidnight tz now } ∧
          (applyDailyCosts tz now r st).2.getAccount (toAccountKey r.handle)
            = some (applyDailyCosts tz now r st).1 ∧
          (applyDailyCosts tz now r st).2.purgedUsers = r.handle :: st.purgedUsers) ∧
      (¬ (r.accessOn = false ∧
            ∃ a, r.accessOffSince = some a ∧ now - a ≥ 30 * MS_PER_DAY) →
        (applyDailyCosts tz now r st).1.accessOn = r.accessOn ∧
          (applyDailyCosts tz now r st).1.accessOffSince = r.accessOffSince ∧
          (applyDailyCosts tz now r st).1.lastCheckInDate = r.lastCheckInDate ∧
          (applyDailyCosts tz now r st).2.purgedUsers = st.purgedUsers) := by
  have hfr := chargeDays_frame (todayMidnight tz now) (appliedFrom tz now r) r st
  constructor
  · intro a hoff ha ha0 hlong hwin
    have hp : purgeCondition now
        (chargeDays (todayMidnight tz now) (appliedFrom tz now r) r st).1 = true := by
      rw [purgeCondition_chargeDays]
      exact purgeCondition_eq_true hoff ha ha0 hlong
    unfold applyDailyCosts
    simp only [not_lt.mpr hwin, if_false]
    unfold purgeIfDue
    simp only [hp, if_true]
    obtain ⟨h1, -, -, -, h5, h6, -⟩ := hfr
    refine ⟨?_, ?_, ?_⟩
    · rw [h1, h5]
    · unfold Store.getAccount Store.setAccount
      simp [h1]
    · unfold Store.setAccount purgeUserData
      simp [h1, h6]
  · intro hno
    have hp : purgeCondition now
        (chargeDays (todayMidnight tz now) (appliedFrom tz now r) r st).1 = false := by
      rw [purgeCondition_chargeDays]
      exact purgeCondition_eq_false hno
    unfold applyDailyCosts
    dsimp only
    split
    · exact ⟨rfl, rfl, rfl, rfl⟩
    · unfold purgeIfDue
      simp only [hp, Bool.false_eq_true, if_false]
      exact ⟨hfr.2.1, hfr.2.2.1, hfr.2.2.2.1, hfr.2.2.2.2.2.1⟩

/-- Witness of C12 (amended): the account off since noon of 2024-09-04 is reset
by the settlement of 13:00 on 2024-10-04, and is left alone at 11:00. -/
theorem applyDailyCosts_purge_witness :
    (applyDailyCosts 0 1728046800000 longOffAccount emptyStore).1 =
        { longOffAccount with
          points := 0
          accessOn := false
          lastCheckInDate := ""
          accessOffSince := some (todayMidnight 0 1728046800000)
          lastCostAppliedAt := todayMidnight 0 1728046800000 } ∧
      (applyDailyCosts 0 1728039600000 longOffAccount emptyStore).1.accessOffSince
        = longOffAccount.accessOffSince :=
  ⟨((applyDailyCosts_purge 0 1728046800000 longOffAccount emptyStore).1 1725451200000
      rfl rfl (by decide) (by decide) (by decide)).1,
    ((applyDailyCosts_purge 0 1728039600000 longOffAccount emptyStore).2 (by
      rintro ⟨-, a, ha, hge⟩
      have hA : a = 1725451200000 := by
        have h2 : (some (1725451200000 : Int)) = some a := ha
        exact (Option.some.inj h2).symm
      subst hA
      revert hge
      decide)).2.1⟩

/-- C12 as stated fails under clock skew: the account has been off for more than
30 days, but its `lastCostAppliedAt` lies after today's midnight, so settlement
clamps it and returns before the purge test; the 5 points and the old
`accessOffSince` stay and nothing is destroyed. -/
theorem purge_skipped_counterexample :
    skewedOffAccount.accessOn = false ∧
      skewedOffAccount.accessOffSince = some 1725451200000 ∧
      (1728046800000 : Int) - 1725451200000 ≥ 30 * MS_PER_DAY ∧
      (applyDailyCosts 0 1728046800000 skewedOffAccount emptyStore).1.points = 5 ∧
      (applyDailyCosts 0 1728046800000 skewedOffAccount emptyStore).1.accessOffSince
        = some 1725451200000 ∧
      (applyDailyCosts 0 1728046800000 skewedOffAccount emptyStore).2.purgedUsers = [] := by
  refine ⟨rfl, rfl, by decide, rfl, rfl, rfl⟩

/-! ## C20: the daily rate while access is off -/

/-- C20: for a record with `accessOn = false`, a non-negative multiple of 0.5
points and an off-period shorter than 30 days at the time of settlement,
settlement leaves `points` unchanged whatever the number of elapsed days, and
when whole days have elapsed since the start of the settlement window it
advances `lastCostAppliedAt` by exactly those days. -/
theorem applyDailyCosts_off_rate_zero (tz now : Int) (r : AccountState) (st : Store)
    (hoff : r.accessOn = false) (hnn : 0 ≤ r.points) (hhalf : IsHalfMultiple r.points)
    (hshort : ∀ a, r.accessOffSince = some a → now - a < 30 * MS_PER_DAY) :
    (applyDailyCosts tz now r st).1.points = r.points ∧
      (0 < (todayMidnight tz now - appliedFrom tz now r) / MS_PER_DAY →
        (applyDailyCosts tz now r st).1.lastCostAppliedAt =
            appliedFrom tz now r
              + (todayMidnight tz now - appliedFrom tz now r) / MS_PER_DAY * MS_PER_DAY ∧
          appliedFrom tz now r < (applyDailyCosts tz now r st).1.lastCostAppliedAt) := by
  have hno : ¬ (r.accessOn = false ∧
      ∃ a, r.accessOffSince = some a ∧ now - a ≥ 30 * MS_PER_DAY) := by
    rintro ⟨-, a, ha, hge⟩
    exact absurd (hshort a ha) (not_lt.mpr hge)
  have hp : purgeCondition now
      (chargeDays (todayMidnight tz now) (appliedFrom tz now r) r st).1 = false := by
    rw [purgeCondition_chargeDays]
    exact purgeCondition_eq_false hno
  have hkeep : max 0 (round2half (r.points - ((0 : Int) : ℚ))) = r.points := by
    rw [round2half_of_isHalf (isHalf_sub_int hhalf 0)]
    rw [Int.cast_zero, sub_zero]
    exact max_eq_right hnn
  constructor
  · unfold applyDailyCosts
    dsimp only
    split
    · rfl
    · unfold purgeIfDue
      simp only [hp, Bool.false_eq_true, if_false]
      unfold chargeDays
      dsimp only
      split
      · simp only [hoff, Bool.false_eq_true, if_false, mul_zero]
        exact hkeep
      · rfl
  · intro hdays
    have hwin : ¬ appliedFrom tz now r > todayMidnight tz now := by
      intro hgt
      rw [MS_PER_DAY_eq] at hdays
      omega
    unfold applyDailyCosts
    simp only [hwin, if_false]
    unfold purgeIfDue
    simp only [hp, Bool.false_eq_true, if_false]
    unfold chargeDays
    simp only [gt_iff_lt, hdays, if_true]
    refine ⟨trivial, ?_⟩
    rw [MS_PER_DAY_eq] at hdays ⊢
    omega

/-- Witness of C20: 10 points toggled off at noon of 2024-10-04 are still 10
points at 09:00 of 2024-10-14, and `lastCostAppliedAt` has moved ten days. -/
theorem applyDailyCosts_off_rate_zero_witness :
    (applyDailyCosts 0 1728896400000 tenPointOffAccount emptyStore).1.points = 10 ∧
      (applyDailyCosts 0 1728896400000 tenPointOffAccount emptyStore).1.lastCostAppliedAt
        = 1728000000000 + 10 * MS_PER_DAY := by
  have h := applyDailyCosts_off_rate_zero 0 1728896400000 tenPointOffAccount emptyStore rfl
    (by
      show (0 : ℚ) ≤ 10
      norm_num)
    ⟨20, by
      show (10 : ℚ) = ((20 : Int) : ℚ) / 2
      norm_num⟩
    (by
      intro a ha
      have hA : a = 1728043200000 := by
        have h2 : (some (1728043200000 : Int)) = some a := ha
        exact (Option.some.inj h2).symm
      subst hA
      decide)
  refine ⟨h.1, ?_⟩
  rw [(h.2 (by decide)).1]
  decide

/-! ## C24, C25: the high-water mark and the clock-skew clamp -/

/-- C24: after settlement a set (non-zero) `lastCostAppliedAt` never exceeds the
current local midnight. -/
theorem applyDailyCosts_lastCost_le (tz now : Int) (r : AccountState) (st : Store)
    (hset : (applyDailyCosts tz now r st).1.lastCostAppliedAt ≠ 0) :
    (applyDailyCosts tz now r st).1.lastCostAppliedAt ≤ todayMidnight tz now := by
  unfold applyDailyCosts at hset ⊢
  dsimp only at hset ⊢
  by_cases hskew : appliedFrom tz now r > todayMidnight tz now
  · simp only [hskew, if_true]
    exact le_refl _
  · simp only [hskew, if_false] at hset ⊢
    rcases purgeIfDue_lastCost tz now
      (chargeDays (todayMidnight tz now) (appliedFrom tz now r) r st).1
      (chargeDays (todayMidnight tz now) (appliedFrom tz now r) r st).2 with hp | hp
    · rw [hp]
    · rw [hp] at hset ⊢
      rcases chargeDays_lastCost (todayMidnight tz now) (appliedFrom tz now r) r st
        with ⟨hc, hpos⟩ | ⟨hc, -⟩
      · rw [hc]
        rw [MS_PER_DAY_eq] at hpos ⊢
        omega
      · rw [hc] at hset ⊢
        rw [← appliedFrom_of_ne_zero hset]
        exact not_lt.mp hskew

/-- Witness of C24: a 20-point account last settled five days before 01:00 of
2024-10-04. -/
theorem applyDailyCosts_lastCost_le_witness :
    (applyDailyCosts 0 1728003600000 (onAccount 20) emptyStore).1.lastCostAppliedAt
      ≤ todayMidnight 0 1728003600000 :=
  applyDailyCosts_lastCost_le 0 1728003600000 (onAccount 20) emptyStore (by decide)

/-- C25 (amended): for every record whose set (non-zero) `lastCostAppliedAt` is
later than the current local midnight, settlement returns the record with
`lastCostAppliedAt = todayMidnight` and every other field unchanged, and writes
nothing to the store. -/
theorem applyDailyCosts_clamp (tz now : Int) (r : AccountState) (st : Store)
    (hset : r.lastCostAppliedAt ≠ 0)
    (hskew : r.lastCostAppliedAt > todayMidnight tz now) :
    applyDailyCosts tz now r st =
      ({ r with lastCostAppliedAt := todayMidnight tz now }, st) := by
  unfold applyDailyCosts
  rw [appliedFrom_of_ne_zero hset]
  simp only [hskew, if_true]

/-- Witness of C25 (amended): the record dated one day ahead of 2024-10-04. -/
theorem applyDailyCosts_clamp_witness :
    applyDailyCosts 0 1728046800000 skewedOffAccount emptyStore =
      ({ skewedOffAccount with lastCostAppliedAt := todayMidnight 0 1728046800000 },
        emptyStore) :=
  applyDailyCosts_clamp 0 1728046800000 skewedOffAccount emptyStore (by decide) (by decide)

/-- C25 as stated fails when `lastCostAppliedAt` is `0`, which the source reads
as unset: at 09:00 local time of 1970-01-01 in UTC+8 the local midnight is
negative, so `0` is later than it, yet settlement starts from the creation
midnight, finds no skew and leaves `lastCostAppliedAt = 0`. -/
theorem clamp_unset_counterexample :
    (0 : Int) > todayMidnight 28800000 3600000 ∧
      (applyDailyCosts 28800000 3600000
        { handle := "u", points := 20, accessOn := true, lastCostAppliedAt := 0,
          lastCheckInDate := "", accessOffSince := none, createdAt := 3600000 }
        emptyStore).1.lastCostAppliedAt = 0 ∧
      (applyDailyCosts 28800000 3600000
        { handle := "u", points := 20, accessOn := true, lastCostAppliedAt := 0,
          lastCheckInDate := "", accessOffSince := none, createdAt := 3600000 }
        emptyStore).1.lastCostAppliedAt ≠ todayMidnight 28800000 3600000 := by
  refine ⟨by decide, rfl, by decide⟩

/-! ## C26: lazy creation -/

/-- C26: for a handle without a stored record `getOrInitState` creates and
stores the record `points = 20`, `accessOn = true`,
`lastCostAppliedAt = todayMidnight(now)`, `lastCheckInDate = ''`,
`accessOffSince = null`, `createdAt = now`; for a handle with a stored record
it returns that record and leaves the store alone. -/
theorem getOrInitState_spec (tz now : Int) (handle : String) (st : Store) :
    (st.getAccount (toAccountKey handle) = none →
        getOrInitState tz now handle st =
          ({ handle := handle, points := 20, accessOn := true,
             lastCostAppliedAt := todayMidnight tz now, lastCheckInDate := "",
             accessOffSince := none, createdAt := now },
            st.setAccount (toAccountKey handle)
              { handle := handle, points := 20, accessOn := true,
                lastCostAppliedAt := todayMidnight tz now, lastCheckInDate := "",
                accessOffSince := none, createdAt := now }) ∧
          (getOrInitState tz now handle st).2.getAccount (toAccountKey handle)
            = some (getOrInitState tz now handle st).1) ∧
      (∀ existing, st.getAccount (toAccountKey handle) = some existing →
        getOrInitState tz now handle st = (existing, st)) := by
  constructor
  · intro hnone
    unfold getOrInitState
    rw [hnone]
    refine ⟨rfl, ?_⟩
    unfold Store.getAccount Store.setAccount
    simp
  · intro existing hsome
    unfold getOrInitState
    rw [hsome]

/-- Witness of C26: first access of `u` on an empty store, and a second access
on the store holding an account. -/
theorem getOrInitState_spec_witness :
    (getOrInitState 0 1728003600000 "u" emptyStore).1 =
        { handle := "u", points := 20, accessOn := true,
          lastCostAppliedAt := todayMidnight 0 1728003600000, lastCheckInDate := "",
          accessOffSince := none, createdAt := 1728003600000 } ∧
      getOrInitState 0 1728003600000 "u" (storeWith (onAccount 20))
        = (onAccount 20, storeWith (onAccount 20)) :=
  ⟨congrArg Prod.fst ((getOrInitState_spec 0 1728003600000 "u" emptyStore).1 rfl).1,
    (getOrInitState_spec 0 1728003600000 "u" (storeWith (onAccount 20))).2 (onAccount 20) rfl⟩

/-! ## C27: rounding and clamping commute -/

theorem round2half_nonpos {x : ℚ} (hx : x ≤ 0) : round2half x ≤ 0 := by
  unfold round2half mathRound
  have h : ⌊x * 2 + 1 / 2⌋ ≤ (0 : Int) := by
    have hlt : ⌊x * 2 + 1 / 2⌋ < (1 : Int) := by
      rw [Int.floor_lt]
      push_cast
      linarith
    omega
  have h2 : ((⌊x * 2 + 1 / 2⌋ : Int) : ℚ) ≤ 0 := by exact_mod_cast h
  linarith

/-- C27: for every balance `p` and cost `c` the balance the source stores,
`max(0, round2half(p - c))`, equals the spec's reading, rounding after clamping
to zero, `round2half(max(0, p - c))`. -/
theorem settledBalance_eq_roundAfterClamp (p c : ℚ) :
    settledBalance p c = roundAfterClamp p c := by
  unfold settledBalance roundAfterClamp
  rcases le_total 0 (p - c) with h | h
  · rw [max_eq_right h, max_eq_right (round2half_nonneg h)]
  · rw [max_eq_left h, max_eq_left (round2half_nonpos h)]
    have h0 := round2half_half 0
    simp only [Int.cast_zero, zero_div] at h0
    exact h0.symm

/-! ## The status payload -/

theorem statusRoute_eq (tz now : Int) (u : User) (st : Store) (hh : u.handle ≠ "") :
    statusRoute tz now (some u) st =
      (.status
        { handle := u.handle
          name := u.name
          points := (settleAccount tz now u.handle st).1.points
          accessOn := (settleAccount tz now u.handle st).1.accessOn
          offDays :=
            if ((settleAccount tz now u.handle st).1.accessOn ||
                !truthy (settleAccount tz now u.handle st).1.accessOffSince) = true then 0
            else (todayMidnight tz now
              - todayMidnight tz ((settleAccount tz now u.handle st).1.accessOffSince.getD 0))
                / MS_PER_DAY
          canCheckInToday :=
            decide ((settleAccount tz now u.handle st).1.lastCheckInDate ≠ toDateString tz now)
          purged := truthy (getOrInitState tz now u.handle st).1.accessOffSince &&
            !(settleAccount tz now u.handle st).1.accessOn &&
            decide (now - (getOrInitState tz now u.handle st).1.accessOffSince.getD 0
              ≥ 30 * MS_PER_DAY) },
        (settleAccount tz now u.handle st).2) := by
  unfold statusRoute buildStatus settleAccount
  simp only [hh, if_false]

theorem statusRoute_payload (tz now : Int) (u : User) (st : Store) (payload : StatusPayload)
    (h : (statusRoute tz now (some u) st).1 = .status payload) : u.handle ≠ "" := by
  intro hh
  unfold statusRoute buildStatus at h
  simp only [hh, if_true] at h
  cases h

/-! ## C21: offDays -/

/-- C21 (amended): in a status payload `offDays = 0` when the settled record has
`accessOn = true` or an `accessOffSince` that is null or `0`; otherwise
`offDays = floor((todayMidnight(now) - todayMidnight(accessOffSince)) / oneDay)`;
and a stored account that is off since a set time `a`, read less than 30 days
after `a` on a day whose local midnight lies exactly `k` times 24 hours after
the local midnight of `a`, reports `offDays = k`. -/
theorem statusRoute_offDays (tz now : Int) (u : User) (st : Store) (payload : StatusPayload)
    (h : (statusRoute tz now (some u) st).1 = .status payload) :
    (((settleAccount tz now u.handle st).1.accessOn = true ∨
        (settleAccount tz now u.handle st).1.accessOffSince = none ∨
        (settleAccount tz now u.handle st).1.accessOffSince = some 0) →
        payload.offDays = 0) ∧
      (∀ a : Int, (settleAccount tz now u.handle st).1.accessOn = false →
        (settleAccount tz now u.handle st).1.accessOffSince = some a → a ≠ 0 →
        payload.offDays = (todayMidnight tz now - todayMidnight tz a) / MS_PER_DAY) ∧
      (∀ (r : AccountState) (a k : Int), st.getAccount (toAccountKey u.handle) = some r →
        r.accessOn = false → r.accessOffSince = some a → a ≠ 0 →
        now - a < 30 * MS_PER_DAY →
        todayMidnight tz now - todayMidnight tz a = k * MS_PER_DAY →
        payload.offDays = k) := by
  have hh := statusRoute_payload tz now u st payload h
  rw [statusRoute_eq tz now u st hh] at h
  have hp := (Response.status.inj h).symm
  have hform : ∀ a : Int, (settleAccount tz now u.handle st).1.accessOn = false →
      (settleAccount tz now u.handle st).1.accessOffSince = some a → a ≠ 0 →
      payload.offDays = (todayMidnight tz now - todayMidnight tz a) / MS_PER_DAY := by
    intro a hoff ha ha0
    rw [hp]
    simp [hoff, ha, truthy, ha0]
  refine ⟨?_, hform, ?_⟩
  · rintro (hon | hnone | hzero)
    · rw [hp]
      simp [hon]
    · rw [hp]
      simp [hnone, truthy]
    · rw [hp]
      simp [hzero, truthy]
  · intro r a k hget hoff ha ha0 hshort hday
    have hload : getOrInitState tz now u.handle st = (r, st) := by
      unfold getOrInitState
      rw [hget]
    have hno : ¬ (r.accessOn = false ∧
        ∃ b, r.accessOffSince = some b ∧ now - b ≥ 30 * MS_PER_DAY) := by
      rintro ⟨-, b, hb, hge⟩
      rw [ha] at hb
      cases hb
      exact absurd hshort (not_lt.mpr hge)
    have hkeep := applyDailyCosts_keeps tz now r st (purgeCondition_eq_false hno)
    have hS : settleAccount tz now u.handle st = applyDailyCosts tz now r st := by
      unfold settleAccount
      rw [hload]
    rw [hform a (by rw [hS, hkeep.1, hoff]) (by rw [hS, hkeep.2.1, ha]) ha0, hday]
    exact Int.mul_ediv_cancel k (by decide)

/-- Witness of C21 (amended): the account toggled off at noon of 2024-10-04 and
read at 09:00 of 2024-10-14, whose midnight is ten times 24 hours after that of
2024-10-04, reports `offDays = 10`. -/
theorem statusRoute_offDays_witness :
    ∃ payload : StatusPayload,
      (statusRoute 0 1728896400000 (some exampleUser) (storeWith tenPointOffAccount)).1
        = .status payload ∧ payload.offDays = 10 :=
  ⟨_, rfl,
    (statusRoute_offDays 0 1728896400000 exampleUser (storeWith tenPointOffAccount) _ rfl).2.2
      tenPointOffAccount 1728043200000 10 rfl rfl rfl (by decide) (by decide) (by decide)⟩

/-- C21 as stated fails when `accessOffSince` is the non-null value `0`: the
source tests `!state.accessOffSince`, so the status of 2024-10-04 reports
`offDays = 0` where the claim's formula gives 20000 days. -/
theorem offDays_epoch_counterexample :
    epochOffAccount.accessOn = false ∧ epochOffAccount.accessOffSince = some 0 ∧
      (todayMidnight 0 1728003600000 - todayMidnight 0 0) / MS_PER_DAY = 20000 ∧
      ∃ payload : StatusPayload,
        (statusRoute 0 1728003600000 (some exampleUser) (storeWith epochOffAccount)).1
          = .status payload ∧ payload.accessOn = false ∧ payload.offDays = 0 :=
  ⟨rfl, rfl, by decide, _, rfl, rfl, rfl⟩

/-! ## C22, C23: check-in -/

/-- C22: a status payload has `canCheckInToday = true` exactly when a check-in
by the same user on the same store at the same clock reading succeeds. -/
theorem canCheckInToday_iff_checkin (tz now : Int) (u : User) (st : Store)
    (payload : StatusPayload)
    (h : (statusRoute tz now (some u) st).1 = .status payload) :
    (payload.canCheckInToday = true ↔
        ∃ p d, (checkinRoute tz now (some u) st).1 = .checkin p d) ∧
      (payload.canCheckInToday = true ↔
        (settleAccount tz now u.handle st).1.lastCheckInDate ≠ toDateString tz now) := by
  have hh := statusRoute_payload tz now u st payload h
  rw [statusRoute_eq tz now u st hh] at h
  have hp := (Response.status.inj h).symm
  have hcan : payload.canCheckInToday = true ↔
      (settleAccount tz now u.handle st).1.lastCheckInDate ≠ toDateString tz now := by
    rw [hp]
    simp
  refine ⟨?_, hcan⟩
  rw [hcan, checkinRoute_eq]
  by_cases hc : (settleAccount tz now u.handle st).1.lastCheckInDate = toDateString tz now
  · rw [if_pos hc]
    constructor
    · intro hne
      exact absurd hc hne
    · rintro ⟨p, d, hpd⟩
      cases hpd
  · rw [if_neg hc]
    constructor
    · intro _
      exact ⟨_, _, rfl⟩
    · intro _
      exact hc

/-- Witness of C22: a 20-point account that has not checked in on 2024-10-04. -/
theorem canCheckInToday_iff_checkin_witness :
    ∃ p d, (checkinRoute 0 1728003600000 (some exampleUser) (storeWith (onAccount 20))).1
      = .checkin p d :=
  ((canCheckInToday_iff_checkin 0 1728003600000 exampleUser (storeWith (onAccount 20)) _
    rfl).1).mp rfl

/-- C23: when the settled `lastCheckInDate` differs from today's date string,
check-in succeeds, answers the new `points = round2half(settledPoints + 5)` and
`lastCheckInDate = today`, and stores the settled record with exactly these two
fields replaced; the new balance is `settledPoints + 5` when the settled
balance is a multiple of 0.5. -/
theorem checkinRoute_success (tz now : Int) (u : User) (st : Store)
    (hne : (settleAccount tz now u.handle st).1.lastCheckInDate ≠ toDateString tz now) :
    checkinRoute tz now (some u) st =
        (.checkin (round2half ((settleAccount tz now u.handle st).1.points + 5))
            (toDateString tz now),
          (settleAccount tz now u.handle st).2.setAccount (toAccountKey u.handle)
            { (settleAccount tz now u.handle st).1 with
              points := round2half ((settleAccount tz now u.handle st).1.points + 5)
              lastCheckInDate := toDateString tz now }) ∧
      (IsHalfMultiple (settleAccount tz now u.handle st).1.points →
        round2half ((settleAccount tz now u.handle st).1.points + 5)
          = (settleAccount tz now u.handle st).1.points + 5) := by
  constructor
  · rw [checkinRoute_eq, if_neg hne]
  · intro hhalf
    have h5 := isHalf_sub_int hhalf (-5)
    have e : (settleAccount tz now u.handle st).1.points - (((-5 : Int)) : ℚ)
        = (settleAccount tz now u.handle st).1.points + 5 := by
      push_cast
      ring
    rw [e] at h5
    exact round2half_of_isHalf h5

/-- Witness of C23: the first check-in of 2024-10-04 on a 20-point account. -/
theorem checkinRoute_success_witness :
    (checkinRoute 0 1728003600000 (some exampleUser) (storeWith (onAccount 20))).1
        = .checkin (round2half (20 + 5)) "2024-10-04" ∧
      round2half ((20 : ℚ) + 5) = 20 + 5 :=
  ⟨congrArg Prod.fst
      (checkinRoute_success 0 1728003600000 exampleUser (storeWith (onAccount 20))
        (by decide)).1,
    (checkinRoute_success 0 1728003600000 exampleUser (storeWith (onAccount 20))
        (by decide)).2
      ⟨40, by
        show (20 : ℚ) = ((40 : Int) : ℚ) / 2
        norm_num⟩⟩

/-! ## C13: the `purged` flag of the status payload -/

theorem purgeCondition_off {now : Int} {s : AccountState} (h : purgeCondition now s = true) :
    s.accessOn = false := by
  unfold purgeCondition at h
  cases hon : s.accessOn with
  | false => rfl
  | true =>
    rw [hon] at h
    simp at h

theorem applyDailyCosts_accessOn (tz now : Int) (r : AccountState) (st : Store) :
    (applyDailyCosts tz now r st).1.accessOn = r.accessOn := by
  unfold applyDailyCosts
  dsimp only
  split
  · rfl
  · unfold purgeIfDue
    split
    · rename_i hp
      rw [purgeCondition_chargeDays] at hp
      exact (purgeCondition_off hp).symm
    · exact (chargeDays_frame _ _ r st).2.1

theorem applyDailyCosts_purgedUsers (tz now : Int) (r : AccountState) (st : Store) :
    (applyDailyCosts tz now r st).2.purgedUsers =
      if appliedFrom tz now r ≤ todayMidnight tz now ∧ purgeCondition now r = true then
        r.handle :: st.purgedUsers
      else st.purgedUsers := by
  have hfr := chargeDays_frame (todayMidnight tz now) (appliedFrom tz now r) r st
  unfold applyDailyCosts
  dsimp only
  by_cases hskew : appliedFrom tz now r > todayMidnight tz now
  · simp only [hskew, if_true, not_le.mpr hskew, false_and, if_false]
  · simp only [hskew, if_false, not_lt.mp hskew, true_and]
    unfold purgeIfDue
    rw [purgeCondition_chargeDays]
    by_cases hp : purgeCondition now r = true
    · simp only [hp, if_true]
      unfold Store.setAccount purgeUserData
      simp [hfr.1, hfr.2.2.2.2.2.1]
    · simp only [hp, if_false]
      exact hfr.2.2.2.2.2.1

theorem getOrInitState_purgedUsers (tz now : Int) (handle : String) (st : Store) :
    (getOrInitState tz now handle st).2.purgedUsers = st.purgedUsers := by
  unfold getOrInitState
  split <;> rfl

theorem statusRoute_purged (tz now : Int) (u : User) (st : Store) (payload : StatusPayload)
    (h : (statusRoute tz now (some u) st).1 = .status payload) :
    payload.purged = purgeCondition now (getOrInitState tz now u.handle st).1 := by
  have hh := statusRoute_payload tz now u st payload h
  rw [statusRoute_eq tz now u st hh] at h
  have hp := (Response.status.inj h).symm
  rw [hp]
  have hon : (settleAccount tz now u.handle st).1.accessOn
      = (getOrInitState tz now u.handle st).1.accessOn := by
    unfold settleAccount
    exact applyDailyCosts_accessOn _ _ _ _
  dsimp only
  rw [hon]
  unfold purgeCondition
  cases (getOrInitState tz now u.handle st).1.accessOn <;>
    cases truthy (getOrInitState tz now u.handle st).1.accessOffSince <;> simp

/-- Without clock skew the `purged` flag of a status payload is true exactly when
the settlement of that call destroyed the user's data. -/
theorem statusRoute_purged_iff (tz now : Int) (u : User) (st : Store)
    (payload : StatusPayload)
    (h : (statusRoute tz now (some u) st).1 = .status payload)
    (hwin : appliedFrom tz now (getOrInitState tz now u.handle st).1 ≤ todayMidnight tz now) :
    payload.purged = true ↔
      (statusRoute tz now (some u) st).2.purgedUsers
        = (getOrInitState tz now u.handle st).1.handle :: st.purgedUsers := by
  have hh := statusRoute_payload tz now u st payload h
  rw [statusRoute_purged tz now u st payload h, statusRoute_eq tz now u st hh]
  dsimp only
  unfold settleAccount
  rw [applyDailyCosts_purgedUsers, getOrInitState_purgedUsers]
  by_cases hp : purgeCondition now (getOrInitState tz now u.handle st).1 = true
  · simp [hp, hwin]
  · simp [hp]

/-- C13 fails on the code: the account has been off for more than 30 days but its
`lastCostAppliedAt` lies after today's midnight.  Settlement clamps and returns
before the purge, so the stored record keeps its 5 points and nothing is
destroyed, yet the status payload carries `purged = true`. -/
theorem status_purged_without_purge :
    ∃ payload : StatusPayload,
      (statusRoute 0 1728046800000 (some exampleUser) (storeWith skewedOffAccount)).1
        = .status payload ∧
      payload.purged = true ∧ payload.points = 5 ∧
      (statusRoute 0 1728046800000 (some exampleUser) (storeWith skewedOffAccount)).2.purgedUsers
        = [] ∧
      (statusRoute 0 1728046800000 (some exampleUser)
          (storeWith skewedOffAccount)).2.getAccount (toAccountKey "u")
        = some skewedOffAccount :=
  ⟨_, rfl, rfl, rfl, rfl, rfl⟩

/-! ## Preservation of the key discipline and of an off-marker -/

theorem todayMidnight_mono {tz t1 t2 : Int} (h : t1 ≤ t2) :
    todayMidnight tz t1 ≤ todayMidnight tz t2 := by
  unfold todayMidnight
  rw [MS_PER_DAY_eq]
  omega

section OffMarker

variable {key : String} {m : Int} {e : Bool}

theorem OffInv.writeAccount {st : Store} (h : OffInv key m e st) {k : String}
    {s : AccountState} (hk : toAccountKey s.handle = k) (hs : OffRec key m e s) :
    OffInv key m e (st.setAccount k s) := by
  constructor
  · intro k2 s2 h2
    unfold Store.setAccount at h2
    dsimp only at h2
    split at h2
    · rename_i hkk
      cases h2
      rw [hkk, hk]
    · exact h.1 k2 s2 h2
  · intro he
    obtain ⟨s0, hs0, hoff0⟩ := h.2 he
    unfold Store.setAccount
    dsimp only
    by_cases hkk : key = k
    · refine ⟨s, ?_, hs he (hk.trans hkk.symm)⟩
      simp [hkk]
    · refine ⟨s0, ?_, hoff0⟩
      simp [hkk, hs0]

theorem OffInv.writeCode {st : Store} (h : OffInv key m e st) (k : String) (c : RedeemData) :
    OffInv key m e (st.setCode k c) := h

theorem OffInv.dropUserData {st : Store} (h : OffInv key m e st) (handle : String) :
    OffInv key m e (purgeUserData handle st) := h

theorem getOrInitState_off (tz now : Int) (handle : String) {st : Store}
    (h : OffInv key m e st) :
    OffInv key m e (getOrInitState tz now handle st).2 ∧
      toAccountKey (getOrInitState tz now handle st).1.handle = toAccountKey handle ∧
      OffRec key m e (getOrInitState tz now handle st).1 := by
  unfold getOrInitState
  cases hget : st.getAccount (toAccountKey handle) with
  | some existing =>
    have hkey := h.1 _ _ hget
    refine ⟨h, hkey.symm, ?_⟩
    intro he hk
    obtain ⟨s0, hs0, hoff0⟩ := h.2 he
    have hsame : st.accounts key = some existing := by
      rw [← hk, ← hkey]
      exact hget
    rw [hs0] at hsame
    cases hsame
    exact hoff0
  | none =>
    have hrec : OffRec key m e
        { handle := handle, points := 20, accessOn := true,
          lastCostAppliedAt := todayMidnight tz now, lastCheckInDate := "",
          accessOffSince := none, createdAt := now } := by
      intro he hk
      obtain ⟨s0, hs0, -⟩ := h.2 he
      have hk2 : toAccountKey handle = key := hk
      rw [← hk2] at hs0
      have hnone : st.accounts (toAccountKey handle) = none := hget
      rw [hnone] at hs0
      cases hs0
    exact ⟨h.writeAccount rfl hrec, rfl, hrec⟩

theorem chargeDays_off (M F : Int) {s : AccountState} {st : Store}
    (h : OffInv key m e st) (hs : OffRec key m e s) :
    OffInv key m e (chargeDays M F s st).2 ∧
      (chargeDays M F s st).1.handle = s.handle ∧
      OffRec key m e (chargeDays M F s st).1 := by
  unfold chargeDays
  dsimp only
  split
  · have hrec : OffRec key m e { s with
        points := max 0 (round2half (s.points -
          (((M - F) / MS_PER_DAY * (if s.accessOn = true then 1 else 0) : Int) : ℚ)))
        lastCostAppliedAt := F + (M - F) / MS_PER_DAY * MS_PER_DAY } :=
      fun he hk => hs he hk
    exact ⟨h.writeAccount rfl hrec, rfl, hrec⟩
  · exact ⟨h, rfl, hs⟩

theorem purgeIfDue_off (tz now : Int) {s : AccountState} {st : Store}
    (hm : e = true → m ≤ todayMidnight tz now)
    (h : OffInv key m e st) (hs : OffRec key m e s) :
    OffInv key m e (purgeIfDue tz now s st).2 ∧
      (purgeIfDue tz now s st).1.handle = s.handle ∧
      OffRec key m e (purgeIfDue tz now s st).1 := by
  unfold purgeIfDue
  dsimp only
  split
  · have hrec : OffRec key m e { s with
        points := 0, accessOn := false, lastCheckInDate := "",
        accessOffSince := some (todayMidnight tz now),
        lastCostAppliedAt := todayMidnight tz now } :=
      fun he _ => ⟨rfl, _, rfl, hm he⟩
    exact ⟨(h.dropUserData _).writeAccount rfl hrec, rfl, hrec⟩
  · exact ⟨h, rfl, hs⟩

theorem applyDailyCosts_off (tz now : Int) {s : AccountState} {st : Store}
    (hm : e = true → m ≤ todayMidnight tz now)
    (h : OffInv key m e st) (hs : OffRec key m e s) :
    OffInv key m e (applyDailyCosts tz now s st).2 ∧
      (applyDailyCosts tz now s st).1.handle = s.handle ∧
      OffRec key m e (applyDailyCosts tz now s st).1 := by
  unfold applyDailyCosts
  dsimp only
  split
  · exact ⟨h, rfl, fun he hk => hs he hk⟩
  · have hc := chargeDays_off (todayMidnight tz now) (appliedFrom tz now s) h hs
    have hp := purgeIfDue_off tz now hm hc.1 hc.2.2
    exact ⟨hp.1, hp.2.1.trans hc.2.1, hp.2.2⟩

theorem settleAccount_off (tz now : Int) (handle : String) {st : Store}
    (hm : e = true → m ≤ todayMidnight tz now) (h : OffInv key m e st) :
    OffInv key m e (settleAccount tz now handle st).2 ∧
      toAccountKey (settleAccount tz now handle st).1.handle = toAccountKey handle ∧
      OffRec key m e (settleAccount tz now handle st).1 := by
  have hl := getOrInitState_off tz now handle h
  have ha := applyDailyCosts_off tz now hm hl.1 hl.2.2
  unfold settleAccount
  refine ⟨ha.1, ?_, ha.2.2⟩
  rw [ha.2.1]
  exact hl.2.1

theorem step_off (tz now : Int) (op : Op) {st : Store}
    (hm : e = true → m ≤ todayMidnight tz now) (hop : e = true → op.isToggle = false)
    (h : OffInv key m e st) : OffInv key m e (step tz now op st) := by
  cases op with
  | status user =>
    cases user with
    | none => exact h
    | some u =>
      show OffInv key m e (statusRoute tz now (some u) st).2
      by_cases hh : u.handle = ""
      · unfold statusRoute buildStatus
        simp only [hh, if_true]
        exact h
      · rw [statusRoute_eq tz now u st hh]
        exact (settleAccount_off tz now u.handle hm h).1
  | gate user =>
    cases user with
    | none => exact h
    | some u =>
      show OffInv key m e (getEffectiveAccess tz now (some u) st).2
      rw [getEffectiveAccess_store]
      exact (settleAccount_off tz now u.handle hm h).1
  | checkin user =>
    cases user with
    | none => exact h
    | some u =>
      show OffInv key m e (checkinRoute tz now (some u) st).2
      have hs := settleAccount_off tz now u.handle hm h
      rw [checkinRoute_eq]
      split
      · exact hs.1
      · exact hs.1.writeAccount hs.2.1 (fun he hk => hs.2.2 he hk)
  | toggle user desired =>
    have he : e = false := by
      cases e with
      | false => rfl
      | true => exact absurd (hop rfl) (by simp [Op.isToggle])
    subst he
    cases user with
    | none => exact h
    | some u =>
      cases desired with
      | none => exact h
      | some d =>
        show OffInv key m false (toggleRoute tz now (some u) (some d) st).2
        have hs := @settleAccount_off key m false tz now u.handle st
          (fun he => absurd he (by simp)) h
        unfold settleAccount at hs
        unfold toggleRoute
        dsimp only
        split
        · split
          · split
            · exact hs.1
            · exact hs.1.writeAccount hs.2.1 (fun he => absurd he (by simp))
          · exact hs.1.writeAccount hs.2.1 (fun he => absurd he (by simp))
        · exact hs.1
  | redeem user code =>
    cases user with
    | none => exact h
    | some u =>
      cases code with
      | none => exact h
      | some c =>
        show OffInv key m e (redeemRoute tz now (some u) (some c) st).2
        unfold redeemRoute
        dsimp only
        split
        · exact h
        · cases hget : st.getCode (toRedeemCodeKey c) with
          | none => exact h
          | some redeemData =>
            dsimp only
            split
            · exact h
            · have h1 : OffInv key m e (st.setCode (toRedeemCodeKey c)
                  { redeemData with used := true, usedBy := some u.handle,
                                    usedAt := some now }) := h.writeCode _ _
              have hs := settleAccount_off tz now u.handle hm h1
              unfold settleAccount at hs
              exact hs.1.writeAccount hs.2.1 (fun he hk => hs.2.2 he hk)

theorem run_off (tz : Int) (events : List (Int × Op)) :
    ∀ {st : Store},
      (∀ ev ∈ events, (e = true → m ≤ todayMidnight tz ev.1) ∧
        (e = true → ev.2.isToggle = false)) →
      OffInv key m e st → OffInv key m e (run tz st events) := by
  induction events with
  | nil => intro st _ h; exact h
  | cons ev rest ih =>
    intro st hev h
    obtain ⟨now, op⟩ := ev
    have h0 := hev (now, op) (List.mem_cons_self _ _)
    exact ih (fun ev2 h2 => hev ev2 (List.mem_cons_of_mem _ h2))
      (step_off tz now op h0.1 h0.2 h)

end OffMarker

/-- Every store reachable from a store without accounts keeps the key
discipline. -/
theorem storeWF_reachable (tz : Int) (codes : String → Option RedeemData)
    (events : List (Int × Op)) : StoreWF (run tz (freshStore codes) events) := by
  have h0 : OffInv "" 0 false (freshStore codes) :=
    ⟨fun _ _ h => (by cases h), fun he => absurd he (by simp)⟩
  exact (run_off tz events
    (fun _ _ => ⟨fun he => absurd he (by simp), fun he => absurd he (by simp)⟩) h0).1

/-! ## C14: the purge re-arms the 30-day timer -/

theorem applyDailyCosts_of_purge (tz now : Int) (r : AccountState) (st : Store)
    (hwin : appliedFrom tz now r ≤ todayMidnight tz now)
    (hp : purgeCondition now r = true) :
    (applyDailyCosts tz now r st).1.accessOn = false ∧
      (applyDailyCosts tz now r st).1.accessOffSince = some (todayMidnight tz now) ∧
      (applyDailyCosts tz now r st).1.handle = r.handle ∧
      (applyDailyCosts tz now r st).2.accounts (toAccountKey r.handle)
        = some (applyDailyCosts tz now r st).1 := by
  have hfr := chargeDays_frame (todayMidnight tz now) (appliedFrom tz now r) r st
  have hp2 : purgeCondition now
      (chargeDays (todayMidnight tz now) (appliedFrom tz now r) r st).1 = true := by
    rw [purgeCondition_chargeDays]
    exact hp
  have heq : applyDailyCosts tz now r st =
      purgeIfDue tz now (chargeDays (todayMidnight tz now) (appliedFrom tz now r) r st).1
        (chargeDays (todayMidnight tz now) (appliedFrom tz now r) r st).2 := by
    unfold applyDailyCosts
    simp only [not_lt.mpr hwin, if_false]
  rw [heq]
  unfold purgeIfDue
  rw [if_pos hp2]
  refine ⟨rfl, rfl, hfr.1, ?_⟩
  unfold Store.setAccount
  simp [hfr.1]

theorem purgeCondition_of_offSince {now m : Int} {s : AccountState}
    (hs : OffSinceAtLeast m s) (hlt : now - m < 30 * MS_PER_DAY) :
    purgeCondition now s = false := by
  obtain ⟨-, a, ha, hma⟩ := hs
  apply purgeCondition_eq_false
  rintro ⟨-, b, hb, hge⟩
  rw [ha] at hb
  cases hb
  rw [MS_PER_DAY_eq] at hlt hge
  omega

/-- C14 (amended): if a status call at `t` performs the purge (on a store that
keeps every account under the key of its handle), then after any requests
other than toggles made at clock readings from `t` on, every status call at a
reading `t'` with `t' - todayMidnight(t) < 30 days` reports `purged = false`
and destroys nothing. -/
theorem statusRoute_rearm (tz t t' : Int) (u : User) (st : Store)
    (events : List (Int × Op))
    (hwf : StoreWF st)
    (hpurge : (statusRoute tz t (some u) st).2.purgedUsers ≠ st.purgedUsers)
    (hev : ∀ ev ∈ events, t ≤ ev.1 ∧ ev.2.isToggle = false)
    (hlt : t' - todayMidnight tz t < 30 * MS_PER_DAY) :
    ∃ payload : StatusPayload,
      (statusRoute tz t' (some u) (run tz (statusRoute tz t (some u) st).2 events)).1
        = .status payload ∧
      payload.purged = false ∧
      (statusRoute tz t' (some u) (run tz (statusRoute tz t (some u) st).2 events)).2.purgedUsers
        = (run tz (statusRoute tz t (some u) st).2 events).purgedUsers := by
  have hh : u.handle ≠ "" := by
    intro hh
    apply hpurge
    unfold statusRoute buildStatus
    simp only [hh, if_true]
  rw [statusRoute_eq tz t u st hh] at hpurge ⊢
  dsimp only at hpurge ⊢
  have h0 : OffInv (toAccountKey u.handle) (todayMidnight tz t) false st :=
    ⟨hwf, fun he => absurd he (by simp)⟩
  have hl := getOrInitState_off tz t u.handle h0
  have hs0 := settleAccount_off tz t u.handle (fun he => absurd he (by simp)) h0
  have hcond : appliedFrom tz t (getOrInitState tz t u.handle st).1 ≤ todayMidnight tz t ∧
      purgeCondition t (getOrInitState tz t u.handle st).1 = true := by
    by_contra hc
    apply hpurge
    unfold settleAccount
    rw [applyDailyCosts_purgedUsers, if_neg hc, getOrInitState_purgedUsers]
  have hres := applyDailyCosts_of_purge tz t (getOrInitState tz t u.handle st).1
    (getOrInitState tz t u.handle st).2 hcond.1 hcond.2
  have h1 : OffInv (toAccountKey u.handle) (todayMidnight tz t) true
      (settleAccount tz t u.handle st).2 := by
    refine ⟨hs0.1.1, fun _ => ⟨(settleAccount tz t u.handle st).1, ?_, ?_⟩⟩
    · have hk := hres.2.2.2
      rw [hl.2.1] at hk
      exact hk
    · exact ⟨hres.1, _, hres.2.1, le_refl _⟩
  have h2 := @run_off (toAccountKey u.handle) (todayMidnight tz t) true tz events
    (settleAccount tz t u.handle st).2
    (fun ev hmem => ⟨fun _ => todayMidnight_mono (hev ev hmem).1, fun _ => (hev ev hmem).2⟩) h1
  generalize run tz (settleAccount tz t u.handle st).2 events = st1 at h2 ⊢
  obtain ⟨s, hs, hoff⟩ := h2.2 rfl
  have hload : getOrInitState tz t' u.handle st1 = (s, st1) := by
    unfold getOrInitState Store.getAccount
    rw [hs]
  have hpc : purgeCondition t' s = false := purgeCondition_of_offSince hoff hlt
  have hst := statusRoute_eq tz t' u st1 hh
  refine ⟨_, congrArg Prod.fst hst, ?_, ?_⟩
  · have hp := statusRoute_purged tz t' u st1 _ (congrArg Prod.fst hst)
    refine hp.trans ?_
    rw [hload]
    exact hpc
  · have hpu : (settleAccount tz t' u.handle st1).2.purgedUsers = st1.purgedUsers := by
      unfold settleAccount
      rw [hload, applyDailyCosts_purgedUsers]
      simp [hpc]
    rw [hst]
    exact hpu

theorem storeWith_wf (s : AccountState) : StoreWF (storeWith s) := by
  intro key r h
  unfold storeWith emptyStore freshStore Store.setAccount at h
  dsimp only at h
  split at h
  · rename_i hk
    cases h
    exact hk
  · cases h

/-- Witness of C14 (amended): the account off since noon of 2024-09-04 is purged
by the status call of 13:00 on 2024-10-04; after a check-in one hour later, the
status call of 13:00 on 2024-10-05 reports `purged = false`. -/
theorem statusRoute_rearm_witness :
    ∃ payload : StatusPayload,
      (statusRoute 0 1728133200000 (some exampleUser)
        (run 0 (statusRoute 0 1728046800000 (some exampleUser) (storeWith longOffAccount)).2
          [(1728050400000, .checkin (some exampleUser))])).1 = .status payload ∧
      payload.purged = false := by
  obtain ⟨payload, h1, h2, -⟩ := statusRoute_rearm 0 1728046800000 1728133200000 exampleUser
    (storeWith longOffAccount) [(1728050400000, .checkin (some exampleUser))]
    (storeWith_wf longOffAccount) (by decide)
    (by
      intro ev hmem
      rw [List.mem_singleton] at hmem
      subst hmem
      exact ⟨by decide, rfl⟩)
    (by decide)
  exact ⟨payload, h1, h2⟩

/-- C14 as stated fails: the purge of 13:00 on 2024-10-04 re-arms the timer at
that day's midnight, so the status call of 01:00 on 2024-11-03, less than 30
days after the purging call, finds an off-period of 30 days and one hour,
purges again and reports `purged = true`. -/
theorem rearm_from_midnight_counterexample :
    (1728046800000 : Int) ≤ 1730595600000 ∧
      (1730595600000 : Int) < 1728046800000 + 30 * MS_PER_DAY ∧
      (statusRoute 0 1728046800000 (some exampleUser) (storeWith longOffAccount)).2.purgedUsers
        = ["u"] ∧
      ∃ payload : StatusPayload,
        (statusRoute 0 1730595600000 (some exampleUser)
          (statusRoute 0 1728046800000 (some exampleUser) (storeWith longOffAccount)).2).1
          = .status payload ∧
        payload.purged = true ∧
        (statusRoute 0 1730595600000 (some exampleUser)
          (statusRoute 0 1728046800000 (some exampleUser)
            (storeWith longOffAccount)).2).2.purgedUsers = ["u", "u"] :=
  ⟨by decide, by decide, rfl, _, rfl, rfl, rfl⟩

/-! ## Redeem: shared lemmas -/

theorem redeemRoute_eq (tz now : Int) (u : User) (code : String) (st : Store)
    (hne : code ≠ "") :
    redeemRoute tz now (some u) (some code) st =
      redeemAfterRead tz now u.handle code (st.getCode (toRedeemCodeKey code)) st := by
  unfold redeemRoute redeemAfterRead
  simp only [hne, if_false]

theorem getOrInitState_codes (tz now : Int) (handle : String) (st : Store) :
    (getOrInitState tz now handle st).2.codes = st.codes := by
  unfold getOrInitState
  split <;> rfl

theorem applyDailyCosts_codes (tz now : Int) (r : AccountState) (st : Store) :
    (applyDailyCosts tz now r st).2.codes = st.codes := by
  unfold applyDailyCosts
  dsimp only
  split
  · rfl
  · unfold purgeIfDue
    split
    · exact (chargeDays_frame _ _ r st).2.2.2.2.2.2
    · exact (chargeDays_frame _ _ r st).2.2.2.2.2.2

theorem settleAccount_codes (tz now : Int) (handle : String) (st : Store) :
    (settleAccount tz now handle st).2.codes = st.codes := by
  unfold settleAccount
  rw [applyDailyCosts_codes, getOrInitState_codes]

theorem redeemAfterRead_unused (tz now : Int) (handle code : String) (c : RedeemData)
    (st : Store) (hunused : c.used = false) :
    redeemAfterRead tz now handle code (some c) st =
      (.redeem
          (round2half ((settleAccount tz now handle
            (st.setCode (toRedeemCodeKey code)
              { c with used := true, usedBy := some handle, usedAt := some now })).1.points
            + c.points))
          c.points,
        (settleAccount tz now handle
            (st.setCode (toRedeemCodeKey code)
              { c with used := true, usedBy := some handle, usedAt := some now })).2.setAccount
          (toAccountKey handle)
          { (settleAccount tz now handle
              (st.setCode (toRedeemCodeKey code)
                { c with used := true, usedBy := some handle, usedAt := some now })).1 with
            points := round2half ((settleAccount tz now handle
              (st.setCode (toRedeemCodeKey code)
                { c with used := true, usedBy := some handle, usedAt := some now })).1.points
              + c.points) }) := by
  unfold redeemAfterRead settleAccount
  simp only [hunused, Bool.false_eq_true, if_false]

theorem redeemAfterRead_codes (tz now : Int) (handle code : String) (c : RedeemData)
    (st : Store) (hunused : c.used = false) :
    (redeemAfterRead tz now handle code (some c) st).2.codes (toRedeemCodeKey code)
      = some { c with used := true, usedBy := some handle, usedAt := some now } := by
  rw [redeemAfterRead_unused tz now handle code c st hunused]
  show (settleAccount tz now handle _).2.codes (toRedeemCodeKey code) = _
  rw [settleAccount_codes]
  unfold Store.setCode
  simp

theorem upperChar_ne_nil (c : Char) : upperChar c ≠ [] := by
  unfold upperChar
  split
  · simp
  · split
    · simp
    · simp

theorem toUpperCase_eq_empty {s : String} (h : toUpperCase s = "") : s = "" := by
  unfold toUpperCase at h
  have hd : (s.data.map upperChar).flatten = [] := by
    have := congrArg String.data h
    simpa using this
  apply String.ext
  cases hs : s.data with
  | nil => rfl
  | cons c rest =>
    rw [hs, List.map_cons, List.flatten_cons] at hd
    exact absurd (List.append_eq_nil.mp hd).1 (upperChar_ne_nil c)

theorem ne_empty_of_same_key {code code2 : String} (hne : code ≠ "")
    (hsame : toUpperCase code2 = toUpperCase code) : code2 ≠ "" := by
  intro h2
  apply hne
  apply toUpperCase_eq_empty
  rw [← hsame, h2]
  rfl

theorem toRedeemCodeKey_congr {code code2 : String}
    (hsame : toUpperCase code2 = toUpperCase code) :
    toRedeemCodeKey code2 = toRedeemCodeKey code := by
  unfold toRedeemCodeKey
  rw [hsame]

/-- A successful redeem leaves the entry of its code marked used. -/
theorem redeemRoute_marks_used (tz now : Int) (u : User) (code : String) (st : Store)
    (p a : ℚ) (h : (redeemRoute tz now (some u) (some code) st).1 = .redeem p a) :
    code ≠ "" ∧ CodeUsed (toRedeemCodeKey code) (redeemRoute tz now (some u) (some code) st).2 := by
  have hne : code ≠ "" := by
    intro he
    unfold redeemRoute at h
    simp only [he, if_true] at h
    cases h
  refine ⟨hne, ?_⟩
  rw [redeemRoute_eq tz now u code st hne] at h ⊢
  cases hget : st.getCode (toRedeemCodeKey code) with
  | none =>
    rw [hget] at h
    simp [redeemAfterRead, CodeNotFound] at h
  | some c =>
    rw [hget] at h
    cases hused : c.used with
    | true =>
      unfold redeemAfterRead at h
      simp only [hused, if_true] at h
      cases h
    | false =>
      exact ⟨_, redeemAfterRead_codes tz now u.handle code c st hused, rfl⟩

/-- A redeem of a code whose entry is marked used fails and writes nothing. -/
theorem redeemRoute_of_used (tz now : Int) (v : User) (code : String) (st : Store)
    (hne : code ≠ "") (h : CodeUsed (toRedeemCodeKey code) st) :
    redeemRoute tz now (some v) (some code) st = (CodeAlreadyUsed, st) := by
  obtain ⟨c, hc, hused⟩ := h
  rw [redeemRoute_eq tz now v code st hne]
  unfold Store.getCode
  rw [hc]
  unfold redeemAfterRead
  simp only [hused, if_true]

theorem step_used (tz now : Int) (op : Op) (key : String) {st : Store}
    (h : CodeUsed key st) : CodeUsed key (step tz now op st) := by
  have hframe : ∀ st2 : Store, st2.codes = st.codes → CodeUsed key st2 := by
    intro st2 h2
    unfold CodeUsed
    rw [h2]
    exact h
  cases op with
  | status user =>
    cases user with
    | none => exact h
    | some u =>
      show CodeUsed key (statusRoute tz now (some u) st).2
      by_cases hh : u.handle = ""
      · unfold statusRoute buildStatus
        simp only [hh, if_true]
        exact h
      · rw [statusRoute_eq tz now u st hh]
        exact hframe _ (settleAccount_codes tz now u.handle st)
  | gate user =>
    cases user with
    | none => exact h
    | some u =>
      show CodeUsed key (getEffectiveAccess tz now (some u) st).2
      rw [getEffectiveAccess_store]
      exact hframe _ (settleAccount_codes tz now u.handle st)
  | checkin user =>
    cases user with
    | none => exact h
    | some u =>
      show CodeUsed key (checkinRoute tz now (some u) st).2
      rw [checkinRoute_eq]
      split
      · exact hframe _ (settleAccount_codes tz now u.handle st)
      · exact hframe _ (settleAccount_codes tz now u.handle st)
  | toggle user desired =>
    cases user with
    | none => exact h
    | some u =>
      cases desired with
      | none => exact h
      | some d =>
        show CodeUsed key (toggleRoute tz now (some u) (some d) st).2
        have hs := settleAccount_codes tz now u.handle st
        unfold settleAccount at hs
        unfold toggleRoute
        dsimp only
        split
        · split
          · split
            · exact hframe _ hs
            · exact hframe _ hs
          · exact hframe _ hs
        · exact hframe _ hs
  | redeem user code =>
    cases user with
    | none => exact h
    | some u =>
      cases code with
      | none => exact h
      | some c =>
        show CodeUsed key (redeemRoute tz now (some u) (some c) st).2
        by_cases hne : c = ""
        · unfold redeemRoute
          simp only [hne, if_true]
          exact h
        · rw [redeemRoute_eq tz now u c st hne]
          cases hget : st.getCode (toRedeemCodeKey c) with
          | none => exact h
          | some rd =>
            cases hused : rd.used with
            | true =>
              unfold redeemAfterRead
              simp only [hused, if_true]
              exact h
            | false =>
              rw [redeemAfterRead_unused tz now u.handle c rd st hused]
              unfold CodeUsed
              show ∃ c2, (settleAccount tz now u.handle _).2.codes key = some c2 ∧ _
              rw [settleAccount_codes]
              unfold Store.setCode
              dsimp only
              by_cases hk : key = toRedeemCodeKey c
              · exact ⟨_, by rw [if_pos hk], rfl⟩
              · rw [if_neg hk]
                exact h

theorem run_used (tz : Int) (events : List (Int × Op)) (key : String) :
    ∀ {st : Store}, CodeUsed key st → CodeUsed key (run tz st events) := by
  induction events with
  | nil => intro st h; exact h
  | cons ev rest ih =>
    intro st h
    obtain ⟨now, op⟩ := ev
    exact ih (step_used tz now op key h)

/-! ## C15, C16: redeem failures and the credit -/

/-- C15 (amended): for a non-empty code string, redeem answers `CodeNotFound`
exactly when no entry exists under the normalized key, and `CodeAlreadyUsed`
exactly when an entry exists whose `used` flag is already true; in both
failures the store (the entry and every account record) is unchanged. -/
theorem redeemRoute_failures (tz now : Int) (u : User) (code : String) (st : Store)
    (hne : code ≠ "") :
    ((redeemRoute tz now (some u) (some code) st).1 = CodeNotFound ↔
        st.getCode (toRedeemCodeKey code) = none) ∧
      ((redeemRoute tz now (some u) (some code) st).1 = CodeAlreadyUsed ↔
        ∃ c, st.getCode (toRedeemCodeKey code) = some c ∧ c.used = true) ∧
      (((redeemRoute tz now (some u) (some code) st).1 = CodeNotFound ∨
          (redeemRoute tz now (some u) (some code) st).1 = CodeAlreadyUsed) →
        (redeemRoute tz now (some u) (some code) st).2 = st) := by
  rw [redeemRoute_eq tz now u code st hne]
  cases hget : st.getCode (toRedeemCodeKey code) with
  | none =>
    refine ⟨⟨fun _ => rfl, fun _ => rfl⟩, ⟨?_, ?_⟩, fun _ => rfl⟩
    · intro h
      simp [redeemAfterRead, CodeNotFound, CodeAlreadyUsed] at h
    · rintro ⟨c, hc, -⟩
      cases hc
  | some c =>
    cases hused : c.used with
    | true =>
      have heq : redeemAfterRead tz now u.handle code (some c) st = (CodeAlreadyUsed, st) := by
        unfold redeemAfterRead
        simp only [hused, if_true]
      rw [heq]
      refine ⟨⟨?_, ?_⟩, ⟨fun _ => ⟨c, rfl, hused⟩, fun _ => rfl⟩, fun _ => rfl⟩
      · intro h
        simp [CodeNotFound, CodeAlreadyUsed] at h
      · intro h
        cases h
    | false =>
      rw [redeemAfterRead_unused tz now u.handle code c st hused]
      refine ⟨⟨?_, ?_⟩, ⟨?_, ?_⟩, ?_⟩
      · intro h
        simp [CodeNotFound] at h
      · intro h
        cases h
      · intro h
        simp [CodeAlreadyUsed] at h
      · rintro ⟨c2, hc2, hu2⟩
        cases hc2
        rw [hused] at hu2
        cases hu2
      · rintro (h | h)
        · simp [CodeNotFound] at h
        · simp [CodeAlreadyUsed] at h

/-- Witness of C15 (amended): the code `nope` has no entry. -/
theorem redeemRoute_failures_witness :
    (redeemRoute 0 1728003600000 (some exampleUser) (some "nope")
        (freshStore (codeX 10))).1 = CodeNotFound :=
  ((redeemRoute_failures 0 1728003600000 exampleUser "nope" (freshStore (codeX 10))
    (by decide)).1).mpr rfl

/-- C15 as stated fails for the empty code string: no entry exists under its
key, yet the request is rejected by validation and not with `CodeNotFound`. -/
theorem redeem_empty_code_counterexample :
    (freshStore (codeX 10)).getCode (toRedeemCodeKey "") = none ∧
      (redeemRoute 0 1728003600000 (some exampleUser) (some "")
          (freshStore (codeX 10))).1 = .error 400 "请输入兑换码" ∧
      (redeemRoute 0 1728003600000 (some exampleUser) (some "")
          (freshStore (codeX 10))).1 ≠ CodeNotFound := by
  refine ⟨rfl, rfl, ?_⟩
  have h : (redeemRoute 0 1728003600000 (some exampleUser) (some "")
      (freshStore (codeX 10))).1 = .error 400 "请输入兑换码" := rfl
  rw [h]
  simp [CodeNotFound]

/-- C16: for every entry that is unused and addressed by the (non-empty) code of
the request, a redeem by user `u` stores the entry with `used = true`,
`usedBy = u` and `usedAt = now` (reward kept), settles the account on that
store, stores the settled record with `points = round2half(settledPoints + r)`
and answers that balance as `points` and the reward `r` as `addedPoints`. -/
theorem redeemRoute_success (tz now : Int) (u : User) (code : String) (st : Store)
    (c : RedeemData) (hne : code ≠ "")
    (hget : st.getCode (toRedeemCodeKey code) = some c) (hunused : c.used = false) :
    redeemRoute tz now (some u) (some code) st =
        (.redeem
            (round2half ((settleAccount tz now u.handle
              (st.setCode (toRedeemCodeKey code)
                { c with used := true, usedBy := some u.handle, usedAt := some now })).1.points
              + c.points))
            c.points,
          (settleAccount tz now u.handle
              (st.setCode (toRedeemCodeKey code)
                { c with used := true, usedBy := some u.handle,
                         usedAt := some now })).2.setAccount
            (toAccountKey u.handle)
            { (settleAccount tz now u.handle
                (st.setCode (toRedeemCodeKey code)
                  { c with used := true, usedBy := some u.handle, usedAt := some now })).1 with
              points := round2half ((settleAccount tz now u.handle
                (st.setCode (toRedeemCodeKey code)
                  { c with used := true, usedBy := some u.handle,
                           usedAt := some now })).1.points
                + c.points) }) ∧
      (redeemRoute tz now (some u) (some code) st).2.getCode (toRedeemCodeKey code)
        = some { c with used := true, usedBy := some u.handle, usedAt := some now } := by
  rw [redeemRoute_eq tz now u code st hne, hget]
  constructor
  · unfold redeemAfterRead settleAccount
    simp only [hunused, Bool.false_eq_true, if_false]
  · exact redeemAfterRead_codes tz now u.handle code c st hunused

/-- Witness of C16: a fresh account redeems the unused 10-point code `X`. -/
theorem redeemRoute_success_witness :
    (redeemRoute 0 1728003600000 (some exampleUser) (some "x") (freshStore (codeX 10))).1
        = .redeem (round2half (20 + 10)) 10 ∧
      (redeemRoute 0 1728003600000 (some exampleUser) (some "x")
          (freshStore (codeX 10))).2.getCode (toRedeemCodeKey "x")
        = some { points := 10, used := true, usedBy := some "u",
                 usedAt := some 1728003600000 } :=
  ⟨congrArg Prod.fst
      (redeemRoute_success 0 1728003600000 exampleUser "x" (freshStore (codeX 10))
        { points := 10, used := false, usedBy := none, usedAt := none }
        (by decide) rfl rfl).1,
    (redeemRoute_success 0 1728003600000 exampleUser "x" (freshStore (codeX 10))
        { points := 10, used := false, usedBy := none, usedAt := none }
        (by decide) rfl rfl).2⟩

/-! ## C17, C18: single use of a code -/

/-- C17: once a redeem of a code has succeeded, then after any further requests
the entry is still marked used, and every later redeem of that code, by any
user and in any letter case, fails with `CodeAlreadyUsed` and leaves the store
(hence every balance) unchanged. -/
theorem redeem_single_use (tz t t2 : Int) (u v : User) (code code2 : String) (st : Store)
    (events : List (Int × Op)) (p a : ℚ)
    (hfirst : (redeemRoute tz t (some u) (some code) st).1 = .redeem p a)
    (hsame : toUpperCase code2 = toUpperCase code) :
    CodeUsed (toRedeemCodeKey code)
        (run tz (redeemRoute tz t (some u) (some code) st).2 events) ∧
      redeemRoute tz t2 (some v) (some code2)
          (run tz (redeemRoute tz t (some u) (some code) st).2 events)
        = (CodeAlreadyUsed, run tz (redeemRoute tz t (some u) (some code) st).2 events) := by
  have h1 := redeemRoute_marks_used tz t u code st p a hfirst
  have h2 := run_used tz events (toRedeemCodeKey code) h1.2
  refine ⟨h2, ?_⟩
  apply redeemRoute_of_used tz t2 v code2 _ (ne_empty_of_same_key h1.1 hsame)
  rw [toRedeemCodeKey_congr hsame]
  exact h2

/-- Witness of C17: `u` redeems `x`; after a status read, `v` redeems `X`. -/
theorem redeem_single_use_witness :
    (redeemRoute 0 1728010800000 (some otherUser) (some "X")
        (run 0 (redeemRoute 0 1728003600000 (some exampleUser) (some "x")
            (freshStore (codeX 10))).2
          [(1728007200000, .status (some otherUser))])).1 = CodeAlreadyUsed :=
  congrArg Prod.fst
    (redeem_single_use 0 1728003600000 1728010800000 exampleUser otherUser "x" "X"
      (freshStore (codeX 10)) [(1728007200000, .status (some otherUser))]
      (round2half (20 + 10)) 10 rfl (by decide)).2

/-- C18 (amended): for two redeem requests for the same code that run one after
the other, the code being non-empty with an unused entry, the first succeeds
and the second, by any user and in any letter case, fails with
`CodeAlreadyUsed` and leaves the store unchanged. -/
theorem redeem_back_to_back (tz t t2 : Int) (u v : User) (code code2 : String) (st : Store)
    (c : RedeemData) (hne : code ≠ "")
    (hget : st.getCode (toRedeemCodeKey code) = some c) (hunused : c.used = false)
    (hsame : toUpperCase code2 = toUpperCase code) :
    (redeemRoute tz t (some u) (some code) st).1
        = .redeem
          (round2half ((settleAccount tz t u.handle
            (st.setCode (toRedeemCodeKey code)
              { c with used := true, usedBy := some u.handle, usedAt := some t })).1.points
            + c.points))
          c.points ∧
      redeemRoute tz t2 (some v) (some code2) (redeemRoute tz t (some u) (some code) st).2
        = (CodeAlreadyUsed, (redeemRoute tz t (some u) (some code) st).2) := by
  have hfirst : (redeemRoute tz t (some u) (some code) st).1
      = .redeem
        (round2half ((settleAccount tz t u.handle
          (st.setCode (toRedeemCodeKey code)
            { c with used := true, usedBy := some u.handle, usedAt := some t })).1.points
          + c.points))
        c.points := by
    rw [redeemRoute_eq tz t u code st hne, hget,
      redeemAfterRead_unused tz t u.handle code c st hunused]
  refine ⟨hfirst, ?_⟩
  have h1 := redeemRoute_marks_used tz t u code st _ _ hfirst
  apply redeemRoute_of_used tz t2 v code2 _ (ne_empty_of_same_key hne hsame)
  rw [toRedeemCodeKey_congr hsame]
  exact h1.2

/-- Witness of C18 (amended): `u` redeems `x`, then `v` redeems `X`. -/
theorem redeem_back_to_back_witness :
    (redeemRoute 0 1728003600000 (some exampleUser) (some "x") (freshStore (codeX 10))).1
        = .redeem (round2half (20 + 10)) 10 ∧
      (redeemRoute 0 1728003600000 (some otherUser) (some "X")
        (redeemRoute 0 1728003600000 (some exampleUser) (some "x")
          (freshStore (codeX 10))).2).1 = CodeAlreadyUsed :=
  ⟨(redeem_back_to_back 0 1728003600000 1728003600000 exampleUser otherUser "x" "X"
      (freshStore (codeX 10)) { points := 10, used := false, usedBy := none, usedAt := none }
      (by decide) rfl rfl (by decide)).1,
    congrArg Prod.fst
      (redeem_back_to_back 0 1728003600000 1728003600000 exampleUser otherUser "x" "X"
        (freshStore (codeX 10)) { points := 10, used := false, usedBy := none, usedAt := none }
        (by decide) rfl rfl (by decide)).2⟩

/-- C18 as stated fails when the two handlers interleave at their `await`s: both
read the entry of `X` while it is unused; `u` then marks it and is credited;
`v` resumes with its own stale copy, marks the entry again and is credited
too.  Both requests succeed and both fresh accounts end with 30 points. -/
theorem redeem_interleaved_counterexample :
    (redeemAfterRead 0 1728003600000 "u" "x"
        ((freshStore (codeX 10)).getCode (toRedeemCodeKey "x")) (freshStore (codeX 10))).1
        = .redeem (round2half (20 + 10)) 10 ∧
      (redeemAfterRead 0 1728003600000 "v" "x"
        ((freshStore (codeX 10)).getCode (toRedeemCodeKey "x"))
        (redeemAfterRead 0 1728003600000 "u" "x"
          ((freshStore (codeX 10)).getCode (toRedeemCodeKey "x"))
          (freshStore (codeX 10))).2).1
        = .redeem (round2half (20 + 10)) 10 ∧
      round2half ((20 : ℚ) + 10) = 30 := by
  refine ⟨rfl, rfl, ?_⟩
  have h := round2half_half 60
  norm_num at h ⊢
  exact h

/-! ## C19: the code key ignores letter case -/

theorem upperChar_ascii {c : Char} (h : c.toNat < 128) : upperChar c = [c.toUpper] := by
  unfold upperChar
  rw [if_pos h]

theorem sameLetter_upperChar {a b : Char} (h : sameLetter a b = true) :
    upperChar a = upperChar b := by
  unfold sameLetter at h
  simp only [Bool.or_eq_true, Bool.and_eq_true, decide_eq_true_eq, beq_iff_eq] at h
  rcases h with (h | ⟨⟨h1, h2⟩, h3⟩) | ⟨⟨h1, h2⟩, h3⟩
  · rw [h]
  · have hb : b.toUpper = b := by
      unfold Char.toUpper
      dsimp only
      rw [if_neg]
      omega
    have ha : a.toUpper = Char.ofNat (a.toNat - 32) := by
      unfold Char.toUpper
      dsimp only
      rw [if_pos ⟨h1, h2⟩]
    rw [upperChar_ascii (by omega), upperChar_ascii (by omega), ha, hb]
    have : a.toNat - 32 = b.toNat := by omega
    rw [this, Char.ofNat_toNat]
  · have ha : a.toUpper = a := by
      unfold Char.toUpper
      dsimp only
      rw [if_neg]
      omega
    have hb : b.toUpper = Char.ofNat (b.toNat - 32) := by
      unfold Char.toUpper
      dsimp only
      rw [if_pos ⟨h1, h2⟩]
    rw [upperChar_ascii (by omega), upperChar_ascii (by omega), ha, hb]
    have : b.toNat - 32 = a.toNat := by omega
    rw [this, Char.ofNat_toNat]

theorem sameLetters_map_upperChar :
    ∀ (l1 l2 : List Char), sameLetters l1 l2 = true →
      l1.map upperChar = l2.map upperChar
  | [], [], _ => rfl
  | [], _ :: _, h => by simp [sameLetters] at h
  | _ :: _, [], h => by simp [sameLetters] at h
  | a :: as, b :: bs, h => by
    simp only [sameLetters, Bool.and_eq_true] at h
    simp only [List.map_cons]
    rw [sameLetter_upperChar h.1, sameLetters_map_upperChar as bs h.2]

/-- C19 (amended): two code strings that agree position by position up to the
case of the ASCII letters `a`-`z` / `A`-`Z` (any other character being the same
in both) get the same storage key from `toRedeemCodeKey`. -/
theorem toRedeemCodeKey_case_insensitive (s t : String)
    (h : differOnlyInCase s t = true) : toRedeemCodeKey s = toRedeemCodeKey t := by
  unfold toRedeemCodeKey toUpperCase
  unfold differOnlyInCase at h
  rw [sameLetters_map_upperChar s.data t.data h]

/-- Witness of C19 (amended): `abc123` and `ABC123` address the same entry. -/
theorem toRedeemCodeKey_case_insensitive_witness :
    toRedeemCodeKey "abc123" = toRedeemCodeKey "ABC123" :=
  toRedeemCodeKey_case_insensitive "abc123" "ABC123" (by decide)

set_option maxRecDepth 100000 in
/-- C19 as stated fails: `straße` and `STRAẞE` are one word in lower and in upper
case (U+1E9E is the capital form of U+00DF), but `toUpperCase` turns the small
sharp s into `SS` and keeps the capital one, so the two keys differ. -/
theorem sharp_s_key_counterexample :
    toRedeemCodeKey "straße" = "redeem:STRASSE" ∧
      toRedeemCodeKey "STRAẞE" = "redeem:STRAẞE" ∧
      toRedeemCodeKey "straße" ≠ toRedeemCodeKey "STRAẞE" := by
  refine ⟨rfl, rfl, by decide⟩

/-! ## Settlement of an account with access on: lemmas -/

theorem applyDailyCosts_on (tz now : Int) (r : AccountState) (st : Store)
    (hon : r.accessOn = true) (hhalf : IsHalfMultiple r.points)
    (hwin : appliedFrom tz now r ≤ todayMidnight tz now) :
    (applyDailyCosts tz now r st).1 =
        chargedRecord r (appliedFrom tz now r)
          ((todayMidnight tz now - appliedFrom tz now r) / MS_PER_DAY) ∧
      (applyDailyCosts tz now r st).2 =
        if 0 < (todayMidnight tz now - appliedFrom tz now r) / MS_PER_DAY then
          st.setAccount (toAccountKey r.handle)
            (chargedRecord r (appliedFrom tz now r)
              ((todayMidnight tz now - appliedFrom tz now r) / MS_PER_DAY))
        else st := by
  have hp : purgeCondition now
      (chargeDays (todayMidnight tz now) (appliedFrom tz now r) r st).1 = false := by
    rw [purgeCondition_chargeDays]
    exact purgeCondition_of_on hon
  have heq : applyDailyCosts tz now r st =
      chargeDays (todayMidnight tz now) (appliedFrom tz now r) r st := by
    unfold applyDailyCosts
    simp only [not_lt.mpr hwin, if_false]
    unfold purgeIfDue
    simp only [hp, Bool.false_eq_true, if_false]
  rw [heq]
  unfold chargeDays chargedRecord
  dsimp only
  by_cases hd : 0 < (todayMidnight tz now - appliedFrom tz now r) / MS_PER_DAY
  · have hround : round2half (r.points -
        (((todayMidnight tz now - appliedFrom tz now r) / MS_PER_DAY : Int) : ℚ))
        = r.points - (((todayMidnight tz now - appliedFrom tz now r) / MS_PER_DAY : Int) : ℚ) :=
      round2half_of_isHalf (isHalf_sub_int hhalf _)
    simp only [gt_iff_lt, hd, if_true, hon, mul_one, hround]
    exact ⟨trivial, trivial⟩
  · simp only [gt_iff_lt, hd, if_false]
    exact ⟨trivial, trivial⟩

theorem max_zero_sub_max_zero (x : ℚ) {y : ℚ} (hy : 0 ≤ y) :
    max 0 (max 0 x - y) = max 0 (x - y) := by
  rcases le_total 0 x with h | h
  · rw [max_eq_right h]
  · rw [max_eq_left h, zero_sub, max_eq_left (by linarith), max_eq_left (by linarith)]

theorem chargedRecord_chargedRecord (r : AccountState) (a d1 d2 : Int)
    (h1 : 0 ≤ d1) (h2 : 0 ≤ d2) :
    chargedRecord (chargedRecord r a d1) (a + d1 * MS_PER_DAY) d2
      = chargedRecord r a (d1 + d2) := by
  unfold chargedRecord
  by_cases hd1 : 0 < d1
  · by_cases hd2 : 0 < d2
    · have h12 : 0 < d1 + d2 := by omega
      simp only [hd1, hd2, h12, if_true]
      have hp : max 0 (max 0 (r.points - (d1 : ℚ)) - (d2 : ℚ))
          = max 0 (r.points - ((d1 + d2 : Int) : ℚ)) := by
        rw [max_zero_sub_max_zero _ (by exact_mod_cast h2)]
        push_cast
        ring_nf
      rw [hp]
      have hl : a + d1 * MS_PER_DAY + d2 * MS_PER_DAY = a + (d1 + d2) * MS_PER_DAY := by ring
      rw [hl]
    · have hz : d2 = 0 := by omega
      subst hz
      simp only [hd1, if_true, lt_self_iff_false, if_false, add_zero]
  · have hz : d1 = 0 := by omega
    subst hz
    simp only [lt_self_iff_false, if_false, zero_mul, add_zero, zero_add]

theorem chargedRecord_frame (r : AccountState) (f d : Int) (hd : 0 ≤ d)
    (hf : r.lastCostAppliedAt = f) :
    (chargedRecord r f d).accessOn = r.accessOn ∧
      (chargedRecord r f d).handle = r.handle ∧
      (chargedRecord r f d).lastCostAppliedAt = f + d * MS_PER_DAY ∧
      ((chargedRecord r f d).points = r.points ∨
        (chargedRecord r f d).points = max 0 (r.points - (d : ℚ))) := by
  unfold chargedRecord
  by_cases h : 0 < d
  · simp only [h, if_true]
    exact ⟨trivial, trivial, trivial, Or.inr trivial⟩
  · have hz : d = 0 := by omega
    subst hz
    simp only [lt_self_iff_false, if_false, zero_mul, add_zero]
    exact ⟨trivial, trivial, hf, Or.inl trivial⟩

theorem chargedRecord_isHalf (r : AccountState) (f d : Int) (hhalf : IsHalfMultiple r.points) :
    IsHalfMultiple (chargedRecord r f d).points := by
  unfold chargedRecord
  split
  · exact isHalf_max_zero (isHalf_sub_int hhalf d)
  · exact hhalf

/-- Settling at `t1` and then at `t2 ≥ t1` gives the record that one settlement at
`t2` gives, for an account with access on whose positive `lastCostAppliedAt` is
not after the midnight of `t1`. -/
theorem applyDailyCosts_compose (tz t1 t2 : Int) (r : AccountState) (st st2 st3 : Store)
    (hon : r.accessOn = true) (hhalf : IsHalfMultiple r.points)
    (hpos : 0 < r.lastCostAppliedAt) (hle : r.lastCostAppliedAt ≤ todayMidnight tz t1)
    (h12 : t1 ≤ t2) :
    (applyDailyCosts tz t2 (applyDailyCosts tz t1 r st).1 st2).1
      = (applyDailyCosts tz t2 r st3).1 := by
  have hm := @todayMidnight_mono tz t1 t2 h12
  have hF1 : appliedFrom tz t1 r = r.lastCostAppliedAt :=
    appliedFrom_of_ne_zero (by omega)
  have hF2 : appliedFrom tz t2 r = r.lastCostAppliedAt :=
    appliedFrom_of_ne_zero (by omega)
  have hd1 : 0 ≤ (todayMidnight tz t1 - r.lastCostAppliedAt) / MS_PER_DAY := by
    rw [MS_PER_DAY_eq]
    omega
  have e1 := (applyDailyCosts_on tz t1 r st hon hhalf (by rw [hF1]; exact hle)).1
  rw [hF1] at e1
  have hfr := chargedRecord_frame r r.lastCostAppliedAt
    ((todayMidnight tz t1 - r.lastCostAppliedAt) / MS_PER_DAY) hd1 rfl
  have hL : (applyDailyCosts tz t1 r st).1.lastCostAppliedAt
      = r.lastCostAppliedAt
        + (todayMidnight tz t1 - r.lastCostAppliedAt) / MS_PER_DAY * MS_PER_DAY := by
    rw [e1]
    exact hfr.2.2.1
  have hLpos : 0 < (applyDailyCosts tz t1 r st).1.lastCostAppliedAt := by
    rw [hL]
    rw [MS_PER_DAY_eq] at hd1 ⊢
    omega
  have hF3 : appliedFrom tz t2 (applyDailyCosts tz t1 r st).1
      = (applyDailyCosts tz t1 r st).1.lastCostAppliedAt :=
    appliedFrom_of_ne_zero (by omega)
  have hLle : (applyDailyCosts tz t1 r st).1.lastCostAppliedAt ≤ todayMidnight tz t2 := by
    rw [hL]
    rw [MS_PER_DAY_eq] at hd1 ⊢
    omega
  have e2 := (applyDailyCosts_on tz t2 (applyDailyCosts tz t1 r st).1 st2
    (by rw [e1]; exact hfr.1.trans hon)
    (by rw [e1]; exact chargedRecord_isHalf r _ _ hhalf)
    (by rw [hF3]; exact hLle)).1
  have e3 := (applyDailyCosts_on tz t2 r st3 hon hhalf (by rw [hF2]; omega)).1
  rw [e2, e3, hF3, hF2, hL, e1]
  have hd2 : 0 ≤ (todayMidnight tz t2 - (r.lastCostAppliedAt
      + (todayMidnight tz t1 - r.lastCostAppliedAt) / MS_PER_DAY * MS_PER_DAY)) / MS_PER_DAY := by
    rw [MS_PER_DAY_eq] at hd1 ⊢
    omega
  rw [chargedRecord_chargedRecord r r.lastCostAppliedAt _ _ hd1 hd2]
  congr 1
  rw [MS_PER_DAY_eq]
  omega

theorem applyDailyCosts_settled_on (tz now : Int) (r : AccountState) (st : Store)
    (hon : r.accessOn = true) (hhalf : IsHalfMultiple r.points)
    (hpos : 0 < r.lastCostAppliedAt) (hle : r.lastCostAppliedAt ≤ todayMidnight tz now) :
    (applyDailyCosts tz now r st).1.accessOn = true ∧
      IsHalfMultiple (applyDailyCosts tz now r st).1.points ∧
      0 < (applyDailyCosts tz now r st).1.lastCostAppliedAt ∧
      (applyDailyCosts tz now r st).1.lastCostAppliedAt ≤ todayMidnight tz now ∧
      (applyDailyCosts tz now r st).1.handle = r.handle := by
  have hF : appliedFrom tz now r = r.lastCostAppliedAt := appliedFrom_of_ne_zero (by omega)
  have hd : 0 ≤ (todayMidnight tz now - r.lastCostAppliedAt) / MS_PER_DAY := by
    rw [MS_PER_DAY_eq]
    omega
  have e := (applyDailyCosts_on tz now r st hon hhalf (by rw [hF]; exact hle)).1
  rw [hF] at e
  have hfr := chargedRecord_frame r r.lastCostAppliedAt _ hd rfl
  rw [e]
  refine ⟨hfr.1.trans hon, chargedRecord_isHalf r _ _ hhalf, ?_, ?_, hfr.2.1⟩
  · rw [hfr.2.2.1]
    rw [MS_PER_DAY_eq] at hd ⊢
    omega
  · rw [hfr.2.2.1]
    rw [MS_PER_DAY_eq] at hd ⊢
    omega

section Reads

variable {tz m0 : Int} {u : User} {r : AccountState}

theorem step_read (hon : r.accessOn = true) (hhalf : IsHalfMultiple r.points)
    (hpos : 0 < r.lastCostAppliedAt) (hle : r.lastCostAppliedAt ≤ todayMidnight tz m0)
    (hhandle : r.handle = u.handle) {T now : Int} {st : Store} (op : Op)
    (h : SettledBetween tz m0 T (toAccountKey u.handle) r st) (hT : T ≤ now)
    (hop : op.isReadBy u = true) :
    SettledBetween tz m0 now (toAccountKey u.handle) r (step tz now op st) := by
  obtain ⟨τ, h0τ, hτT, hacc⟩ := h
  have hkeep : SettledBetween tz m0 now (toAccountKey u.handle) r st :=
    ⟨τ, h0τ, le_trans hτT hT, hacc⟩
  have hsettle : SettledBetween tz m0 now (toAccountKey u.handle) r
      (settleAccount tz now u.handle st).2 := by
    have hleτ : r.lastCostAppliedAt ≤ todayMidnight tz τ :=
      le_trans hle (todayMidnight_mono h0τ)
    have hs := applyDailyCosts_settled_on tz τ r emptyStore hon hhalf hpos hleτ
    have hload : getOrInitState tz now u.handle st
        = ((applyDailyCosts tz τ r emptyStore).1, st) := by
      unfold getOrInitState Store.getAccount
      rw [hacc]
    have hcomp := applyDailyCosts_compose tz τ now r emptyStore st emptyStore hon hhalf hpos
      hleτ (le_trans hτT hT)
    have hF : appliedFrom tz now (applyDailyCosts tz τ r emptyStore).1
        = (applyDailyCosts tz τ r emptyStore).1.lastCostAppliedAt :=
      appliedFrom_of_ne_zero (by omega)
    have hwin : appliedFrom tz now (applyDailyCosts tz τ r emptyStore).1
        ≤ todayMidnight tz now := by
      rw [hF]
      exact le_trans hs.2.2.2.1 (todayMidnight_mono (le_trans hτT hT))
    have hon2 := applyDailyCosts_on tz now (applyDailyCosts tz τ r emptyStore).1 st
      hs.1 hs.2.1 hwin
    unfold settleAccount
    rw [hload]
    dsimp only
    rw [hon2.2]
    split
    · refine ⟨now, le_trans h0τ (le_trans hτT hT), le_refl _, ?_⟩
      rw [← hon2.1, hcomp, hs.2.2.2.2, hhandle]
      unfold Store.setAccount
      simp
    · exact hkeep
  cases op with
  | status user =>
    cases user with
    | none => simp [Op.isReadBy] at hop
    | some v =>
      have hv : v = u := by simpa [Op.isReadBy] using hop
      subst hv
      show SettledBetween tz m0 now _ r (statusRoute tz now (some v) st).2
      by_cases hh : v.handle = ""
      · unfold statusRoute buildStatus
        simp only [hh, if_true]
        rw [hh] at hkeep
        exact hkeep
      · rw [statusRoute_eq tz now v st hh]
        exact hsettle
  | gate user =>
    cases user with
    | none => simp [Op.isReadBy] at hop
    | some v =>
      have hv : v = u := by simpa [Op.isReadBy] using hop
      subst hv
      show SettledBetween tz m0 now _ r (getEffectiveAccess tz now (some v) st).2
      rw [getEffectiveAccess_store]
      exact hsettle
  | checkin user => simp [Op.isReadBy] at hop
  | toggle user desired => simp [Op.isReadBy] at hop
  | redeem user code => simp [Op.isReadBy] at hop

theorem run_reads (hon : r.accessOn = true) (hhalf : IsHalfMultiple r.points)
    (hpos : 0 < r.lastCostAppliedAt) (hle : r.lastCostAppliedAt ≤ todayMidnight tz m0)
    (hhandle : r.handle = u.handle) (now : Int) (events : List (Int × Op)) :
    ∀ (T : Int) (st : Store), T ≤ now →
      SettledBetween tz m0 T (toAccountKey u.handle) r st →
      List.Chain (fun a b => a ≤ b) T (events.map Prod.fst) →
      (∀ ev ∈ events, ev.2.isReadBy u = true ∧ ev.1 ≤ now) →
      SettledBetween tz m0 now (toAccountKey u.handle) r (run tz st events) := by
  induction events with
  | nil =>
    intro T st hT h _ _
    obtain ⟨τ, h1, h2, h3⟩ := h
    exact ⟨τ, h1, le_trans h2 hT, h3⟩
  | cons ev rest ih =>
    intro T st hT h hchain hev
    obtain ⟨t, op⟩ := ev
    rw [List.map_cons, List.chain_cons] at hchain
    have h0 := hev (t, op) (List.mem_cons_self _ _)
    exact ih t (step tz t op st) h0.2
      (step_read hon hhalf hpos hle hhandle op h hchain.1 h0.1) hchain.2
      (fun ev2 h2 => hev ev2 (List.mem_cons_of_mem _ h2))

end Reads

/-! ## C28: toggling off after unsettled days -/

/-- C28 (amended): for a stored record with `accessOn = true`, `points = p` a
multiple of 0.5 and a set (non-zero) `lastCostAppliedAt = a` with
`d = floor((todayMidnight - a) / oneDay) ≥ 1`, a toggle to off first charges
the `d` days and then turns access off: the answer and the stored record carry
`max(0, p - d)`, the balance of a plain settlement at that moment. -/
theorem toggleRoute_off_charges_first (tz now : Int) (u : User) (st : Store)
    (r : AccountState) (a d : Int)
    (hget : st.getAccount (toAccountKey u.handle) = some r)
    (hon : r.accessOn = true) (hhalf : IsHalfMultiple r.points)
    (ha : r.lastCostAppliedAt = a) (ha0 : a ≠ 0)
    (hd : d = (todayMidnight tz now - a) / MS_PER_DAY) (hpos : 1 ≤ d) :
    (toggleRoute tz now (some u) (some false) st).1
        = .toggle false (max 0 (r.points - (d : ℚ))) ∧
      (applyDailyCosts tz now r st).1.points = max 0 (r.points - (d : ℚ)) ∧
      (toggleRoute tz now (some u) (some false) st).2.getAccount (toAccountKey u.handle)
        = some { r with
            points := max 0 (r.points - (d : ℚ))
            lastCostAppliedAt := a + d * MS_PER_DAY
            accessOn := false
            accessOffSince := some now } := by
  have hF : appliedFrom tz now r = a := by
    rw [appliedFrom_of_ne_zero (by rw [ha]; exact ha0), ha]
  have hwin : appliedFrom tz now r ≤ todayMidnight tz now := by
    rw [hF]
    rw [MS_PER_DAY_eq] at hd
    omega
  have hS := (applyDailyCosts_on tz now r st hon hhalf hwin).1
  rw [hF, ← hd] at hS
  have hrec : chargedRecord r a d =
      { r with points := max 0 (r.points - (d : ℚ)), lastCostAppliedAt := a + d * MS_PER_DAY } := by
    unfold chargedRecord
    rw [if_pos (by omega)]
  rw [hrec] at hS
  have hload : getOrInitState tz now u.handle st = (r, st) := by
    unfold getOrInitState
    rw [hget]
  unfold toggleRoute
  dsimp only
  rw [hload]
  dsimp only
  rw [hS]
  refine ⟨?_, rfl, ?_⟩
  · simp [hon]
  · simp [hon, Store.getAccount, Store.setAccount]

/-- Witness of C28 (amended): 20 points last settled five days before are 15
points in the answer of a toggle to off at 01:00 of 2024-10-04. -/
theorem toggleRoute_off_charges_first_witness :
    (toggleRoute 0 1728003600000 (some exampleUser) (some false)
        (storeWith { onAccount 20 with lastCostAppliedAt := 1727568000000 })).1
      = .toggle false (max 0 (20 - ((5 : Int) : ℚ))) :=
  (toggleRoute_off_charges_first 0 1728003600000 exampleUser
    (storeWith { onAccount 20 with lastCostAppliedAt := 1727568000000 })
    { onAccount 20 with lastCostAppliedAt := 1727568000000 } 1727568000000 5 rfl rfl
    ⟨40, by
      show (20 : ℚ) = ((40 : Int) : ℚ) / 2
      norm_num⟩
    rfl (by decide) (by decide) (by decide)).1

/-- C28 as stated fails at `lastCostAppliedAt = 0`, which the source reads as
unset: for the account created five days before 2024-10-04 the claim counts
`d = 20000` days and a balance of 0, while the toggle to off charges the 5 days
since the creation midnight and answers 15 points. -/
theorem toggle_off_unset_counterexample :
    unsetAccount.accessOn = true ∧
      (todayMidnight 0 1728000000000 - unsetAccount.lastCostAppliedAt) / MS_PER_DAY = 20000 ∧
      (toggleRoute 0 1728000000000 (some exampleUser) (some false)
        (storeWith unsetAccount)).1 = .toggle false 15 ∧
      (15 : ℚ) ≠ max 0 (20 - ((20000 : Int) : ℚ)) := by
  have e : max 0 (round2half (20 - ((5 * 1 : Int) : ℚ))) = (15 : ℚ) := by
    have h := round2half_half 30
    norm_num at h ⊢
    rw [h]
    norm_num
  have h1 : (toggleRoute 0 1728000000000 (some exampleUser) (some false)
      (storeWith unsetAccount)).1
      = .toggle false (max 0 (round2half (20 - ((5 * 1 : Int) : ℚ)))) := rfl
  rw [e] at h1
  refine ⟨rfl, by decide, h1, ?_⟩
  norm_num

/-! ## C29: settlement composes over time -/

/-- C29 (amended): for a record with `accessOn = true`, `points` a multiple of
0.5 and a positive `lastCostAppliedAt ≤ todayMidnight(t1)`, and clock readings
`t1 ≤ t2`, settling at `t1` and then at `t2` yields the same `points` and the
same `lastCostAppliedAt` (indeed the same record) as settling once at `t2`. -/
theorem applyDailyCosts_twice (tz t1 t2 : Int) (r : AccountState) (st st2 st3 : Store)
    (hon : r.accessOn = true) (hhalf : IsHalfMultiple r.points)
    (hpos : 0 < r.lastCostAppliedAt) (hle : r.lastCostAppliedAt ≤ todayMidnight tz t1)
    (h12 : t1 ≤ t2) :
    (applyDailyCosts tz t2 (applyDailyCosts tz t1 r st).1 st2).1.points
        = (applyDailyCosts tz t2 r st3).1.points ∧
      (applyDailyCosts tz t2 (applyDailyCosts tz t1 r st).1 st2).1.lastCostAppliedAt
        = (applyDailyCosts tz t2 r st3).1.lastCostAppliedAt ∧
      (applyDailyCosts tz t2 (applyDailyCosts tz t1 r st).1 st2).1
        = (applyDailyCosts tz t2 r st3).1 := by
  have h := applyDailyCosts_compose tz t1 t2 r st st2 st3 hon hhalf hpos hle h12
  exact ⟨congrArg AccountState.points h, congrArg AccountState.lastCostAppliedAt h, h⟩

/-- Witness of C29 (amended): 5 points settled at 01:00 of 2024-10-07 and again
at 01:00 of 2024-10-14 (the balance reaches zero in between). -/
theorem applyDailyCosts_twice_witness :
    (applyDailyCosts 0 1728867600000
        (applyDailyCosts 0 1728262800000 (onAccount 5) emptyStore).1 emptyStore).1.points
      = (applyDailyCosts 0 1728867600000 (onAccount 5) emptyStore).1.points :=
  (applyDailyCosts_twice 0 1728262800000 1728867600000 (onAccount 5) emptyStore emptyStore
    emptyStore rfl
    ⟨10, by
      show (5 : ℚ) = ((10 : Int) : ℚ) / 2
      norm_num⟩
    (by decide) (by decide) (by decide)).1

/-- C29 as stated fails at `lastCostAppliedAt = 0`, which the source reads as
unset: for a record whose `createdAt` is 2024-10-06, settlement at 01:00 of
2024-10-04 finds the creation midnight ahead of the clock and clamps to that
day, so the later settlement of 2024-10-14 charges 10 days (10 points left),
while a single settlement on 2024-10-14 charges the 8 days since the creation
midnight (12 points left). -/
theorem settle_twice_unset_counterexample :
    lateCreatedAccount.accessOn = true ∧
      lateCreatedAccount.lastCostAppliedAt ≤ todayMidnight 0 1728003600000 ∧
      (1728003600000 : Int) ≤ 1728867600000 ∧
      (applyDailyCosts 0 1728867600000
          (applyDailyCosts 0 1728003600000 lateCreatedAccount emptyStore).1
          emptyStore).1.points = 10 ∧
      (applyDailyCosts 0 1728867600000 lateCreatedAccount emptyStore).1.points = 12 := by
  have e10 : max 0 (round2half (20 - ((10 * 1 : Int) : ℚ))) = (10 : ℚ) := by
    have h := round2half_half 20
    norm_num at h ⊢
    rw [h]
    norm_num
  have e12 : max 0 (round2half (20 - ((8 * 1 : Int) : ℚ))) = (12 : ℚ) := by
    have h := round2half_half 24
    norm_num at h ⊢
    rw [h]
    norm_num
  have h1 : (applyDailyCosts 0 1728867600000
      (applyDailyCosts 0 1728003600000 lateCreatedAccount emptyStore).1
      emptyStore).1.points = max 0 (round2half (20 - ((10 * 1 : Int) : ℚ))) := rfl
  have h2 : (applyDailyCosts 0 1728867600000 lateCreatedAccount emptyStore).1.points
      = max 0 (round2half (20 - ((8 * 1 : Int) : ℚ))) := rfl
  rw [e10] at h1
  rw [e12] at h2
  exact ⟨rfl, by decide, by decide, h1, h2⟩

/-! ## C30: a balance buys that many days of access -/

/-- C30 (amended): a stored record has `accessOn = true`, `points = p` a multiple
of 0.5 and `lastCostAppliedAt` equal to a non-zero (positive) local midnight
`m0`, the start of day 0.  After any status reads and gate evaluations by its
user at non-decreasing clock readings from `m0` on (no check-in, toggle or
redemption), the access gate evaluated at a later reading whose local midnight
is `m0 + k * MS_PER_DAY`, `k ≥ 0` (day `k`, the days in between lasting 24 hours
each), allows access exactly when `k < p`, and otherwise denies with
`NO_POINTS`. -/
theorem gate_allows_iff_days_lt_points (tz m0 now : Int) (u : User) (st : Store)
    (r : AccountState) (events : List (Int × Op)) (k : Int)
    (hget : st.getAccount (toAccountKey u.handle) = some r)
    (hhandle : r.handle = u.handle)
    (hon : r.accessOn = true) (hhalf : IsHalfMultiple r.points)
    (hmid : todayMidnight tz m0 = m0) (hlca : r.lastCostAppliedAt = m0) (hpos : 0 < m0)
    (hchain : List.Chain (fun a b => a ≤ b) m0 (events.map Prod.fst))
    (hev : ∀ ev ∈ events, ev.2.isReadBy u = true ∧ ev.1 ≤ now)
    (hk : todayMidnight tz now - m0 = k * MS_PER_DAY) (hk0 : 0 ≤ k) :
    ((getEffectiveAccess tz now (some u) (run tz st events)).1.allowed = true ↔
        (k : ℚ) < r.points) ∧
      (¬ (k : ℚ) < r.points →
        (getEffectiveAccess tz now (some u) (run tz st events)).1
          = { allowed := false, reason := some "NO_POINTS" }) := by
  have hposr : 0 < r.lastCostAppliedAt := by rw [hlca]; exact hpos
  have hler : r.lastCostAppliedAt ≤ todayMidnight tz m0 := by rw [hlca, hmid]
  have hm0now : m0 ≤ now := by
    have h3 := todayMidnight_le tz now
    rw [MS_PER_DAY_eq] at hk
    omega
  have hdays : (todayMidnight tz now - m0) / MS_PER_DAY = k := by
    rw [hk]
    exact Int.mul_ediv_cancel k (by decide)
  have hF : ∀ t, appliedFrom tz t r = m0 := by
    intro t
    rw [appliedFrom_of_ne_zero (by omega), hlca]
  have hinit : SettledBetween tz m0 m0 (toAccountKey u.handle) r st := by
    refine ⟨m0, le_refl _, le_refl _, ?_⟩
    have h0 := (applyDailyCosts_on tz m0 r emptyStore hon hhalf (by rw [hF, hmid])).1
    rw [hF, hmid, sub_self, Int.zero_ediv] at h0
    have hr : chargedRecord r m0 0 = r := by
      unfold chargedRecord
      simp
    rw [h0, hr]
    exact hget
  obtain ⟨τ, h0τ, hτnow, hacc⟩ :=
    run_reads hon hhalf hposr hler hhandle now events m0 st hm0now hinit hchain hev
  have hleτ : r.lastCostAppliedAt ≤ todayMidnight tz τ :=
    le_trans hler (todayMidnight_mono h0τ)
  have hload : getOrInitState tz now u.handle (run tz st events)
      = ((applyDailyCosts tz τ r emptyStore).1, run tz st events) := by
    unfold getOrInitState Store.getAccount
    rw [hacc]
  have hS : (settleAccount tz now u.handle (run tz st events)).1 = chargedRecord r m0 k := by
    unfold settleAccount
    rw [hload]
    dsimp only
    rw [applyDailyCosts_compose tz τ now r emptyStore (run tz st events) emptyStore hon hhalf
      hposr hleτ hτnow]
    have h1 := (applyDailyCosts_on tz now r emptyStore hon hhalf (by
      rw [hF]
      exact le_trans (le_of_eq hmid.symm) (todayMidnight_mono hm0now))).1
    rw [hF, hdays] at h1
    exact h1
  have hfr := chargedRecord_frame r m0 k hk0 hlca
  have hpts : (0 < (chargedRecord r m0 k).points) ↔ (k : ℚ) < r.points := by
    unfold chargedRecord
    by_cases hkpos : 0 < k
    · simp only [hkpos, if_true]
      constructor
      · intro h
        by_contra hc
        rw [max_eq_left (by linarith)] at h
        exact lt_irrefl _ h
      · intro h
        exact lt_max_of_lt_right (by linarith)
    · have hz : k = 0 := by omega
      subst hz
      simp
  rw [getEffectiveAccess_eq, hS]
  have hon2 : (chargedRecord r m0 k).accessOn = true := hfr.1.trans hon
  rw [if_neg (by rw [hon2]; simp)]
  by_cases hp : (chargedRecord r m0 k).points ≤ 0
  · have hnot : ¬ (k : ℚ) < r.points := fun h => absurd (hpts.mpr h) (not_lt.mpr hp)
    rw [if_pos hp]
    exact ⟨⟨fun h => (by cases h), fun h => absurd h hnot⟩, fun _ => rfl⟩
  · have hlt : (k : ℚ) < r.points := hpts.mp (not_le.mp hp)
    rw [if_neg hp]
    exact ⟨⟨fun _ => hlt, fun _ => rfl⟩, fun h => absurd hlt h⟩

/-- Witness of C30 (amended): a 20-point account settled through 2024-10-04 is
read on 2024-10-05 and 2024-10-07 and is allowed at noon of day 19, whose
midnight is 19 times 24 hours after that of 2024-10-04. -/
theorem gate_allows_iff_days_lt_points_witness :
    (getEffectiveAccess 0 1729684800000 (some exampleUser)
      (run 0 (storeWith (onAccount 20))
        [(1728090000000, .status (some exampleUser)),
         (1728259200000, .gate (some exampleUser))])).1.allowed = true :=
  ((gate_allows_iff_days_lt_points 0 1728000000000 1729684800000 exampleUser
    (storeWith (onAccount 20)) (onAccount 20)
    [(1728090000000, .status (some exampleUser)), (1728259200000, .gate (some exampleUser))]
    19 rfl rfl rfl
    ⟨40, by
      show (20 : ℚ) = ((40 : Int) : ℚ) / 2
      norm_num⟩
    (by decide) rfl (by decide)
    (by
      simp only [List.map_cons, List.map_nil, List.chain_cons]
      exact ⟨by decide, by decide, List.Chain.nil⟩)
    (by
      intro ev hmem
      simp only [List.mem_cons, List.mem_singleton, List.not_mem_nil, or_false] at hmem
      rcases hmem with h | h
      · subst h
        exact ⟨by decide, by decide⟩
      · subst h
        exact ⟨by decide, by decide⟩)
    (by decide) (by decide)).1).mpr (by
      show ((19 : Int) : ℚ) < 20
      norm_num)

/-- C30 as stated fails when the midnight of day 0 is the timestamp `0`, which
the source reads as unset: for the 20-point account created on 2024-09-29 the
gate of 2024-10-04, day 20000, charges the 5 days since the creation midnight
and allows access, although 20000 is not below 20. -/
theorem gate_unset_counterexample :
    unsetAccount.lastCostAppliedAt = todayMidnight 0 0 ∧
      todayMidnight 0 1728000000000 - todayMidnight 0 0 = 20000 * MS_PER_DAY ∧
      ¬ (((20000 : Int) : ℚ) < unsetAccount.points) ∧
      (getEffectiveAccess 0 1728000000000 (some exampleUser)
        (storeWith unsetAccount)).1.allowed = true := by
  have e : max 0 (round2half (20 - ((5 * 1 : Int) : ℚ))) = (15 : ℚ) := by
    have h := round2half_half 30
    norm_num at h ⊢
    rw [h]
    norm_num
  have hon : (settleAccount 0 1728000000000 exampleUser.handle
      (storeWith unsetAccount)).1.accessOn = true := rfl
  have hpts : (settleAccount 0 1728000000000 exampleUser.handle
      (storeWith unsetAccount)).1.points
      = max 0 (round2half (20 - ((5 * 1 : Int) : ℚ))) := rfl
  rw [e] at hpts
  refine ⟨by decide, by decide, ?_, ?_⟩
  · show ¬ (((20000 : Int) : ℚ) < 20)
    norm_num
  · rw [getEffectiveAccess_eq, if_neg (by rw [hon]; simp), hpts, if_neg (by norm_num)]

/-- The charge block counts whole multiples of `MS_PER_DAY` between the two
midnights it is given.  With the midnights of a zone that changes its clock,
2024-03-01 00:00 and 2024-03-21 00:00 of New York (1709269200000 and
1710993600000, which are 20 days less one hour apart), a 20-point account is
charged 19 days: it keeps 1 point on its twentieth day, and its
`lastCostAppliedAt` becomes 1710910800000, an hour after a local midnight. -/
theorem chargeDays_short_day :
    (1710993600000 - 1709269200000 : Int) = 20 * MS_PER_DAY - 3600000 ∧
      (chargeDays 1710993600000 1709269200000
        { onAccount 20 with lastCostAppliedAt := 1709269200000 } emptyStore).1.points = 1 ∧
      (chargeDays 1710993600000 1709269200000
        { onAccount 20 with lastCostAppliedAt := 1709269200000 }
        emptyStore).1.lastCostAppliedAt = 1710910800000 := by
  have e : max 0 (round2half (20 - ((19 * 1 : Int) : ℚ))) = (1 : ℚ) := by
    have h := round2half_half 2
    norm_num at h ⊢
    rw [h]
    norm_num
  have hpts : (chargeDays 1710993600000 1709269200000
      { onAccount 20 with lastCostAppliedAt := 1709269200000 } emptyStore).1.points
      = max 0 (round2half (20 - ((19 * 1 : Int) : ℚ))) := rfl
  rw [e] at hpts
  exact ⟨by decide, hpts, rfl⟩

end Account
